import Mathlib

/-!
# go_payment: retry engine, consume loops and the payment orchestrator

A shallow embedding of the parts of the repository that the specification's
testable properties talk about:

* `internal/errors/errors.go`   : `PaymentError`, `RetryStrategy`,
  `CalculateNextInterval`, `ShouldRetry`;
* `internal/retry/retry.go`     : `WithRetry`;
* `internal/messaging/rabbitmq.go` : the three consume loops, `PublishPayment`,
  `PublishPaymentStatus`, `PublishNotification`, `Close`;
* `internal/metrics/queue_collector.go` : `Start`, `Stop`, `collectMetrics`;
* `internal/models/payment.go` : the records, `JSON.Scan`;
* `internal/service/async_service.go` : `handlePayment`, `handlePaymentStatus`,
  `ProcessPaymentAsync`, `UpdatePaymentStatusAsync`;
* `internal/payment` : the provider contract, the Stripe and the PayPal provider;
* `internal/service/payment_service.go` : `RefundPayment`, `HandleWebhook`,
  `GetPaymentStatus`.

Go's `error` interface is the type `GoError`; a nil error is `none`.
float64 values are IEEE 754 binary64 numbers with round to nearest, ties to even.
Effects (the context, the wrapped operation, the timer, the broker, the store)
are explicit state passing over a world state, and every run also returns the
list of effects it performed, in order.
-/

namespace GoPayment

/-! ## internal/errors/errors.go -/

/-- ErrorType is a Go string type. -/
abbrev ErrorType := String

def ErrorTypeValidation : ErrorType := "validation"
def ErrorTypeDatabase : ErrorType := "database"
def ErrorTypePayment : ErrorType := "payment"
def ErrorTypeMessaging : ErrorType := "messaging"
def ErrorTypeInternal : ErrorType := "internal"
def ErrorTypeAuthentication : ErrorType := "authentication"

/-- A time.Duration: a signed count of nanoseconds. -/
abbrev Duration := Int

def Second : Duration := 1000000000

mutual
/-- The struct PaymentError; the field Type is spelled Type_ here. -/
inductive PaymentError where
  | mk (Type_ : ErrorType) (Code : String) (Message : String) (Retryable : Bool)
      (OrderID : String) (ProviderErr : Option GoError)
/-- Values of the Go interface error that the modelled code can see: a pointer to a
PaymentError, the two errors a context reports, the store's not-found error, an error
built by fmt.Errorf around a cause (verb %w), and any other error value (identified
by its text). -/
inductive GoError where
  | payment (e : PaymentError)
  | canceled
  | deadlineExceeded
  | recordNotFound
  | wrapped (msg : String) (cause : GoError)
  | other (msg : String)
end

def PaymentError.Type_ : PaymentError → ErrorType
  | .mk t _ _ _ _ _ => t

def PaymentError.Code : PaymentError → String
  | .mk _ c _ _ _ _ => c

def PaymentError.Message : PaymentError → String
  | .mk _ _ m _ _ _ => m

def PaymentError.Retryable : PaymentError → Bool
  | .mk _ _ _ r _ _ => r

def PaymentError.OrderID : PaymentError → String
  | .mk _ _ _ _ o _ => o

def PaymentError.ProviderErr : PaymentError → Option GoError
  | .mk _ _ _ _ _ p => p

/-! ### float64

Go's float64 is IEEE 754 binary64 with round to nearest, ties to even. A value is
carried as the number it denotes; the two zeros are not told apart (no modelled
code can see the difference: comparisons and the conversion to int64 agree on them,
and every divisor is the constant 100). -/

/-- A float64 value: a finite number, an infinity, or NaN. -/
inductive Float64 where
  | finite (q : ℚ)
  | posInf
  | negInf
  | nan
  deriving DecidableEq

/-- The number of binary digits of n (0 for 0); the first argument bounds the
recursion and is n itself at every use. -/
def bitLength : Nat → Nat → Nat
  | 0, _ => 0
  | fuel + 1, n => if n = 0 then 0 else bitLength fuel (n / 2) + 1

/-- The integer part of log2(n / d), for positive n and d. -/
def floorLog2 (n d : Nat) : Int :=
  let e : Int := (bitLength n n : Int) - (bitLength d d : Int)
  if e ≥ 0 then
    if n ≥ d * 2 ^ e.toNat then e else e - 1
  else
    if n * 2 ^ (-e).toNat ≥ d then e else e - 1

/-- The integer nearest to n / d, the even one of two that are equally near. -/
def roundHalfEven (n d : Nat) : Nat :=
  let q := n / d
  let r := n % d
  if 2 * r < d then q
  else if 2 * r > d then q + 1
  else if q % 2 = 0 then q else q + 1

/-- The binary64 number nearest to a positive n / d: 53 significant bits, the exponent
of the smallest normal number for anything below it (subnormals), none for a result
beyond the largest finite number. -/
def roundPos (n d : Nat) : Option ℚ :=
  let e := max (floorLog2 n d) (-1022)
  let s := e - 52
  if s ≥ 0 then
    let m := roundHalfEven n (d * 2 ^ s.toNat)
    if m * 2 ^ s.toNat ≥ 2 ^ 1024 then none else some ((m * 2 ^ s.toNat : Nat) : ℚ)
  else
    let m := roundHalfEven (n * 2 ^ (-s).toNat) d
    some (mkRat m (2 ^ (-s).toNat))

/-- Rounding of an exact result to float64. -/
def Float64.round (q : ℚ) : Float64 :=
  if q = 0 then .finite 0
  else if q > 0 then
    match roundPos q.num.natAbs q.den with
    | some r => .finite r
    | none => .posInf
  else
    match roundPos q.num.natAbs q.den with
    | some r => .finite (-r)
    | none => .negInf

/-- The conversion float64(n) of an integer. -/
def Float64.ofInt (n : Int) : Float64 := Float64.round n

/-- The sign of a float64 value other than NaN: -1, 0 or 1. -/
def Float64.sign : Float64 → Int
  | .finite q => if q > 0 then 1 else if q < 0 then -1 else 0
  | .posInf => 1
  | .negInf => -1
  | .nan => 0

/-- The product x * y. -/
def Float64.mul : Float64 → Float64 → Float64
  | .nan, _ => .nan
  | _, .nan => .nan
  | .finite a, .finite b => Float64.round (a * b)
  | x, y =>
    if x.sign * y.sign > 0 then .posInf
    else if x.sign * y.sign < 0 then .negInf
    else .nan

/-- The quotient x / y; a zero divisor is read as +0. -/
def Float64.div : Float64 → Float64 → Float64
  | .nan, _ => .nan
  | _, .nan => .nan
  | .finite a, .finite b =>
    if b = 0 then
      (if a > 0 then .posInf else if a < 0 then .negInf else .nan)
    else Float64.round (a / b)
  | .finite _, _ => .finite 0
  | x, .finite b =>
    if x.sign * (if b < 0 then -1 else 1) > 0 then .posInf else .negInf
  | _, _ => .nan

/-- The comparison x > y; false when either side is NaN. -/
def Float64.gt : Float64 → Float64 → Bool
  | .nan, _ => false
  | _, .nan => false
  | .finite a, .finite b => decide (a > b)
  | .posInf, .posInf => false
  | .posInf, _ => true
  | .negInf, _ => false
  | .finite _, .posInf => false
  | .finite _, .negInf => true

def MinInt64 : Int := -9223372036854775808
def MaxInt64 : Int := 9223372036854775807

/-- The integer part of a number: rounding toward zero. -/
def truncate (q : ℚ) : Int := Int.tdiv q.num q.den

/-- The conversion int64(x): truncation toward zero. Go leaves the result for NaN, for
an infinity and for a value outside int64 to the implementation; MinInt64 is what
the amd64 compiler gives. -/
def Float64.toInt64 : Float64 → Int
  | .finite q => if MinInt64 ≤ truncate q ∧ truncate q ≤ MaxInt64 then truncate q else MinInt64
  | _ => MinInt64

instance : Mul Float64 := ⟨Float64.mul⟩
instance : Div Float64 := ⟨Float64.div⟩
instance (n : Nat) : OfNat Float64 n := ⟨Float64.round n⟩

/-- NewPaymentError: note the argument order (orderID before retryable). -/
def NewPaymentError (errType : ErrorType) (code message orderID : String) (retryable : Bool)
    (providerErr : Option GoError) : PaymentError :=
  .mk errType code message retryable orderID providerErr

/-- The struct RetryStrategy. MaxAttempts is a Go int, the two intervals are
time.Duration values (int64 nanoseconds), Multiplier is a float64. -/
structure RetryStrategy where
  MaxAttempts : Int
  InitialInterval : Duration
  MaxInterval : Duration
  Multiplier : Float64

def DefaultRetryStrategy : RetryStrategy where
  MaxAttempts := 3
  InitialInterval := 1 * Second
  MaxInterval := 30 * Second
  Multiplier := 2

/-- The conversion time.Duration(x) of a float64: the conversion to int64. -/
def durationOfFloat (x : Float64) : Duration := x.toInt64

/-- RetryStrategy.CalculateNextInterval (errors.go, lines 69-82): the product, the
comparison and the conversion back are float64 operations. -/
def RetryStrategy.CalculateNextInterval (s : RetryStrategy) (attempt : Int) : Duration :=
  if attempt ≤ 0 then
    s.InitialInterval
  else
    let interval : Float64 := Float64.ofInt s.InitialInterval * s.Multiplier
    let maxInterval : Float64 := Float64.ofInt s.MaxInterval
    if interval.gt maxInterval then
      s.MaxInterval
    else
      durationOfFloat interval

/-- RetryStrategy.ShouldRetry (errors.go, lines 85-95): the type assertion
err.(*PaymentError) succeeds exactly on the payment constructor. -/
def RetryStrategy.ShouldRetry (s : RetryStrategy) (attempt : Int) (err : GoError) : Bool :=
  if attempt ≥ s.MaxAttempts then
    false
  else
    match err with
    | .payment paymentErr => paymentErr.Retryable
    | _ => false

/-- The predicate "a PaymentError pointer whose Retryable flag is true" on error values. -/
def GoError.isRetryable : GoError → Bool
  | .payment e => e.Retryable
  | _ => false

/-! ## internal/retry/retry.go -/

/-- What WithRetry needs from its surroundings, over a world state σ:
ctxErr is ctx.Err(), op is the wrapped Operation (nil result = none), and wait is the
select over ctx.Done() and the timer armed for the given interval; its flag is true
when the ctx.Done() case is taken and false when the timer case is taken. -/
structure RetryEnv (σ : Type) where
  ctxErr : σ → Option GoError
  op : σ → σ × Option GoError
  wait : Duration → σ → σ × Bool

/-- The effects of a run of WithRetry: a call of the operation with what it returned,
and a backoff wait with its interval and whether the context ended it. -/
inductive RetryEvent where
  | invoke (result : Option GoError)
  | sleep (interval : Duration) (cancelled : Bool)

/-- The outcome of a run: final world state, returned error, effects in order. -/
structure RetryResult (σ : Type) where
  state : σ
  err : Option GoError
  trace : List RetryEvent

/-- The for loop of WithRetry (retry.go, lines 17-51) from a given value of attempt
and lastErr. The first argument bounds the number of iterations still to run; the
loop condition attempt < MaxAttempts is tested as in the source. log.Printf calls
are not modelled. -/
def retryLoop {σ : Type} (env : RetryEnv σ) (strategy : RetryStrategy) :
    Nat → Int → Option GoError → σ → RetryResult σ
  | 0, _, lastErr, s => ⟨s, lastErr, []⟩
  | fuel + 1, attempt, lastErr, s =>
    if attempt < strategy.MaxAttempts then
      match env.ctxErr s with
      | some _ => ⟨s, env.ctxErr s, []⟩
      | none =>
        match env.op s with
        | (s1, none) => ⟨s1, none, [.invoke none]⟩
        | (s1, some err) =>
          if !strategy.ShouldRetry attempt err then
            ⟨s1, some err, [.invoke (some err)]⟩
          else
            let interval := strategy.CalculateNextInterval attempt
            match env.wait interval s1 with
            | (s2, true) =>
              ⟨s2, env.ctxErr s2, [.invoke (some err), .sleep interval true]⟩
            | (s2, false) =>
              let r := retryLoop env strategy fuel (attempt + 1) (some err) s2
              ⟨r.state, r.err, .invoke (some err) :: .sleep interval false :: r.trace⟩
    else
      ⟨s, lastErr, []⟩

/-- WithRetry (retry.go, lines 14-54): the loop from attempt 0 with lastErr nil.
MaxAttempts iterations are always enough (see retryLoop_fuel_enough). -/
def WithRetry {σ : Type} (env : RetryEnv σ) (strategy : RetryStrategy) (s : σ) :
    RetryResult σ :=
  retryLoop env strategy strategy.MaxAttempts.toNat 0 none s

def RetryEvent.isInvoke : RetryEvent → Bool
  | .invoke _ => true
  | .sleep _ _ => false

def RetryEvent.isSleep : RetryEvent → Bool
  | .invoke _ => false
  | .sleep _ _ => true

/-- Number of times the operation was called in a run. -/
def invocations (t : List RetryEvent) : Nat := t.countP RetryEvent.isInvoke

/-- Number of backoff waits in a run. -/
def sleeps (t : List RetryEvent) : Nat := t.countP RetryEvent.isSleep

/-! ### Sample inputs for the retry engine -/

/-- A retryable messaging error, as built by ProcessPaymentAsync. -/
def sampleRetryable : GoError :=
  .payment (NewPaymentError ErrorTypeMessaging "PUBLISH_ERROR"
    "Failed to publish payment message" "O1" true (some (.other "broker down")))

/-- A terminal error: the not-found error of handlePaymentStatus. -/
def sampleTerminal : GoError :=
  .payment (NewPaymentError ErrorTypeDatabase "PAYMENT_NOT_FOUND"
    "Payment not found" "O1" false (some .recordNotFound))

/-- A strategy whose initial interval is above its maximum interval. -/
def invertedStrategy : RetryStrategy where
  MaxAttempts := 3
  InitialInterval := 2 * Second
  MaxInterval := 1 * Second
  Multiplier := 2

/-- A strategy whose maximum interval 2^53 + 3 ns is not a float64: the conversion
rounds it up to 2^53 + 4. The initial interval is 2^52 + 2 ns. -/
def roundedMaxStrategy : RetryStrategy where
  MaxAttempts := 3
  InitialInterval := 4503599627370498
  MaxInterval := 9007199254740995
  Multiplier := 2

/-- A strategy whose product 2^62 ns × 2 = 2^63 is one beyond the largest int64, with
the largest int64 as maximum interval. -/
def overflowStrategy : RetryStrategy where
  MaxAttempts := 3
  InitialInterval := 4611686018427387904
  MaxInterval := MaxInt64
  Multiplier := 2

/-- A strategy with a 3 ns initial interval and the float64 nearest to 1/3 as
multiplier. -/
def oneThirdStrategy : RetryStrategy where
  MaxAttempts := 3
  InitialInterval := 3
  MaxInterval := 30 * Second
  Multiplier := .finite (6004799503160661 / 18014398509481984)

/-- A strategy with a negative attempt budget. -/
def negativeStrategy : RetryStrategy where
  MaxAttempts := -1
  InitialInterval := 1 * Second
  MaxInterval := 30 * Second
  Multiplier := 2

/-- The default strategy with a single attempt. -/
def singleAttemptStrategy : RetryStrategy where
  MaxAttempts := 1
  InitialInterval := 1 * Second
  MaxInterval := 30 * Second
  Multiplier := 2

/-- A context that is never cancelled around an operation that always fails with
a retryable error. The world state counts the calls. -/
def alwaysRetryableEnv : RetryEnv Nat where
  ctxErr := fun _ => none
  op := fun n => (n + 1, some sampleRetryable)
  wait := fun _ n => (n, false)

/-- A context that is never cancelled around an operation that fails with a
terminal error. -/
def terminalEnv : RetryEnv Nat where
  ctxErr := fun _ => none
  op := fun n => (n + 1, some sampleTerminal)
  wait := fun _ n => (n, false)

/-- A context that is already cancelled. The world state counts the calls. -/
def cancelledEnv : RetryEnv Nat where
  ctxErr := fun _ => some .canceled
  op := fun n => (n + 1, some sampleRetryable)
  wait := fun _ n => (n, false)

/-- A context that is cancelled during the first backoff wait. The world state is
(number of calls, context cancelled). -/
def cancelInBackoffEnv : RetryEnv (Nat × Bool) where
  ctxErr := fun w => if w.2 then some .canceled else none
  op := fun w => ((w.1 + 1, w.2), some sampleRetryable)
  wait := fun _ w => ((w.1, true), true)

/-! ## internal/models -/

/-- A time.Time, as a count of nanoseconds. -/
abbrev Time := Int

/-- PaymentStatus is a Go string type. -/
abbrev PaymentStatus := String

def PaymentStatusPending : PaymentStatus := "pending"
def PaymentStatusCompleted : PaymentStatus := "completed"
def PaymentStatusFailed : PaymentStatus := "failed"
def PaymentStatusCancelled : PaymentStatus := "cancelled"
def PaymentStatusRefunded : PaymentStatus := "refunded"
def PaymentStatusUnknown : PaymentStatus := "unknown"

/-- The type models.JSON (a map from strings to arbitrary values), kept as a list of
key and rendered value; the nil map is the empty list. -/
abbrev JSON := List (String × String)

/-- Modelled from the spec: the type models.PaymentProvider is used by
models/message.go, grpc/server.go and handlers/payment_handler.go but declared in no
source file; every use converts a string to it, and the spec calls it the provider
type, so it is a string type. -/
abbrev PaymentProvider := String

/-- The struct models.Payment. CreatedAt and UpdatedAt come from the embedded
gorm.Model (its DeletedAt is left out: nothing in the repository deletes a payment).
The last three fields are not in the declaration in models/payment.go; they are the
fields that async_service.go and grpc/server.go set in their Payment literals.
Amounts are float64 values. Every field defaults to
its Go zero value. -/
structure Payment where
  CreatedAt : Time := 0
  UpdatedAt : Time := 0
  ID : String := ""
  OrderID : String := ""
  CustomerID : String := ""
  CustomerEmail : String := ""
  Amount : Float64 := 0
  Currency : String := ""
  Description : String := ""
  Status : PaymentStatus := ""
  ProviderType : String := ""
  TransactionID : String := ""
  PaymentDetails : JSON := []
  Metadata : JSON := []
  ErrorMessage : String := ""
  CompletedAt : Option Time := none
  Provider : PaymentProvider := ""
  PaymentDate : Time := 0
  MetaData : JSON := []

/-- The struct models.PaymentMessage (models/message.go). -/
structure PaymentMessage where
  OrderID : String := ""
  Amount : Float64 := 0
  Currency : String := ""
  Status : PaymentStatus := ""
  Provider : PaymentProvider := ""
  CustomerID : String := ""
  CustomerEmail : String := ""
  CreatedAt : Time := 0
  MetaData : JSON := []

/-- The struct models.PaymentStatusMessage, declared both in models/payment.go and in
models/message.go; the fields of both declarations, and the field Status that the
literals of payment_service.go set although neither declaration has it. -/
structure PaymentStatusMessage where
  OrderID : String := ""
  OldStatus : PaymentStatus := ""
  NewStatus : PaymentStatus := ""
  TransactionID : String := ""
  UpdatedAt : Time := 0
  Metadata : JSON := []
  Description : String := ""
  Status : PaymentStatus := ""

/-- RefundStatus is a Go string type. -/
abbrev RefundStatus := String

def RefundStatusPending : RefundStatus := "pending"
def RefundStatusCompleted : RefundStatus := "completed"
def RefundStatusFailed : RefundStatus := "failed"

/-- The struct models.Refund, with CreatedAt and UpdatedAt of the embedded gorm.Model. -/
structure Refund where
  CreatedAt : Time := 0
  UpdatedAt : Time := 0
  ID : String := ""
  PaymentID : String := ""
  Amount : Float64 := 0
  Currency : String := ""
  Status : RefundStatus := ""
  Reason : String := ""
  RefundedAt : Time := 0

/-- The struct models.NotificationMessage of models/notification.go (the declaration
with the ID and Status fields that PublishNotification and ConsumeNotifications read). -/
structure NotificationMessage where
  ID : String := ""
  Type_ : String := ""
  Status : String := ""
  Recipient : String := ""
  Subject : String := ""
  Content : String := ""
  Metadata : List (String × String) := []
  RetryCount : Int := 0
  CreatedAt : Time := 0
  UpdatedAt : Time := 0
  ScheduledAt : Option Time := none
  SentAt : Option Time := none

/-! ## internal/messaging/rabbitmq.go -/

def PaymentQueue : String := "payments"
def PaymentStatusQueue : String := "payment_status"
def NotificationQueue : String := "notifications"
def PaymentExchange : String := "payment_exchange"
def PaymentStatusExchange : String := "payment_status_exchange"
def DeadLetterExchange : String := "dead_letter_exchange"

/-- An amqp.Delivery: its delivery tag and its body. -/
structure Delivery where
  DeliveryTag : Nat
  Body : List UInt8

/-- The observable effects of the messaging and orchestration code, one constructor
per call: taking a delivery from the channel, the metrics hooks of
metrics/queue_collector.go, the acknowledgment calls on a delivery, the call of the
consumer's handler, the store calls (queries, create, status update, save, refund
insert) and the broker publishes. -/
inductive Effect where
  | received (tag : Nat)
  | trackProcessingTime (queue : String) (status : String)
  | processingTimeObserved (queue : String) (status : String)
  | recordProcessingError (queue : String) (errorType : String)
  | recordDeadLetterMessage (queue : String) (reason : String)
  | incrementRetryAttempt (queue : String)
  | incrementProcessedMessage (queue : String) (status : String)
  | incrementPublishedMessage (queue : String) (status : String)
  | reject (tag : Nat) (requeue : Bool)
  | ack (tag : Nat) (multiple : Bool)
  | handlerCalled (tag : Nat)
  | findProcessed (orderID : String)
  | create (orderID : String) (accepted : Bool)
  | publish (exchange : String) (key : String) (messageId : String) (accepted : Bool)
  | findByOrderID (orderID : String)
  | findByTransactionID (transactionID : String)
  | updateStatus (id : String) (status : String) (accepted : Bool)
  | save (id : String) (accepted : Bool)
  | createRefund (id : String) (accepted : Bool)
  | publishStatus (orderID : String) (accepted : Bool)

/-- The body of one iteration of the goroutine loop shared by ConsumePayments,
ConsumePaymentStatus and ConsumeNotifications (rabbitmq.go, lines 250-275, 297-322,
344-369), for the queue name and the status label of the loop. json.Unmarshal is the
parameter unmarshal (none = it returned an error); the handler runs on the world
state. The results of d.Reject and d.Ack are ignored, as in the source. -/
def consumeDelivery {Msg σ : Type} (queue : String) (status : Msg → String)
    (unmarshal : List UInt8 → Option Msg) (handler : Msg → σ → σ × Option GoError)
    (d : Delivery) (s : σ) : σ × List Effect :=
  match unmarshal d.Body with
  | none =>
    (s, [.received d.DeliveryTag,
         .trackProcessingTime queue "processing",
         .recordProcessingError queue "unmarshal_error",
         .reject d.DeliveryTag false,
         .recordDeadLetterMessage queue "unmarshal_error",
         .processingTimeObserved queue "processing"])
  | some msg =>
    match handler msg s with
    | (s1, some _) =>
      (s1, [.received d.DeliveryTag,
            .trackProcessingTime queue "processing",
            .handlerCalled d.DeliveryTag,
            .recordProcessingError queue "handler_error",
            .reject d.DeliveryTag true,
            .incrementRetryAttempt queue,
            .processingTimeObserved queue "processing"])
    | (s1, none) =>
      (s1, [.received d.DeliveryTag,
            .trackProcessingTime queue "processing",
            .handlerCalled d.DeliveryTag,
            .ack d.DeliveryTag false,
            .incrementProcessedMessage queue (status msg),
            .processingTimeObserved queue "processing"])

/-- The loop for d := range msgs, run over the deliveries that arrive (any finite
prefix of the channel), threading the world state and collecting the effects. -/
def consumeLoop {Msg σ : Type} (queue : String) (status : Msg → String)
    (unmarshal : List UInt8 → Option Msg) (handler : Msg → σ → σ × Option GoError) :
    List Delivery → σ → σ × List Effect
  | [], s => (s, [])
  | d :: ds, s =>
    let r1 := consumeDelivery queue status unmarshal handler d s
    let r2 := consumeLoop queue status unmarshal handler ds r1.1
    (r2.1, r1.2 ++ r2.2)

/-- The goroutine of ConsumePayments (rabbitmq.go, lines 249-276). -/
def ConsumePayments {σ : Type} (unmarshal : List UInt8 → Option PaymentMessage)
    (handler : PaymentMessage → σ → σ × Option GoError) :
    List Delivery → σ → σ × List Effect :=
  consumeLoop PaymentQueue (fun paymentMsg => paymentMsg.Status) unmarshal handler

/-- The goroutine of ConsumePaymentStatus (rabbitmq.go, lines 296-323). -/
def ConsumePaymentStatus {σ : Type} (unmarshal : List UInt8 → Option PaymentStatusMessage)
    (handler : PaymentStatusMessage → σ → σ × Option GoError) :
    List Delivery → σ → σ × List Effect :=
  consumeLoop PaymentStatusQueue (fun statusMsg => statusMsg.NewStatus) unmarshal handler

/-- The goroutine of ConsumeNotifications (rabbitmq.go, lines 343-370). -/
def ConsumeNotifications {σ : Type} (unmarshal : List UInt8 → Option NotificationMessage)
    (handler : NotificationMessage → σ → σ × Option GoError) :
    List Delivery → σ → σ × List Effect :=
  consumeLoop NotificationQueue (fun notificationMsg => notificationMsg.Status) unmarshal handler

def Effect.isReceived : Effect → Bool
  | .received _ => true
  | _ => false

/-- An acknowledgment decision: a call of Ack or of Reject on a delivery. -/
def Effect.isDecision : Effect → Bool
  | .ack _ _ => true
  | .reject _ _ => true
  | _ => false

def Effect.isHandlerCall : Effect → Bool
  | .handlerCalled _ => true
  | _ => false

/-- What the loop does with a delivery whose body does not deserialize. -/
def deadLetterEffects (queue : String) (tag : Nat) : List Effect :=
  [.received tag,
   .trackProcessingTime queue "processing",
   .recordProcessingError queue "unmarshal_error",
   .reject tag false,
   .recordDeadLetterMessage queue "unmarshal_error",
   .processingTimeObserved queue "processing"]

/-- What the loop does with a delivery whose handler returns an error. -/
def requeueEffects (queue : String) (tag : Nat) : List Effect :=
  [.received tag,
   .trackProcessingTime queue "processing",
   .handlerCalled tag,
   .recordProcessingError queue "handler_error",
   .reject tag true,
   .incrementRetryAttempt queue,
   .processingTimeObserved queue "processing"]

/-- The reading of "exactly one acknowledgment decision" for the effects
of one delivery: they start by taking that delivery and take no other, hold exactly
one Ack or Reject call, and that call is Ack(false) on the delivery exactly when
acked is true and a Reject on the delivery exactly when it is false. -/
def DecidedOnce (tag : Nat) (acked : Bool) (t : List Effect) : Prop :=
  t.head? = some (.received tag) ∧
  t.countP Effect.isReceived = 1 ∧
  t.countP Effect.isDecision = 1 ∧
  (Effect.ack tag false ∈ t ↔ acked = true) ∧
  ((∃ requeue, Effect.reject tag requeue ∈ t) ↔ acked = false)

/-- Whether a delivery deserializes and its handler returns nil in the given state. -/
def handledCleanly {Msg σ : Type} (unmarshal : List UInt8 → Option Msg)
    (handler : Msg → σ → σ × Option GoError) (d : Delivery) (s : σ) : Bool :=
  match unmarshal d.Body with
  | none => false
  | some msg => (handler msg s).2.isNone

def Effect.isRetryAttempt : Effect → Bool
  | .incrementRetryAttempt _ => true
  | _ => false

def Effect.isDeadLetter : Effect → Bool
  | .recordDeadLetterMessage _ _ => true
  | _ => false

/-- The world the orchestrator acts on: the payments table, the messages the broker
has accepted on the notifications queue, the clock, and the effects performed so far
(oldest first); further the refunds table and the status messages the broker has
accepted, both empty unless given. -/
structure World where
  payments : List Payment
  notifications : List NotificationMessage
  now : Time
  log : List Effect
  refunds : List Refund := []
  statusMessages : List PaymentStatusMessage := []

/-- What the collaborators decide: whether the store refuses an insert (unique index,
connection failure, ...), whether json.Marshal or the broker publish fails, how fmt
renders an amount with the verb %.2f, and whether the duplicate lookup of handlePayment
fails with a store error of its own (connection failure, ...; never, unless given). -/
structure AsyncEnv where
  createErr : World → Payment → Option GoError
  marshalErr : NotificationMessage → Option GoError
  publishErr : World → NotificationMessage → Option GoError
  formatAmount : Float64 → String
  findErr : World → String → Option GoError := fun _ _ => none

/-- The struct AsyncService: the fields db and rabbitmq are the World, strategy is the
retry strategy (NewAsyncService sets it to DefaultRetryStrategy). -/
structure AsyncService where
  strategy : RetryStrategy

def NewAsyncService : AsyncService where
  strategy := DefaultRetryStrategy

/-- The query db.Where("order_id = ? AND status != ?", orderID, Pending).First(...):
an error of the store itself, or else the first row of the table that matches, or
gorm's record-not-found error. -/
def findProcessed (env : AsyncEnv) (orderID : String) (w : World) :
    World × Except GoError Payment :=
  let w1 := { w with log := w.log ++ [.findProcessed orderID] }
  match env.findErr w orderID with
  | some err => (w1, .error err)
  | none =>
    match w.payments.find?
        (fun p => p.OrderID == orderID && p.Status != PaymentStatusPending) with
    | some p => (w1, .ok p)
    | none => (w1, .error .recordNotFound)

/-- The call db.Create(payment): the store refuses it with an error or appends the row;
gorm stamps CreatedAt and UpdatedAt of a new row with the current time. -/
def dbCreate (env : AsyncEnv) (payment : Payment) (w : World) : World × Option GoError :=
  match env.createErr w payment with
  | some err => ({ w with log := w.log ++ [.create payment.OrderID false] }, some err)
  | none =>
    ({ w with
        payments := w.payments ++ [{ payment with CreatedAt := w.now, UpdatedAt := w.now }]
        log := w.log ++ [.create payment.OrderID true] }, none)

/-- RabbitMQ.PublishNotification (rabbitmq.go, lines 204-232): marshal, publish to the
default exchange with the queue name as routing key, record the metric. -/
def PublishNotification (env : AsyncEnv) (msg : NotificationMessage) (w : World) :
    World × Option GoError :=
  match env.marshalErr msg with
  | some err =>
    ({ w with log := w.log ++ [.recordProcessingError NotificationQueue "marshal_error"] },
     some (.wrapped "failed to marshal notification message" err))
  | none =>
    match env.publishErr w msg with
    | some err =>
      ({ w with log := w.log ++ [.publish "" NotificationQueue msg.ID false,
                                 .recordProcessingError NotificationQueue "publish_error"] },
       some err)
    | none =>
      ({ w with
          notifications := w.notifications ++ [msg]
          log := w.log ++ [.publish "" NotificationQueue msg.ID true,
                           .incrementPublishedMessage NotificationQueue msg.Status] }, none)

/-- The closure operation of AsyncService.handlePayment (async_service.go, lines
53-101). -/
def handlePaymentOperation (env : AsyncEnv) (msg : PaymentMessage) (w : World) :
    World × Option GoError :=
  match findProcessed env msg.OrderID w with
  | (w1, .ok _) => (w1, none)
  | (w1, .error _) =>
    let payment : Payment :=
      { OrderID := msg.OrderID
        Amount := msg.Amount
        Currency := msg.Currency
        Status := msg.Status
        Provider := msg.Provider
        CustomerID := msg.CustomerID
        CustomerEmail := msg.CustomerEmail
        PaymentDate := msg.CreatedAt
        MetaData := msg.MetaData }
    match dbCreate env payment w1 with
    | (w2, some err) =>
      (w2, some (.payment (NewPaymentError ErrorTypeDatabase "DB_ERROR"
        "Failed to create payment record" msg.OrderID true (some err))))
    | (w2, none) =>
      let notification : NotificationMessage :=
        { Type_ := "email"
          Recipient := msg.CustomerEmail
          Subject := "Payment Received - Order " ++ msg.OrderID
          Content := "We have received your payment of " ++ env.formatAmount msg.Amount ++
            " " ++ msg.Currency
          CreatedAt := w2.now }
      ((PublishNotification env notification w2).1, none)

/-- The context context.Background() around an operation: never cancelled, so ctx.Err()
is nil and every backoff wait ends with the timer. -/
def backgroundEnv {σ : Type} (op : σ → σ × Option GoError) : RetryEnv σ where
  ctxErr := fun _ => none
  op := op
  wait := fun _ s => (s, false)

/-- AsyncService.handlePayment (async_service.go, lines 49-105). -/
def AsyncService.handlePayment (svc : AsyncService) (env : AsyncEnv) (msg : PaymentMessage)
    (w : World) : RetryResult World :=
  WithRetry (backgroundEnv (handlePaymentOperation env msg)) svc.strategy w

/-! ### Sample inputs for the consume loops and the orchestrator -/

/-- The payment message of the scenario of the specification. -/
def samplePaymentMessage : PaymentMessage :=
  { OrderID := "O1", Amount := 100, Currency := "USD", Status := PaymentStatusPending,
    Provider := "stripe", CustomerID := "C1", CustomerEmail := "buyer@example.com" }

/-- A decoder that rejects the empty body and decodes any other body to the sample. -/
def sampleUnmarshal : List UInt8 → Option PaymentMessage
  | [] => none
  | _ => some samplePaymentMessage

/-- A handler that always fails with a terminal error; the state counts its calls. -/
def failingHandler : PaymentMessage → Nat → Nat × Option GoError :=
  fun _ n => (n + 1, some sampleTerminal)

/-- A handler that always succeeds; the state counts its calls. -/
def succeedingHandler : PaymentMessage → Nat → Nat × Option GoError :=
  fun _ n => (n + 1, none)

def emptyDelivery : Delivery := ⟨7, []⟩

def jsonDelivery : Delivery := ⟨8, [123, 125]⟩

/-- Collaborators that never fail. -/
def reliableEnv : AsyncEnv where
  createErr := fun _ _ => none
  marshalErr := fun _ => none
  publishErr := fun _ _ => none
  formatAmount := fun _ => "100.00"

/-- The payment message of the scenario with the status Completed. -/
def completedPaymentMessage : PaymentMessage :=
  { samplePaymentMessage with Status := PaymentStatusCompleted }

/-- What the collaborators of the status handler and of the payment service decide, on
top of AsyncEnv: whether the store refuses a status update, a save or the insert of
a refund, whether the broker refuses a status message, and the identifier that
uuid.New() draws. -/
structure ServiceEnv extends AsyncEnv where
  updateErr : World → Payment → PaymentStatus → Option GoError
  saveErr : World → Payment → Option GoError
  createRefundErr : World → Refund → Option GoError
  statusPublishErr : World → PaymentStatusMessage → Option GoError
  newUUID : World → String

/-- The query db.Where("order_id = ?", orderID).First(...): the first row of the table
with that order id, or gorm's record-not-found error. -/
def findByOrderID (orderID : String) (w : World) : World × Except GoError Payment :=
  let w1 := { w with log := w.log ++ [.findByOrderID orderID] }
  match w.payments.find? (fun p => p.OrderID == orderID) with
  | some p => (w1, .ok p)
  | none => (w1, .error .recordNotFound)

/-- The call db.Model(payment).Update("status", status): the store refuses it with an
error, or sets the status (and the update time) of the rows whose primary key is the
one of the loaded payment. -/
def dbUpdateStatus (env : ServiceEnv) (payment : Payment) (status : PaymentStatus) (w : World) :
    World × Option GoError :=
  match env.updateErr w payment status with
  | some err => ({ w with log := w.log ++ [.updateStatus payment.ID status false] }, some err)
  | none =>
    ({ w with
        payments := w.payments.map (fun q =>
          if q.ID == payment.ID then { q with Status := status, UpdatedAt := w.now } else q)
        log := w.log ++ [.updateStatus payment.ID status true] }, none)

/-- The closure operation of AsyncService.handlePaymentStatus (async_service.go, lines
112-152). -/
def handlePaymentStatusOperation (env : ServiceEnv) (msg : PaymentStatusMessage) (w : World) :
    World × Option GoError :=
  match findByOrderID msg.OrderID w with
  | (w1, .error err) =>
    (w1, some (.payment (NewPaymentError ErrorTypeDatabase "PAYMENT_NOT_FOUND"
      "Payment not found" msg.OrderID false (some err))))
  | (w1, .ok payment) =>
    match dbUpdateStatus env payment msg.NewStatus w1 with
    | (w2, some err) =>
      (w2, some (.payment (NewPaymentError ErrorTypeDatabase "STATUS_UPDATE_ERROR"
        "Failed to update payment status" msg.OrderID true (some err))))
    | (w2, none) =>
      let notification : NotificationMessage :=
        { Type_ := "email"
          Recipient := payment.CustomerEmail
          Subject := "Payment Status Updated - Order " ++ msg.OrderID
          Content := "Your payment status has been updated to " ++ msg.NewStatus
          CreatedAt := w2.now }
      ((PublishNotification env.toAsyncEnv notification w2).1, none)

/-- AsyncService.handlePaymentStatus (async_service.go, lines 108-156). -/
def AsyncService.handlePaymentStatus (svc : AsyncService) (env : ServiceEnv)
    (msg : PaymentStatusMessage) (w : World) : RetryResult World :=
  WithRetry (backgroundEnv (handlePaymentStatusOperation env msg)) svc.strategy w

def Effect.isFindByOrderID : Effect → Bool
  | .findByOrderID _ => true
  | _ => false

def Effect.isUpdateStatus : Effect → Bool
  | .updateStatus _ _ _ => true
  | _ => false

/-- The Payment literal that handlePayment builds from a message (async_service.go,
lines 63-73). -/
def paymentOfMessage (msg : PaymentMessage) : Payment :=
  { OrderID := msg.OrderID
    Amount := msg.Amount
    Currency := msg.Currency
    Status := msg.Status
    Provider := msg.Provider
    CustomerID := msg.CustomerID
    CustomerEmail := msg.CustomerEmail
    PaymentDate := msg.CreatedAt
    MetaData := msg.MetaData }

/-- The rows of the payments table that belong to an order. -/
def recordsOf (orderID : String) (w : World) : List Payment :=
  w.payments.filter (fun p => p.OrderID == orderID)

/-! ### Sample inputs for the status handler -/

/-- A store with no payment, no refund and no message. -/
def emptyWorld : World where
  payments := []
  notifications := []
  now := 1700000000
  log := []

/-- Collaborators that never fail, for the status handler and the payment service. -/
def reliableServiceEnv : ServiceEnv where
  toAsyncEnv := reliableEnv
  updateErr := fun _ _ _ => none
  saveErr := fun _ _ => none
  createRefundErr := fun _ _ => none
  statusPublishErr := fun _ _ => none
  newUUID := fun _ => "r-1"

/-- A store that accepts every write and a broker that refuses every notification. -/
def brokerDownEnv : ServiceEnv where
  createErr := fun _ _ => none
  marshalErr := fun _ => none
  publishErr := fun _ _ => some (.other "channel closed")
  formatAmount := fun _ => "100.00"
  updateErr := fun _ _ _ => none
  saveErr := fun _ _ => none
  createRefundErr := fun _ _ => none
  statusPublishErr := fun _ _ => some (.other "channel closed")
  newUUID := fun _ => "r-1"

/-- A store that enforces the unique index on the order id and is reliable otherwise,
with a broker that accepts every notification. -/
def uniqueIndexEnv : AsyncEnv where
  createErr := fun w p =>
    if w.payments.any (fun q => q.OrderID == p.OrderID) then
      some (.other "duplicate key value violates unique constraint")
    else none
  marshalErr := fun _ => none
  publishErr := fun _ _ => none
  formatAmount := fun _ => "100.00"

/-- A status message for order O1: Completed to Refunded. -/
def sampleStatusMessage : PaymentStatusMessage :=
  { OrderID := "O1", OldStatus := PaymentStatusCompleted, NewStatus := PaymentStatusRefunded }

/-! ## internal/payment: the provider contract and the two providers

The backends (the Stripe and PayPal client libraries and encoding/json) are
parameters: each call of a backend is a field of a backend record, and an error
result is an error value of the library. Context arguments are not modelled. -/

/-- A value of a map[string]interface{}: a string, or any other value (rendered). -/
inductive MetaValue where
  | str (s : String)
  | other (rendered : String)

/-- The struct payment.PaymentRequest (provider.go). -/
structure PaymentRequest where
  OrderID : String := ""
  Amount : Float64 := 0
  Currency : String := ""
  CustomerID : String := ""
  CustomerEmail : String := ""
  Description : String := ""
  MetaData : List (String × MetaValue) := []

/-- The struct payment.PaymentResponse (provider.go). -/
structure PaymentResponse where
  Success : Bool := false
  TransactionID : String := ""
  Status : PaymentStatus := ""
  ErrorMessage : String := ""
  PaymentDetails : JSON := []

/-- The struct payment.WebhookEvent (provider.go). -/
structure WebhookEvent where
  Type_ : String := ""
  TransactionID : String := ""
  Status : PaymentStatus := ""
  Amount : Float64 := 0
  Currency : String := ""
  PaymentDetails : JSON := []

/-- How a call of ProcessPayment ends: it returns its response together with its
error, or it panics. -/
inductive ProcessOutcome where
  | returned (resp : PaymentResponse) (err : Option GoError)
  | panicked (msg : String)

/-- The interface payment.Provider (provider.go) without Initialize: ProcessPayment
returns its response together with its error (or panics), ValidateWebhook returns an
event or an error, RefundPayment an error or nil, GetPaymentStatus a status together
with its error. -/
structure Provider where
  ProcessPayment : PaymentRequest → ProcessOutcome
  ValidateWebhook : List UInt8 → String → Except GoError WebhookEvent
  RefundPayment : String → Float64 → Option GoError
  GetPaymentStatus : String → PaymentStatus × Option GoError

/-- The conversion int64(x) of a float64. -/
def int64OfFloat (x : Float64) : Int := x.toInt64

/-- The assignment m[k] = v on a map kept as a list of entries. -/
def setKey (k v : String) : List (String × String) → List (String × String)
  | [] => [(k, v)]
  | (k1, v1) :: rest => if k1 == k then (k, v) :: rest else (k1, v1) :: setKey k v rest

/-! ### internal/payment/stripe_provider.go -/

/-- The fields of stripe.ChargeOutcome that the provider reads. -/
structure StripeChargeOutcome where
  RiskLevel : String := ""
  SellerMessage : String := ""

/-- The fields of stripe.Charge that the provider reads. Outcome is a pointer in
stripe-go (*ChargeOutcome): none is the nil pointer. -/
structure StripeCharge where
  ID : String := ""
  Paid : Bool := false
  Refunded : Bool := false
  Status : String := ""
  Amount : Int := 0
  AmountRefunded : Int := 0
  Currency : String := ""
  PaymentMethod : String := ""
  ReceiptURL : String := ""
  StatementDescriptor : String := ""
  Outcome : Option StripeChargeOutcome := none
  FailureCode : String := ""
  FailureMessage : String := ""
  RefundReason : String := ""

/-- The fields of stripe.ChargeParams that the provider sets. -/
structure StripeChargeParams where
  Amount : Int
  Currency : String
  Description : String
  Metadata : List (String × String)
  ReceiptEmail : Option String

/-- The fields of stripe.Event that the provider reads: Type and Data.Raw. -/
structure StripeEvent where
  Type_ : String
  Raw : List UInt8

/-- The Stripe client library and encoding/json, as seen by the provider: charge.New,
webhook.ConstructEvent (payload, signature header, secret), json.Unmarshal into a
charge, refund.New (charge id, amount), charge.Get, and the Error() text of an error. -/
structure StripeBackend where
  chargeNew : StripeChargeParams → Except GoError StripeCharge
  constructEvent : List UInt8 → String → String → Except GoError StripeEvent
  unmarshalCharge : List UInt8 → Except GoError StripeCharge
  refundNew : String → Int → Option GoError
  chargeGet : String → Except GoError StripeCharge
  errorText : GoError → String

/-- The struct StripeProvider, with the backend it talks to. -/
structure StripeProvider where
  secretKey : String := ""
  webhookKey : String := ""
  endpointURL : String := ""
  testMode : Bool := false
  backend : StripeBackend

/-- The charge parameters that StripeProvider.ProcessPayment builds from a request
(stripe_provider.go, lines 43-65). -/
def stripeChargeParams (req : PaymentRequest) : StripeChargeParams :=
  let amountInCents := int64OfFloat (req.Amount * 100)
  { Amount := amountInCents
    Currency := req.Currency
    Description := req.Description
    Metadata := req.MetaData.foldl
      (fun m kv => match kv.2 with
        | .str strVal => setKey kv.1 strVal m
        | .other _ => m)
      [("order_id", req.OrderID)]
    ReceiptEmail := if req.CustomerEmail != "" then some req.CustomerEmail else none }

/-- The text of the runtime panic of a field access through a nil pointer. -/
def nilDereference : String := "runtime error: invalid memory address or nil pointer dereference"

/-- StripeProvider.ProcessPayment (stripe_provider.go, lines 41-101). The details map
reads charge.Outcome.RiskLevel and charge.Outcome.SellerMessage (lines 91-92) without a
nil check: on a charge without outcome the field access panics. -/
def StripeProvider.ProcessPayment (p : StripeProvider) (req : PaymentRequest) :
    ProcessOutcome :=
  match p.backend.chargeNew (stripeChargeParams req) with
  | .error err =>
    .returned { Success := false, ErrorMessage := p.backend.errorText err,
                Status := PaymentStatusFailed }
      (some (.wrapped "failed to create stripe charge" err))
  | .ok charge =>
    let status :=
      if charge.Paid then PaymentStatusCompleted
      else if charge.Status = "failed" then PaymentStatusFailed
      else PaymentStatusPending
    match charge.Outcome with
    | none => .panicked nilDereference
    | some outcome =>
      let details : JSON :=
        [("charge_id", charge.ID), ("payment_method", charge.PaymentMethod),
         ("receipt_url", charge.ReceiptURL),
         ("statement_descriptor", charge.StatementDescriptor),
         ("risk_level", outcome.RiskLevel), ("seller_message", outcome.SellerMessage)]
      .returned { Success := charge.Paid, TransactionID := charge.ID, Status := status,
                  PaymentDetails := details } none

/-- StripeProvider.ValidateWebhook (stripe_provider.go, lines 104-164). The switch on
the event type has three cases and no default: for any other type the variables keep
their zero values. -/
def StripeProvider.ValidateWebhook (p : StripeProvider) (payload : List UInt8)
    (signature : String) : Except GoError WebhookEvent :=
  match p.backend.constructEvent payload signature p.webhookKey with
  | .error err => .error (.wrapped "failed to verify webhook signature" err)
  | .ok event =>
    if event.Type_ = "charge.succeeded" then
      match p.backend.unmarshalCharge event.Raw with
      | .error err => .error (.wrapped "failed to parse charge data" err)
      | .ok charge =>
        .ok { Type_ := event.Type_, TransactionID := charge.ID,
              Status := PaymentStatusCompleted, Amount := Float64.ofInt charge.Amount / 100,
              Currency := charge.Currency,
              PaymentDetails := [("receipt_url", charge.ReceiptURL),
                                 ("payment_method", charge.PaymentMethod)] }
    else if event.Type_ = "charge.failed" then
      match p.backend.unmarshalCharge event.Raw with
      | .error err => .error (.wrapped "failed to parse charge data" err)
      | .ok charge =>
        .ok { Type_ := event.Type_, TransactionID := charge.ID,
              Status := PaymentStatusFailed, Amount := Float64.ofInt charge.Amount / 100,
              Currency := charge.Currency,
              PaymentDetails := [("failure_code", charge.FailureCode),
                                 ("failure_message", charge.FailureMessage)] }
    else if event.Type_ = "charge.refunded" then
      match p.backend.unmarshalCharge event.Raw with
      | .error err => .error (.wrapped "failed to parse charge data" err)
      | .ok charge =>
        .ok { Type_ := event.Type_, TransactionID := charge.ID,
              Status := PaymentStatusRefunded, Amount := Float64.ofInt charge.AmountRefunded / 100,
              Currency := charge.Currency,
              PaymentDetails := [("refund_reason", charge.RefundReason)] }
    else
      .ok { Type_ := event.Type_, TransactionID := "", Status := "", Amount := 0,
            Currency := "", PaymentDetails := [] }

/-- StripeProvider.RefundPayment (stripe_provider.go, lines 167-181). -/
def StripeProvider.RefundPayment (p : StripeProvider) (transactionID : String)
    (amount : Float64) :
    Option GoError :=
  let amountInCents := int64OfFloat (amount * 100)
  match p.backend.refundNew transactionID amountInCents with
  | some err => some (.wrapped "failed to create refund" err)
  | none => none

/-- StripeProvider.GetPaymentStatus (stripe_provider.go, lines 184-200). -/
def StripeProvider.GetPaymentStatus (p : StripeProvider) (transactionID : String) :
    PaymentStatus × Option GoError :=
  match p.backend.chargeGet transactionID with
  | .error err => (PaymentStatusUnknown, some (.wrapped "failed to get charge" err))
  | .ok ch =>
    if ch.Refunded then (PaymentStatusRefunded, none)
    else if ch.Paid then (PaymentStatusCompleted, none)
    else if ch.Status = "failed" then (PaymentStatusFailed, none)
    else (PaymentStatusPending, none)

/-- A StripeProvider as a value of the interface Provider. -/
def StripeProvider.toProvider (p : StripeProvider) : Provider where
  ProcessPayment := p.ProcessPayment
  ValidateWebhook := p.ValidateWebhook
  RefundPayment := p.RefundPayment
  GetPaymentStatus := p.GetPaymentStatus

/-! ### internal/payment/paypal_provider.go -/

/-- The field of a PayPal order that the provider reads. -/
structure PayPalOrder where
  ID : String := ""

/-- The fields of a PayPal capture (as returned by CaptureOrder, by GetCapture, or
decoded from a webhook resource) that the provider reads; AmountValue is the result of
Amount.Value.Float64(), PaymentSource is rendered. -/
structure PayPalCapture where
  ID : String := ""
  Status : String := ""
  PaymentSource : String := ""
  CreateTime : String := ""
  UpdateTime : String := ""
  AmountValue : Float64 := 0
  AmountCurrency : String := ""

/-- The fields of paypal.WebhookEvent that the provider reads. -/
structure PayPalWebhookEvent where
  EventType : String
  ResourceType : String
  Resource : List UInt8

/-- The PayPal client and encoding/json, as seen by the provider: CreateOrder
(reference id, currency, value, description), CaptureOrder, ValidateWebhookSignature
(payload, signature header, webhook id), json.Unmarshal into an event and into a
capture, RefundCapture (capture id, value, currency), GetCapture, the Error() text of
an error and the rendering of an amount with the verb %.2f. -/
structure PayPalBackend where
  createOrder : String → String → String → String → Except GoError PayPalOrder
  captureOrder : String → Except GoError PayPalCapture
  validateWebhookSignature : List UInt8 → String → String → Bool × Option GoError
  unmarshalEvent : List UInt8 → Except GoError PayPalWebhookEvent
  unmarshalCapture : List UInt8 → Except GoError PayPalCapture
  refundCapture : String → String → String → Option GoError
  getCapture : String → Except GoError PayPalCapture
  errorText : GoError → String
  formatAmount : Float64 → String

/-- The struct PayPalProvider; client is the backend it talks to. -/
structure PayPalProvider where
  clientID : String := ""
  secretKey : String := ""
  webhookID : String := ""
  endpointURL : String := ""
  testMode : Bool := false
  client : PayPalBackend

/-- PayPalProvider.ProcessPayment (paypal_provider.go, lines 62-118). -/
def PayPalProvider.ProcessPayment (p : PayPalProvider) (req : PaymentRequest) :
    ProcessOutcome :=
  match p.client.createOrder req.OrderID req.Currency (p.client.formatAmount req.Amount)
      req.Description with
  | .error err =>
    .returned { Success := false, ErrorMessage := p.client.errorText err,
                Status := PaymentStatusFailed }
      (some (.wrapped "failed to create PayPal order" err))
  | .ok order =>
    match p.client.captureOrder order.ID with
    | .error err =>
      .returned { Success := false, ErrorMessage := p.client.errorText err,
                  Status := PaymentStatusFailed }
        (some (.wrapped "failed to capture PayPal payment" err))
    | .ok capture =>
      let status :=
        if capture.Status = "COMPLETED" then PaymentStatusCompleted
        else if capture.Status = "DECLINED" then PaymentStatusFailed
        else PaymentStatusPending
      let details : JSON :=
        [("order_id", order.ID), ("capture_id", capture.ID),
         ("payment_source", capture.PaymentSource), ("status", capture.Status),
         ("create_time", capture.CreateTime), ("update_time", capture.UpdateTime)]
      .returned { Success := status == PaymentStatusCompleted, TransactionID := capture.ID,
                  Status := status, PaymentDetails := details } none

/-- PayPalProvider.ValidateWebhook (paypal_provider.go, lines 121-177). Neither switch
has a default: for another resource type or another event type the variables keep
their zero values. -/
def PayPalProvider.ValidateWebhook (p : PayPalProvider) (payload : List UInt8)
    (signature : String) : Except GoError WebhookEvent :=
  match p.client.validateWebhookSignature payload signature p.webhookID with
  | (_, some _) => .error (.other "invalid webhook signature")
  | (false, none) => .error (.other "invalid webhook signature")
  | (true, none) =>
    match p.client.unmarshalEvent payload with
    | .error err => .error (.wrapped "failed to parse webhook payload" err)
    | .ok event =>
      if event.ResourceType = "capture" then
        match p.client.unmarshalCapture event.Resource with
        | .error err => .error (.wrapped "failed to parse capture data" err)
        | .ok capture =>
          let status : PaymentStatus :=
            if event.EventType = "PAYMENT.CAPTURE.COMPLETED" then PaymentStatusCompleted
            else if event.EventType = "PAYMENT.CAPTURE.DENIED" then PaymentStatusFailed
            else if event.EventType = "PAYMENT.CAPTURE.REFUNDED" then PaymentStatusRefunded
            else ""
          .ok { Type_ := event.EventType, TransactionID := capture.ID, Status := status,
                Amount := capture.AmountValue, Currency := capture.AmountCurrency,
                PaymentDetails := [("capture_id", capture.ID), ("status", capture.Status),
                                   ("create_time", capture.CreateTime),
                                   ("update_time", capture.UpdateTime)] }
      else
        .ok { Type_ := event.EventType, TransactionID := "", Status := "", Amount := 0,
              Currency := "", PaymentDetails := [] }

/-- PayPalProvider.RefundPayment (paypal_provider.go, lines 180-195). -/
def PayPalProvider.RefundPayment (p : PayPalProvider) (transactionID : String)
    (amount : Float64) :
    Option GoError :=
  match p.client.refundCapture transactionID (p.client.formatAmount amount) "USD" with
  | some err => some (.wrapped "failed to refund PayPal payment" err)
  | none => none

/-- PayPalProvider.GetPaymentStatus (paypal_provider.go, lines 198-214). -/
def PayPalProvider.GetPaymentStatus (p : PayPalProvider) (transactionID : String) :
    PaymentStatus × Option GoError :=
  match p.client.getCapture transactionID with
  | .error err => (PaymentStatusUnknown, some (.wrapped "failed to get PayPal capture" err))
  | .ok capture =>
    if capture.Status = "COMPLETED" then (PaymentStatusCompleted, none)
    else if capture.Status = "DECLINED" then (PaymentStatusFailed, none)
    else if capture.Status = "REFUNDED" then (PaymentStatusRefunded, none)
    else (PaymentStatusPending, none)

/-- A PayPalProvider as a value of the interface Provider. -/
def PayPalProvider.toProvider (p : PayPalProvider) : Provider where
  ProcessPayment := p.ProcessPayment
  ValidateWebhook := p.ValidateWebhook
  RefundPayment := p.RefundPayment
  GetPaymentStatus := p.GetPaymentStatus

/-- The five statuses of the payment status state machine. -/
def isFiveValued (status : PaymentStatus) : Bool :=
  status == PaymentStatusPending || status == PaymentStatusCompleted ||
  status == PaymentStatusFailed || status == PaymentStatusCancelled ||
  status == PaymentStatusRefunded

/-! ## internal/service/payment_service.go -/

/-- The struct PaymentService: its AsyncService and its map of initialised providers
(db is the World). -/
structure PaymentService where
  asyncService : AsyncService
  providers : String → Option Provider

/-- The query db.Where("transaction_id = ?", id).First(...): the first row of the table
with that transaction id, or gorm's record-not-found error. -/
def findByTransactionID (transactionID : String) (w : World) : World × Except GoError Payment :=
  let w1 := { w with log := w.log ++ [.findByTransactionID transactionID] }
  match w.payments.find? (fun p => p.TransactionID == transactionID) with
  | some p => (w1, .ok p)
  | none => (w1, .error .recordNotFound)

/-- The call db.Save(payment): the store refuses it with an error, or writes all fields
of the payment to the rows with its primary key, inserting a row when there is none;
gorm stamps UpdatedAt with the current time. -/
def dbSave (env : ServiceEnv) (payment : Payment) (w : World) : World × Option GoError :=
  match env.saveErr w payment with
  | some err => ({ w with log := w.log ++ [.save payment.ID false] }, some err)
  | none =>
    ({ w with
        payments :=
          if w.payments.any (fun q => q.ID == payment.ID) then
            w.payments.map (fun q =>
              if q.ID == payment.ID then { payment with UpdatedAt := w.now } else q)
          else
            w.payments ++ [{ payment with UpdatedAt := w.now }]
        log := w.log ++ [.save payment.ID true] }, none)

/-- The call db.Create(refund) on the refunds table. -/
def dbCreateRefund (env : ServiceEnv) (refund : Refund) (w : World) : World × Option GoError :=
  match env.createRefundErr w refund with
  | some err => ({ w with log := w.log ++ [.createRefund refund.ID false] }, some err)
  | none =>
    ({ w with
        refunds := w.refunds ++ [refund]
        log := w.log ++ [.createRefund refund.ID true] }, none)

/-- Modelled from the spec: AsyncService.PublishPaymentStatus is called by
payment_service.go (lines 158 and 191) but defined in no source file. The spec has
the orchestrator re-publish a status message on the message channel and report a
publish failure, so: the broker refuses the message with an error, or accepts it. -/
def AsyncService.PublishPaymentStatus (_svc : AsyncService) (env : ServiceEnv)
    (msg : PaymentStatusMessage) (w : World) : World × Option GoError :=
  match env.statusPublishErr w msg with
  | some err => ({ w with log := w.log ++ [.publishStatus msg.OrderID false] }, some err)
  | none =>
    ({ w with
        statusMessages := w.statusMessages ++ [msg]
        log := w.log ++ [.publishStatus msg.OrderID true] }, none)

/-- What PaymentService.RefundPayment leaves behind: the world, the payment object it
was given (which it mutates), and its error. -/
structure RefundResult where
  world : World
  payment : Payment
  err : Option GoError

/-- PaymentService.RefundPayment (payment_service.go, lines 92-127). -/
def PaymentService.RefundPayment (svc : PaymentService) (env : ServiceEnv) (payment : Payment)
    (amount : Float64) (w : World) : RefundResult :=
  match svc.providers payment.ProviderType with
  | none =>
    ⟨w, payment, some (.other ("unsupported payment provider: " ++ payment.ProviderType))⟩
  | some provider =>
    match provider.RefundPayment payment.TransactionID amount with
    | some err => ⟨w, payment, some (.wrapped "failed to refund payment" err)⟩
    | none =>
      let refund : Refund :=
        { ID := env.newUUID w
          PaymentID := payment.ID
          Amount := amount
          Currency := payment.Currency
          Status := RefundStatusCompleted
          RefundedAt := w.now
          CreatedAt := w.now
          UpdatedAt := w.now }
      match dbCreateRefund env refund w with
      | (w1, some err) => ⟨w1, payment, some (.wrapped "failed to save refund" err)⟩
      | (w1, none) =>
        let payment1 : Payment :=
          { payment with Status := PaymentStatusRefunded, UpdatedAt := w1.now }
        match dbSave env payment1 w1 with
        | (w2, some err) =>
          ⟨w2, payment1, some (.wrapped "failed to update payment status" err)⟩
        | (w2, none) => ⟨w2, payment1, none⟩

/-- PaymentService.HandleWebhook (payment_service.go, lines 130-167). -/
def PaymentService.HandleWebhook (svc : PaymentService) (env : ServiceEnv)
    (providerType : String) (payload : List UInt8) (signature : String) (w : World) :
    World × Option GoError :=
  match svc.providers providerType with
  | none => (w, some (.other ("unsupported payment provider: " ++ providerType)))
  | some provider =>
    match provider.ValidateWebhook payload signature with
    | .error err => (w, some (.wrapped "failed to validate webhook" err))
    | .ok event =>
      match findByTransactionID event.TransactionID w with
      | (w1, .error err) => (w1, some (.wrapped "payment not found" err))
      | (w1, .ok found) =>
        let payment : Payment :=
          { found with Status := event.Status, UpdatedAt := w1.now,
                       PaymentDetails := event.PaymentDetails }
        match dbSave env payment w1 with
        | (w2, some err) => (w2, some (.wrapped "failed to update payment" err))
        | (w2, none) =>
          match svc.asyncService.PublishPaymentStatus env
              { OrderID := payment.OrderID, Status := payment.Status,
                UpdatedAt := payment.UpdatedAt } w2 with
          | (w3, some err) => (w3, some (.wrapped "failed to publish status update" err))
          | (w3, none) => (w3, none)

/-- What PaymentService.GetPaymentStatus leaves behind: the world, the payment object
it was given (which it mutates), and its two results. -/
structure StatusResult where
  world : World
  payment : Payment
  status : PaymentStatus
  err : Option GoError

/-- PaymentService.GetPaymentStatus (payment_service.go, lines 170-201). -/
def PaymentService.GetPaymentStatus (svc : PaymentService) (env : ServiceEnv)
    (payment : Payment) (w : World) : StatusResult :=
  match svc.providers payment.ProviderType with
  | none =>
    ⟨w, payment, PaymentStatusUnknown,
     some (.other ("unsupported payment provider: " ++ payment.ProviderType))⟩
  | some provider =>
    match provider.GetPaymentStatus payment.TransactionID with
    | (_, some err) =>
      ⟨w, payment, PaymentStatusUnknown, some (.wrapped "failed to get payment status" err)⟩
    | (status, none) =>
      if status != payment.Status then
        let payment1 : Payment := { payment with Status := status, UpdatedAt := w.now }
        match dbSave env payment1 w with
        | (w1, some err) =>
          ⟨w1, payment1, status, some (.wrapped "failed to update payment status" err)⟩
        | (w1, none) =>
          match svc.asyncService.PublishPaymentStatus env
              { OrderID := payment1.OrderID, Status := payment1.Status,
                UpdatedAt := payment1.UpdatedAt } w1 with
          | (w2, some err) =>
            ⟨w2, payment1, status, some (.wrapped "failed to publish status update" err)⟩
          | (w2, none) => ⟨w2, payment1, status, none⟩
      else
        ⟨w, payment, status, none⟩

/-- The payment with that primary key is stored, and stored with that status. -/
def StoredStatusIs (id : String) (status : PaymentStatus) (w : World) : Prop :=
  (∃ q ∈ w.payments, q.ID = id) ∧ ∀ q ∈ w.payments, q.ID = id → q.Status = status

/-! ### Sample inputs for the providers and the payment service -/

/-- A Stripe backend: it declines every charge, accepts the signature "t=1,v1=good" on
an event of type payment_intent.created, accepts every refund, and reports every
charge as unpaid and pending. -/
def sampleStripeBackend : StripeBackend where
  chargeNew := fun _ =>
    .ok { ID := "ch_1", Paid := false, Status := "failed",
          Outcome := some { RiskLevel := "normal", SellerMessage := "declined" } }
  constructEvent := fun _ signature _ =>
    if signature = "t=1,v1=good" then .ok ⟨"payment_intent.created", []⟩
    else .error (.other "webhook had no valid signature")
  unmarshalCharge := fun _ => .ok { ID := "ch_1" }
  refundNew := fun _ _ => none
  chargeGet := fun _ => .ok { ID := "ch_1", Paid := false, Refunded := false, Status := "pending" }
  errorText := fun _ => "stripe error"

def sampleStripe : StripeProvider :=
  { webhookKey := "whsec_1", backend := sampleStripeBackend }

/-- A Stripe provider whose backend answers every charge with an unpaid, failed charge
that carries no outcome. -/
def noOutcomeStripe : StripeProvider :=
  { webhookKey := "whsec_1",
    backend := { sampleStripeBackend with
      chargeNew := fun _ => .ok { ID := "ch_1", Paid := false, Status := "failed" } } }

/-- A PayPal backend: its captures are declined, it accepts the signature "good" on a
PAYMENT.CAPTURE.PENDING event of a capture, and it refuses every refund. -/
def samplePayPalBackend : PayPalBackend where
  createOrder := fun _ _ _ _ => .ok ⟨"ord_1"⟩
  captureOrder := fun _ => .ok { ID := "cap_1", Status := "DECLINED" }
  validateWebhookSignature := fun _ signature _ => (signature == "good", none)
  unmarshalEvent := fun _ => .ok ⟨"PAYMENT.CAPTURE.PENDING", "capture", []⟩
  unmarshalCapture := fun _ => .ok { ID := "cap_1", Status := "PENDING" }
  refundCapture := fun _ _ _ => some (.other "CAPTURE_FULLY_REFUNDED")
  getCapture := fun _ => .ok { ID := "cap_1", Status := "PENDING" }
  errorText := fun _ => "paypal error"
  formatAmount := fun _ => "50.00"

def samplePayPal : PayPalProvider :=
  { webhookID := "wh_1", client := samplePayPalBackend }

/-- A payment service with both sample providers initialised. -/
def samplePaymentService : PaymentService where
  asyncService := NewAsyncService
  providers := fun t =>
    if t = "stripe" then some sampleStripe.toProvider
    else if t = "paypal" then some samplePayPal.toProvider
    else none

/-- A failed Stripe payment for order O2. -/
def failedPayment : Payment :=
  { ID := "p-2", OrderID := "O2", Amount := 50, Currency := "USD",
    Status := PaymentStatusFailed, ProviderType := "stripe", TransactionID := "ch_2" }

def failedWorld : World where
  payments := [failedPayment]
  notifications := []
  now := 1700000000
  log := []

/-- A completed Stripe payment for order O3. -/
def completedPayment : Payment :=
  { ID := "p-3", OrderID := "O3", Amount := 50, Currency := "USD",
    Status := PaymentStatusCompleted, ProviderType := "stripe", TransactionID := "ch_3" }

def completedWorld : World where
  payments := [completedPayment]
  notifications := []
  now := 1700000000
  log := []

/-- A failed PayPal payment for order O4. -/
def failedPayPalPayment : Payment :=
  { ID := "p-4", OrderID := "O4", Amount := 50, Currency := "USD",
    Status := PaymentStatusFailed, ProviderType := "paypal", TransactionID := "cap_4" }

def failedPayPalWorld : World where
  payments := [failedPayPalPayment]
  notifications := []
  now := 1700000000
  log := []

/-- The statuses of the rows of the payments table, in order. -/
def storedStatuses (w : World) : List PaymentStatus := w.payments.map (fun q => q.Status)

/-! ### Reading a run of the retry engine -/

/-- The intervals of the backoff waits of a run, in order. -/
def sleepIntervals : List RetryEvent → List Duration
  | [] => []
  | .sleep d _ :: t => d :: sleepIntervals t
  | .invoke _ :: t => sleepIntervals t

/-- The intervals CalculateNextInterval(attempt), ..., for the given number of
consecutive attempts. -/
def intervalsFrom (st : RetryStrategy) (attempt : Int) : Nat → List Duration
  | 0 => []
  | n + 1 => st.CalculateNextInterval attempt :: intervalsFrom st (attempt + 1) n

/-- A store whose row of payment p-3 is Pending: the completed payment of order O3 as a
caller still holds it is a stale copy of that row. -/
def pendingRowWorld : World where
  payments := [{ completedPayment with Status := PaymentStatusPending }]
  notifications := []
  now := 1700000000
  log := []

/-- A store that refuses every save, with collaborators that are reliable otherwise. -/
def saveRefusedEnv : ServiceEnv where
  toAsyncEnv := reliableEnv
  updateErr := fun _ _ _ => none
  saveErr := fun _ _ => some (.other "connection refused")
  createRefundErr := fun _ _ => none
  statusPublishErr := fun _ _ => none
  newUUID := fun _ => "r-1"

/-! ## The producer side: PublishPayment, ProcessPaymentAsync, UpdatePaymentStatusAsync -/

/-- What json.Marshal and the broker decide on the producer side: whether marshalling a
payment or a status message fails, and whether the broker refuses the publish. -/
structure ProducerEnv where
  marshalPaymentErr : PaymentMessage → Option GoError
  publishPaymentErr : World → PaymentMessage → Option GoError
  marshalStatusErr : PaymentStatusMessage → Option GoError
  publishStatusErr : World → PaymentStatusMessage → Option GoError

/-- RabbitMQ.PublishPayment (rabbitmq.go, lines 142-170): marshal, publish to the
payment exchange with the routing key payment.<provider>, record the metric. -/
def PublishPayment (env : ProducerEnv) (msg : PaymentMessage) (w : World) :
    World × Option GoError :=
  match env.marshalPaymentErr msg with
  | some err =>
    ({ w with log := w.log ++ [.recordProcessingError PaymentQueue "marshal_error"] },
     some (.wrapped "failed to marshal payment message" err))
  | none =>
    match env.publishPaymentErr w msg with
    | some err =>
      ({ w with log := w.log ++ [.publish PaymentExchange ("payment." ++ msg.Provider)
                                   msg.OrderID false,
                                 .recordProcessingError PaymentQueue "publish_error"] },
       some err)
    | none =>
      ({ w with log := w.log ++ [.publish PaymentExchange ("payment." ++ msg.Provider)
                                   msg.OrderID true,
                                 .incrementPublishedMessage PaymentQueue msg.Status] }, none)

/-- RabbitMQ.PublishPaymentStatus (rabbitmq.go, lines 173-201): marshal, publish to the
status exchange with the routing key status.<orderID>, record the metric. -/
def PublishPaymentStatus (env : ProducerEnv) (msg : PaymentStatusMessage) (w : World) :
    World × Option GoError :=
  match env.marshalStatusErr msg with
  | some err =>
    ({ w with log := w.log ++ [.recordProcessingError PaymentStatusQueue "marshal_error"] },
     some (.wrapped "failed to marshal status message" err))
  | none =>
    match env.publishStatusErr w msg with
    | some err =>
      ({ w with log := w.log ++ [.publish PaymentStatusExchange ("status." ++ msg.OrderID)
                                   msg.OrderID false,
                                 .recordProcessingError PaymentStatusQueue "publish_error"] },
       some err)
    | none =>
      ({ w with
          statusMessages := w.statusMessages ++ [msg]
          log := w.log ++ [.publish PaymentStatusExchange ("status." ++ msg.OrderID)
                             msg.OrderID true,
                           .incrementPublishedMessage PaymentStatusQueue msg.NewStatus] }, none)

/-- The PaymentMessage literal that ProcessPaymentAsync builds from a payment
(async_service.go, lines 160-170); now is time.Now(). -/
def paymentMessageOf (payment : Payment) (now : Time) : PaymentMessage :=
  { OrderID := payment.OrderID
    Amount := payment.Amount
    Currency := payment.Currency
    Status := payment.Status
    Provider := payment.Provider
    CustomerID := payment.CustomerID
    CustomerEmail := payment.CustomerEmail
    CreatedAt := now
    MetaData := payment.MetaData }

/-- The closure operation of ProcessPaymentAsync (async_service.go, lines 172-184). -/
def processPaymentOperation (env : ProducerEnv) (payment : Payment) (msg : PaymentMessage)
    (w : World) : World × Option GoError :=
  match PublishPayment env msg w with
  | (w1, some err) =>
    (w1, some (.payment (NewPaymentError ErrorTypeMessaging "PUBLISH_ERROR"
      "Failed to publish payment message" payment.OrderID true (some err))))
  | (w1, none) => (w1, none)

/-- A completed Stripe payment for order O9 with a transaction id and payment details. -/
def detailedPayment : Payment :=
  { ID := "p-9", OrderID := "O9", CustomerID := "C9", CustomerEmail := "nine@example.com",
    Amount := 75, Currency := "EUR", Status := PaymentStatusCompleted,
    ProviderType := "stripe", Provider := "stripe", TransactionID := "ch_9",
    PaymentDetails := [("card", "visa")], MetaData := [("source", "web")] }

/-! ## internal/metrics/queue_collector.go -/

/-- What ch.QueueInspect reports about a queue. -/
structure QueueInfo where
  Messages : Int
  Consumers : Int
  MessagesUnacknowledged : Int

/-- The effects of the collector: a call of collectMetrics, the two gauges it sets for
a queue, the deferred ticker.Stop() of the goroutine, and close(c.done). -/
inductive CollectorEffect where
  | collectMetrics
  | setQueueSize (queue : String) (value : Int)
  | setQueueConsumers (queue : String) (value : Int)
  | tickerStop
  | closeDone
  deriving DecidableEq

/-- What the broker answers the collector: whether conn.Channel() fails, and what
QueueInspect reports (none = it returned an error). -/
structure CollectorEnv where
  channelErr : Option GoError
  inspect : String → Option QueueInfo

/-- QueueCollector.collectMetrics (queue_collector.go, lines 52-78): open a channel,
inspect every queue, skip the ones whose inspection fails and set the two gauges of
the others. -/
def collectMetrics (env : CollectorEnv) (queues : List String) :
    List CollectorEffect × Option GoError :=
  match env.channelErr with
  | some err => ([.collectMetrics], some err)
  | none =>
    (.collectMetrics :: queues.flatMap (fun queueName =>
      match env.inspect queueName with
      | none => []
      | some queue =>
        [.setQueueSize queueName queue.Messages,
         .setQueueConsumers queueName queue.Consumers]), none)

/-- What can happen to a started collector: the select of its goroutine takes the
ticker branch, the select takes the ctx.Done() branch, or somebody calls Stop. -/
inductive CollectorEvent where
  | tick
  | ctxDone
  | stop
  deriving DecidableEq

/-- A QueueCollector after Start: whether its goroutine is still in the loop, whether
the channel done has been closed, whether a close of the closed channel has panicked,
and the effects so far. -/
structure CollectorState where
  running : Bool
  doneClosed : Bool
  panicked : Bool
  log : List CollectorEffect

/-- QueueCollector.Start (queue_collector.go, lines 28-44): the goroutine is in its
loop, done is open as NewQueueCollector made it. -/
def QueueCollector.Start : CollectorState :=
  { running := true, doneClosed := false, panicked := false, log := [] }

/-- One event at a started collector. The select of the goroutine (lines 34-41) has the
two cases ctx.Done() and ticker.C and no other; Stop (lines 47-49) closes the channel
done, and closing a closed channel panics. -/
def collectorStep (env : CollectorEnv) (queues : List String) (s : CollectorState) :
    CollectorEvent → CollectorState
  | .tick =>
    if s.running && !s.panicked then
      { s with log := s.log ++ (collectMetrics env queues).1 }
    else s
  | .ctxDone =>
    if s.running && !s.panicked then
      { s with running := false, log := s.log ++ [.tickerStop] }
    else s
  | .stop =>
    if s.panicked then s
    else if s.doneClosed then { s with panicked := true }
    else { s with doneClosed := true, log := s.log ++ [.closeDone] }

/-- A started collector under a sequence of events. -/
def runCollector (env : CollectorEnv) (queues : List String) (events : List CollectorEvent) :
    CollectorState :=
  events.foldl (collectorStep env queues) QueueCollector.Start

/-- The number of collectMetrics calls in a log. -/
def collectCalls (log : List CollectorEffect) : Nat :=
  log.count .collectMetrics

/-- The effects after the first close(c.done), if there is one. -/
def afterStop : List CollectorEffect → List CollectorEffect
  | [] => []
  | .closeDone :: t => t
  | _ :: t => afterStop t

/-- A broker with three messages and one consumer on every queue. -/
def sampleCollectorEnv : CollectorEnv where
  channelErr := none
  inspect := fun _ => some { Messages := 3, Consumers := 1, MessagesUnacknowledged := 0 }

/-! ## RabbitMQ.Close -/

/-- The handles of the struct RabbitMQ as Close sees them: what channel.Close() and
conn.Close() return when they are called. -/
structure RabbitMQ where
  channelCloseErr : Option GoError
  connCloseErr : Option GoError

/-- The calls that Close makes on the handles. -/
inductive CloseEffect where
  | collectorStop
  | channelClose
  | connClose
  deriving DecidableEq

/-- RabbitMQ.Close (rabbitmq.go, lines 376-386): stop the collector, close the channel
and return if that fails, close the connection. -/
def RabbitMQ.Close (r : RabbitMQ) : List CloseEffect × Option GoError :=
  match r.channelCloseErr with
  | some err =>
    ([.collectorStop, .channelClose], some (.wrapped "failed to close channel" err))
  | none =>
    match r.connCloseErr with
    | some err =>
      ([.collectorStop, .channelClose, .connClose],
       some (.wrapped "failed to close connection" err))
    | none => ([.collectorStop, .channelClose, .connClose], none)

/-- A broker handle whose channel is already closed: channel.Close() returns an
error. -/
def closedChannel : RabbitMQ where
  channelCloseErr := some (.other "channel/connection is not open")
  connCloseErr := none

/-! ## models.JSON.Scan -/

/-- The dynamic types a database driver hands to a Scanner (driver.Value): nil, []byte,
string, int64, float64, bool, time.Time. -/
inductive DriverValue where
  | null
  | bytes (b : List UInt8)
  | text (s : String)
  | int64 (n : Int)
  | float64 (x : Float64)
  | bool (b : Bool)
  | time (t : Time)

/-- The name of the dynamic type, as a failed type assertion prints it. -/
def DriverValue.typeName : DriverValue → String
  | .null => "nil"
  | .bytes _ => "[]uint8"
  | .text _ => "string"
  | .int64 _ => "int64"
  | .float64 _ => "float64"
  | .bool _ => "bool"
  | .time _ => "time.Time"

/-- How a call ends: it returns with the receiver and an error value, or it panics. -/
inductive ScanOutcome where
  | returned (receiver : Option JSON) (err : Option GoError)
  | panicked (msg : String)

/-- JSON.Scan (models/payment.go, lines 36-42). The receiver is a map that may be nil
(none). unmarshal is json.Unmarshal on the bytes and the receiver: the receiver
afterwards and the error. The type assertion value.([]byte) has the one-result form,
which panics on any other dynamic type. -/
def JSON.Scan (unmarshal : List UInt8 → Option JSON → Option JSON × Option GoError)
    (j : Option JSON) (value : DriverValue) : ScanOutcome :=
  match value with
  | .null => .returned none none
  | .bytes b => .returned (unmarshal b j).1 (unmarshal b j).2
  | v => .panicked ("interface conversion: interface {} is " ++ v.typeName ++ ", not []uint8")

def ScanOutcome.isPanic : ScanOutcome → Bool
  | .panicked _ => true
  | .returned _ _ => false

/-- A decoder that accepts only the empty object. -/
def sampleJSONUnmarshal (b : List UInt8) (j : Option JSON) : Option JSON × Option GoError :=
  if b = [123, 125] then (some [], none)
  else (j, some (.other "invalid character"))

/-! ## Theorems -/

/-! ### Enough fuel -/

/-- Fuel never cuts a run short: with at least MaxAttempts - attempt iterations
allowed, allowing more changes nothing. -/
theorem retryLoop_fuel_enough {σ : Type} (env : RetryEnv σ) (st : RetryStrategy) (k : Nat) :
    ∀ (fuel : Nat) (attempt : Int) (lastErr : Option GoError) (s : σ),
      st.MaxAttempts ≤ attempt + fuel →
      retryLoop env st (fuel + k) attempt lastErr s = retryLoop env st fuel attempt lastErr s := by
  intro fuel
  induction fuel with
  | zero =>
    intro attempt lastErr s h
    cases k with
    | zero => rfl
    | succ k =>
      have hk : 0 + (k + 1) = k + 1 := by omega
      rw [hk]
      have : ¬ attempt < st.MaxAttempts := by simp at h; omega
      simp [retryLoop, this]
  | succ fuel ih =>
    intro attempt lastErr s h
    have hk : fuel + 1 + k = (fuel + k) + 1 := by omega
    rw [hk]
    simp only [retryLoop]
    have hnext : st.MaxAttempts ≤ attempt + 1 + (fuel : Int) := by push_cast at h; omega
    split
    · split
      · rfl
      · split
        · rfl
        · split
          · rfl
          · split
            · rfl
            · rw [ih (attempt + 1) _ _ hnext]
    · rfl

/-! ### The retry engine -/

theorem invocations_cons_invoke (x : Option GoError) (t : List RetryEvent) :
    invocations (.invoke x :: t) = invocations t + 1 := by
  simp [invocations, RetryEvent.isInvoke]

theorem invocations_cons_sleep (d : Duration) (b : Bool) (t : List RetryEvent) :
    invocations (.sleep d b :: t) = invocations t := by
  simp [invocations, RetryEvent.isInvoke]

/-- Inside the loop the attempt index is below MaxAttempts, so ShouldRetry is the
retryable flag of the error. -/
theorem ShouldRetry_eq_isRetryable (st : RetryStrategy) (attempt : Int) (err : GoError)
    (h : attempt < st.MaxAttempts) : st.ShouldRetry attempt err = err.isRetryable := by
  have h2 : ¬ attempt ≥ st.MaxAttempts := by omega
  cases err <;> simp [RetryStrategy.ShouldRetry, GoError.isRetryable, h2]

/-- The loop never calls the operation more often than it has iterations. -/
theorem retryLoop_invocations_le {σ : Type} (env : RetryEnv σ) (st : RetryStrategy) :
    ∀ (fuel : Nat) (attempt : Int) (lastErr : Option GoError) (s : σ),
      invocations (retryLoop env st fuel attempt lastErr s).trace ≤ fuel := by
  intro fuel
  induction fuel with
  | zero => intro attempt lastErr s; simp [retryLoop, invocations]
  | succ fuel ih =>
    intro attempt lastErr s
    simp only [retryLoop]
    split
    · split
      · simp [invocations]
      · split
        · simp [invocations, RetryEvent.isInvoke]
        · split
          · simp [invocations, RetryEvent.isInvoke]
          · split
            · simp [invocations, RetryEvent.isInvoke]
            · have := ih (attempt + 1) (some ‹GoError›) ‹σ›
              simp only [invocations_cons_invoke, invocations_cons_sleep]
              omega
    · simp [invocations]

/-- With a context that is never cancelled and an operation that always fails with a
retryable PaymentError, the loop uses every iteration it has. -/
theorem retryLoop_invocations_eq {σ : Type} (env : RetryEnv σ) (st : RetryStrategy)
    (hctx : ∀ s, env.ctxErr s = none)
    (hwait : ∀ d s, (env.wait d s).2 = false)
    (hop : ∀ s, ∃ e, (env.op s).2 = some e ∧ e.isRetryable = true) :
    ∀ (fuel : Nat) (attempt : Int) (lastErr : Option GoError) (s : σ),
      attempt + fuel = st.MaxAttempts →
      invocations (retryLoop env st fuel attempt lastErr s).trace = fuel := by
  intro fuel
  induction fuel with
  | zero => intro attempt lastErr s _; simp [retryLoop, invocations]
  | succ fuel ih =>
    intro attempt lastErr s hinv
    have hlt : attempt < st.MaxAttempts := by push_cast at hinv; omega
    obtain ⟨e, he, hr⟩ := hop s
    have hsr : st.ShouldRetry attempt e = true := by
      rw [ShouldRetry_eq_isRetryable st attempt e hlt]; exact hr
    have hnext : attempt + 1 + (fuel : Int) = st.MaxAttempts := by push_cast at hinv; omega
    simp only [retryLoop, hlt, if_true, hctx s]
    rcases hops : env.op s with ⟨s1, r⟩
    rw [hops] at he
    simp only at he
    subst he
    simp only [hsr, Bool.not_true, Bool.false_eq_true, if_false]
    rcases hw : env.wait (st.CalculateNextInterval attempt) s1 with ⟨s2, b⟩
    have hb := hwait (st.CalculateNextInterval attempt) s1
    rw [hw] at hb
    simp only at hb
    subst hb
    simp only [invocations_cons_invoke, invocations_cons_sleep]
    rw [ih (attempt + 1) (some e) s2 hnext]

/-- Shape of a run around any call of the operation: if anything follows the call,
the call returned a retryable PaymentError; if nothing follows, the run returned
what the call returned. -/
theorem retryLoop_after_invoke {σ : Type} (env : RetryEnv σ) (st : RetryStrategy) :
    ∀ (fuel : Nat) (attempt : Int) (lastErr : Option GoError) (s : σ)
      (pre : List RetryEvent) (x : Option GoError) (post : List RetryEvent),
      (retryLoop env st fuel attempt lastErr s).trace = pre ++ .invoke x :: post →
      (post = [] → (retryLoop env st fuel attempt lastErr s).err = x) ∧
      (post ≠ [] → ∃ e, x = some e ∧ e.isRetryable = true) := by
  intro fuel
  induction fuel with
  | zero => intro attempt lastErr s pre x post h; simp [retryLoop] at h
  | succ fuel ih =>
    intro attempt lastErr s pre x post
    simp only [retryLoop]
    split
    next hlt =>
      split
      · intro h; simp at h
      · split
        · intro h
          cases pre with
          | nil => simp at h; obtain ⟨hx, hp⟩ := h; subst hx; subst hp; simp
          | cons a pre => simp at h
        · split
          · intro h
            cases pre with
            | nil => simp at h; obtain ⟨hx, hp⟩ := h; subst hx; subst hp; simp
            | cons a pre => simp at h
          next s1 err hop hsr =>
            have hre : err.isRetryable = true := by
              rw [← ShouldRetry_eq_isRetryable st attempt err hlt]; simpa using hsr
            split
            · intro h
              cases pre with
              | nil =>
                simp at h; obtain ⟨hx, hp⟩ := h; subst hx; subst hp
                exact ⟨by simp, fun _ => ⟨err, rfl, hre⟩⟩
              | cons a pre =>
                cases pre with
                | nil => simp at h
                | cons b pre => simp at h
            · intro h
              cases pre with
              | nil =>
                simp at h; obtain ⟨hx, hp⟩ := h; subst hx; subst hp
                exact ⟨by simp, fun _ => ⟨err, rfl, hre⟩⟩
              | cons a pre =>
                cases pre with
                | nil => simp at h
                | cons b pre =>
                  simp at h
                  exact ih _ _ _ pre x post h.2.2
    · intro h; simp at h

/-- Shape of a run around a backoff wait that the context ended: nothing follows it,
and the run returned ctx.Err() as read in the final state. -/
theorem retryLoop_after_cancelled_sleep {σ : Type} (env : RetryEnv σ) (st : RetryStrategy) :
    ∀ (fuel : Nat) (attempt : Int) (lastErr : Option GoError) (s : σ)
      (pre : List RetryEvent) (d : Duration) (post : List RetryEvent),
      (retryLoop env st fuel attempt lastErr s).trace = pre ++ .sleep d true :: post →
      post = [] ∧
      (retryLoop env st fuel attempt lastErr s).err =
        env.ctxErr (retryLoop env st fuel attempt lastErr s).state ∧
      ∃ s1, (retryLoop env st fuel attempt lastErr s).state = (env.wait d s1).1 ∧
        (env.wait d s1).2 = true := by
  intro fuel
  induction fuel with
  | zero => intro attempt lastErr s pre d post h; simp [retryLoop] at h
  | succ fuel ih =>
    intro attempt lastErr s pre d post
    simp only [retryLoop]
    split
    · split
      · intro h; simp at h
      · split
        · intro h
          cases pre with
          | nil => simp at h
          | cons a pre => simp at h
        · split
          · intro h
            cases pre with
            | nil => simp at h
            | cons a pre => simp at h
          · split
            next s1 err hop hsr x s2 hw =>
              intro h
              cases pre with
              | nil => simp at h
              | cons a pre =>
                cases pre with
                | nil =>
                  simp at h
                  obtain ⟨_, hd, hp⟩ := h
                  subst hd; subst hp
                  refine ⟨rfl, rfl, s1, ?_, ?_⟩ <;> simp [hw]
                | cons b pre => simp at h
            · intro h
              cases pre with
              | nil => simp at h
              | cons a pre =>
                cases pre with
                | nil => simp at h
                | cons b pre =>
                  simp at h
                  exact ih _ _ _ pre d post h.2.2
    · intro h; simp at h

/-- With a context that is never cancelled and an operation that always fails with a
retryable PaymentError, a loop with at least one iteration returns a retryable
PaymentError (the last one the operation returned). -/
theorem retryLoop_err_of_always_retryable {σ : Type} (env : RetryEnv σ) (st : RetryStrategy)
    (hctx : ∀ s, env.ctxErr s = none)
    (hwait : ∀ d s, (env.wait d s).2 = false)
    (hop : ∀ s, ∃ e, (env.op s).2 = some e ∧ e.isRetryable = true) :
    ∀ (fuel : Nat) (attempt : Int) (lastErr : Option GoError) (s : σ),
      attempt + fuel = st.MaxAttempts →
      (fuel = 0 → (retryLoop env st fuel attempt lastErr s).err = lastErr) ∧
      (0 < fuel → ∃ e, (retryLoop env st fuel attempt lastErr s).err = some e ∧
        e.isRetryable = true) := by
  intro fuel
  induction fuel with
  | zero => intro attempt lastErr s _; simp [retryLoop]
  | succ fuel ih =>
    intro attempt lastErr s hinv
    have hlt : attempt < st.MaxAttempts := by push_cast at hinv; omega
    obtain ⟨e, he, hr⟩ := hop s
    have hsr : st.ShouldRetry attempt e = true := by
      rw [ShouldRetry_eq_isRetryable st attempt e hlt]; exact hr
    have hnext : attempt + 1 + (fuel : Int) = st.MaxAttempts := by push_cast at hinv; omega
    refine ⟨by omega, fun _ => ?_⟩
    simp only [retryLoop, hlt, if_true, hctx s]
    rcases hops : env.op s with ⟨s1, r⟩
    rw [hops] at he
    simp only at he
    subst he
    simp only [hsr, Bool.not_true, Bool.false_eq_true, if_false]
    rcases hw : env.wait (st.CalculateNextInterval attempt) s1 with ⟨s2, b⟩
    have hb := hwait (st.CalculateNextInterval attempt) s1
    rw [hw] at hb
    simp only at hb
    subst hb
    simp only
    obtain ⟨h0, hpos⟩ := ih (attempt + 1) (some e) s2 hnext
    rcases Nat.eq_zero_or_pos fuel with hz | hp
    · exact ⟨e, h0 hz, hr⟩
    · exact hpos hp

/-! ### The backoff interval -/

/-- Truncating a number that is at most an integer gives at most that integer. -/
theorem truncate_le (x : ℚ) (m : Int) (h : x ≤ (m : ℚ)) : truncate x ≤ m := by
  unfold truncate
  have hden : (0 : Int) < x.den := by exact_mod_cast x.den_pos
  have hnum : x.num ≤ m * x.den := by
    have hx : (x.num : ℚ) / (x.den : ℚ) ≤ (m : ℚ) := by rw [Rat.num_div_den]; exact h
    have hdq : (0 : ℚ) < (x.den : ℚ) := by exact_mod_cast x.den_pos
    rw [div_le_iff₀ hdq] at hx
    exact_mod_cast hx
  have key : Int.tdiv x.num (x.den : Int) ≤ m := by
    rcases le_or_lt 0 x.num with hn | hn
    · rw [Int.tdiv_eq_ediv hn (le_of_lt hden)]
      exact Int.ediv_le_of_le_mul hden hnum
    · have h1 : Int.tdiv x.num x.den = -((-x.num) / (x.den : Int)) := by
        have hneg : x.num = -(-x.num) := by omega
        conv_lhs => rw [hneg, Int.neg_tdiv]
        rw [Int.tdiv_eq_ediv (by omega) (le_of_lt hden)]
      rw [h1]
      have h2 : -m ≤ (-x.num) / (x.den : Int) := by
        rw [Int.le_ediv_iff_mul_le hden]
        linarith
      omega
  exact key

theorem truncate_neg (x : ℚ) : truncate (-x) = -truncate x := by
  unfold truncate
  rw [Rat.neg_num, Rat.neg_den, Int.neg_tdiv]

/-- Truncating a number that is at least an integer gives at least that integer. -/
theorem le_truncate (x : ℚ) (m : Int) (h : (m : ℚ) ≤ x) : m ≤ truncate x := by
  have h1 := truncate_le (-x) (-m) (by push_cast; linarith)
  rw [truncate_neg] at h1
  omega

theorem truncate_intCast (m : Int) : truncate (m : ℚ) = m := by
  simp [truncate]

/-! ### Claims about the retry engine -/

/-- C1 (the code at the failing input). At attempt 0 CalculateNextInterval returns
InitialInterval without comparing it to MaxInterval: for a strategy with a 2 s initial
and a 1 s maximum interval the result is 2 s, above the maximum. WithRetry asks for
the interval of attempt 0 after the first failed call, so its first backoff wait with
this strategy lasts 2 s. -/
theorem CalculateNextInterval_attempt_zero_uncapped :
    invertedStrategy.CalculateNextInterval 0 = 2 * Second ∧
    ¬ (invertedStrategy.CalculateNextInterval 0 ≤ invertedStrategy.MaxInterval) ∧
    (WithRetry alwaysRetryableEnv invertedStrategy 0).trace.take 2 =
      [.invoke (some sampleRetryable), .sleep (2 * Second) false] :=
  ⟨by decide, by decide, rfl⟩

/-- C2 (as stated, refuted). For the strategy with MaxAttempts = -1 the operation is
called 0 times, which is not "at most MaxAttempts". -/
theorem WithRetry_negative_budget_not_bounded :
    invocations (WithRetry alwaysRetryableEnv negativeStrategy 0).trace = 0 ∧
    ¬ ((invocations (WithRetry alwaysRetryableEnv negativeStrategy 0).trace : Int)
        ≤ negativeStrategy.MaxAttempts) := by
  decide

/-- C2 (amended). WithRetry calls the operation at most max(MaxAttempts, 0) times, for
every operation, context and strategy; and when the context is never cancelled and
every call fails with a retryable PaymentError, it calls the operation exactly
max(MaxAttempts, 0) times and then returns (for MaxAttempts at least 1, a retryable
PaymentError). -/
theorem WithRetry_invocation_budget {σ : Type} (env : RetryEnv σ) (st : RetryStrategy) (s : σ) :
    invocations (WithRetry env st s).trace ≤ st.MaxAttempts.toNat ∧
    ((∀ s, env.ctxErr s = none) →
     (∀ d s, (env.wait d s).2 = false) →
     (∀ s, ∃ e, (env.op s).2 = some e ∧ e.isRetryable = true) →
      invocations (WithRetry env st s).trace = st.MaxAttempts.toNat ∧
      (1 ≤ st.MaxAttempts → ∃ e, (WithRetry env st s).err = some e ∧ e.isRetryable = true)) := by
  refine ⟨retryLoop_invocations_le env st _ _ _ _, fun hctx hwait hop => ?_⟩
  rcases le_or_lt 0 st.MaxAttempts with h0 | h0
  · have hinv : (0 : Int) + (st.MaxAttempts.toNat : Int) = st.MaxAttempts := by
      rw [Int.toNat_of_nonneg h0]; omega
    refine ⟨retryLoop_invocations_eq env st hctx hwait hop _ _ _ _ hinv, fun h1 => ?_⟩
    exact (retryLoop_err_of_always_retryable env st hctx hwait hop _ _ _ _ hinv).2 (by omega)
  · have hz : st.MaxAttempts.toNat = 0 := by omega
    refine ⟨?_, fun h1 => by omega⟩
    simp [WithRetry, hz, retryLoop, invocations]

theorem WithRetry_invocation_budget_witness :
    invocations (WithRetry alwaysRetryableEnv DefaultRetryStrategy 0).trace ≤ 3 ∧
    invocations (WithRetry alwaysRetryableEnv DefaultRetryStrategy 0).trace = 3 :=
  ⟨(WithRetry_invocation_budget alwaysRetryableEnv DefaultRetryStrategy 0).1,
   ((WithRetry_invocation_budget alwaysRetryableEnv DefaultRetryStrategy 0).2
      (fun _ => rfl) (fun _ _ => rfl) (fun _ => ⟨sampleRetryable, rfl, rfl⟩)).1⟩

/-- C3 (the code at the failing input). With MaxAttempts = 1, an operation that fails
with a retryable PaymentError and a context that is cancelled during the wait that
follows: the operation has been called MaxAttempts times and failed each time, yet
WithRetry waits once more and returns the cancellation error, not the error of the
last call. -/
theorem WithRetry_exhausted_returns_cancellation :
    (WithRetry cancelInBackoffEnv singleAttemptStrategy (0, false)).trace =
      [.invoke (some sampleRetryable), .sleep (1 * Second) true] ∧
    (invocations (WithRetry cancelInBackoffEnv singleAttemptStrategy (0, false)).trace : Int) =
      singleAttemptStrategy.MaxAttempts ∧
    (WithRetry cancelInBackoffEnv singleAttemptStrategy (0, false)).err = some .canceled ∧
    (WithRetry cancelInBackoffEnv singleAttemptStrategy (0, false)).err ≠ some sampleRetryable := by
  refine ⟨rfl, by decide, rfl, ?_⟩
  intro h
  have h2 : (some GoError.canceled : Option GoError) = some sampleRetryable := h
  simp [sampleRetryable] at h2

/-- C4. In every run of WithRetry: (1) with MaxAttempts at least 1 and a context that is
not cancelled, a first call that returns an error that is not a retryable PaymentError
ends the run at once, with that error, that single call and no wait; (2) the same at
any later call: after a call that returns such an error nothing follows (no wait, no
call) and the run returns that error; (3) whenever anything follows a call, that call
returned a PaymentError whose Retryable flag is true. -/
theorem WithRetry_terminal_error_propagates {σ : Type} (env : RetryEnv σ) (st : RetryStrategy)
    (s : σ) :
    (∀ s1 e, 1 ≤ st.MaxAttempts → env.ctxErr s = none → env.op s = (s1, some e) →
      e.isRetryable = false →
      (WithRetry env st s).err = some e ∧ (WithRetry env st s).state = s1 ∧
      (WithRetry env st s).trace = [.invoke (some e)]) ∧
    (∀ pre e post, (WithRetry env st s).trace = pre ++ .invoke (some e) :: post →
      e.isRetryable = false → post = [] ∧ (WithRetry env st s).err = some e) ∧
    (∀ pre x post, (WithRetry env st s).trace = pre ++ .invoke x :: post →
      post ≠ [] → ∃ e, x = some e ∧ e.isRetryable = true) := by
  refine ⟨?_, ?_, ?_⟩
  · intro s1 e hmax hctx hop hne
    obtain ⟨n, hn⟩ : ∃ n, st.MaxAttempts.toNat = n + 1 := ⟨st.MaxAttempts.toNat - 1, by omega⟩
    have hlt : (0 : Int) < st.MaxAttempts := by omega
    have hsr : st.ShouldRetry 0 e = false := by
      rw [ShouldRetry_eq_isRetryable st 0 e hlt]; exact hne
    simp [WithRetry, hn, retryLoop, hlt, hctx, hop, hsr]
  · intro pre e post h hne
    have hshape := retryLoop_after_invoke env st _ _ _ _ pre (some e) post h
    have hpost : post = [] := by
      by_contra hp
      obtain ⟨e2, he2, hr⟩ := hshape.2 hp
      cases he2
      rw [hne] at hr
      exact Bool.false_ne_true hr
    exact ⟨hpost, hshape.1 hpost⟩
  · intro pre x post h hp
    exact (retryLoop_after_invoke env st _ _ _ _ pre x post h).2 hp

theorem WithRetry_terminal_error_propagates_witness :
    (WithRetry terminalEnv DefaultRetryStrategy 0).err = some sampleTerminal ∧
    (WithRetry terminalEnv DefaultRetryStrategy 0).state = 1 ∧
    (WithRetry terminalEnv DefaultRetryStrategy 0).trace = [.invoke (some sampleTerminal)] :=
  (WithRetry_terminal_error_propagates terminalEnv DefaultRetryStrategy 0).1
    1 sampleTerminal (by decide) rfl rfl rfl

/-- C5. With MaxAttempts at least 1 and a context that is already cancelled, WithRetry
returns the context's error and performs no effect at all: the operation is called
zero times and the world state is untouched. -/
theorem WithRetry_cancelled_before_start {σ : Type} (env : RetryEnv σ) (st : RetryStrategy)
    (s : σ) (c : GoError) (hmax : 1 ≤ st.MaxAttempts) (hctx : env.ctxErr s = some c) :
    (WithRetry env st s).err = some c ∧
    invocations (WithRetry env st s).trace = 0 ∧
    (WithRetry env st s).trace = [] ∧
    (WithRetry env st s).state = s := by
  obtain ⟨n, hn⟩ : ∃ n, st.MaxAttempts.toNat = n + 1 := ⟨st.MaxAttempts.toNat - 1, by omega⟩
  have hlt : (0 : Int) < st.MaxAttempts := by omega
  simp [WithRetry, hn, retryLoop, hlt, hctx, invocations]

theorem WithRetry_cancelled_before_start_witness :
    (WithRetry cancelledEnv DefaultRetryStrategy 0).err = some .canceled ∧
    invocations (WithRetry cancelledEnv DefaultRetryStrategy 0).trace = 0 ∧
    (WithRetry cancelledEnv DefaultRetryStrategy 0).trace = [] ∧
    (WithRetry cancelledEnv DefaultRetryStrategy 0).state = 0 :=
  WithRetry_cancelled_before_start cancelledEnv DefaultRetryStrategy 0 .canceled
    (by decide) rfl

/-- C6. Take any run of WithRetry in which a backoff wait is ended by the context (the
ctx.Done() case of the select is taken), for a context that reports an error once it
is done. Then that wait is the last effect of the run, so the operation is not called
again, and WithRetry returns the context's error. -/
theorem WithRetry_cancelled_in_backoff {σ : Type} (env : RetryEnv σ) (st : RetryStrategy)
    (s : σ) (pre : List RetryEvent) (d : Duration) (post : List RetryEvent)
    (hdone : ∀ d s1, (env.wait d s1).2 = true → (env.ctxErr (env.wait d s1).1).isSome = true)
    (h : (WithRetry env st s).trace = pre ++ .sleep d true :: post) :
    post = [] ∧ invocations post = 0 ∧
    ∃ c, (WithRetry env st s).err = some c ∧
      env.ctxErr (WithRetry env st s).state = some c := by
  obtain ⟨hpost, herr, s1, hs, hflag⟩ :=
    retryLoop_after_cancelled_sleep env st _ _ _ _ pre d post h
  have hsome := hdone d s1 hflag
  rw [← hs] at hsome
  obtain ⟨c, hc⟩ := Option.isSome_iff_exists.mp hsome
  refine ⟨hpost, by rw [hpost]; rfl, c, ?_, hc⟩
  exact herr.trans hc

theorem WithRetry_cancelled_in_backoff_witness :
    ([] : List RetryEvent) = [] ∧ invocations [] = 0 ∧
    ∃ c, (WithRetry cancelInBackoffEnv DefaultRetryStrategy (0, false)).err = some c ∧
      cancelInBackoffEnv.ctxErr
        (WithRetry cancelInBackoffEnv DefaultRetryStrategy (0, false)).state = some c :=
  WithRetry_cancelled_in_backoff cancelInBackoffEnv DefaultRetryStrategy (0, false)
    [.invoke (some sampleRetryable)] (1 * Second) [] (fun _ _ _ => rfl) rfl

/-! ### The consume loops -/

/-- The loop over two batches of deliveries is the loop over the first followed by the
loop over the second from the state the first one left. -/
theorem consumeLoop_append {Msg σ : Type} (queue : String) (status : Msg → String)
    (unmarshal : List UInt8 → Option Msg) (handler : Msg → σ → σ × Option GoError)
    (xs ys : List Delivery) :
    ∀ s : σ, consumeLoop queue status unmarshal handler (xs ++ ys) s =
      ((consumeLoop queue status unmarshal handler ys
          (consumeLoop queue status unmarshal handler xs s).1).1,
       (consumeLoop queue status unmarshal handler xs s).2 ++
         (consumeLoop queue status unmarshal handler ys
          (consumeLoop queue status unmarshal handler xs s).1).2) := by
  induction xs with
  | nil => intro s; simp [consumeLoop]
  | cons x xs ih => intro s; simp [consumeLoop, ih, List.append_assoc]

/-- The effects of a run of the loop around any one delivery: those of the deliveries
before it, then those of that delivery, then those of the deliveries after it. -/
theorem consumeLoop_split {Msg σ : Type} (queue : String) (status : Msg → String)
    (unmarshal : List UInt8 → Option Msg) (handler : Msg → σ → σ × Option GoError)
    (pre : List Delivery) (d : Delivery) (post : List Delivery) (s : σ) :
    consumeLoop queue status unmarshal handler (pre ++ d :: post) s =
      ((consumeLoop queue status unmarshal handler post
          (consumeDelivery queue status unmarshal handler d
            (consumeLoop queue status unmarshal handler pre s).1).1).1,
       (consumeLoop queue status unmarshal handler pre s).2 ++
         ((consumeDelivery queue status unmarshal handler d
            (consumeLoop queue status unmarshal handler pre s).1).2 ++
          (consumeLoop queue status unmarshal handler post
            (consumeDelivery queue status unmarshal handler d
              (consumeLoop queue status unmarshal handler pre s).1).1).2)) := by
  rw [consumeLoop_append]
  simp [consumeLoop]

theorem consumeDelivery_unmarshal_error {Msg σ : Type} (queue : String) (status : Msg → String)
    (unmarshal : List UInt8 → Option Msg) (handler : Msg → σ → σ × Option GoError)
    (d : Delivery) (s : σ) (h : unmarshal d.Body = none) :
    consumeDelivery queue status unmarshal handler d s =
      (s, deadLetterEffects queue d.DeliveryTag) := by
  simp [consumeDelivery, h, deadLetterEffects]

theorem consumeDelivery_handler_error {Msg σ : Type} (queue : String) (status : Msg → String)
    (unmarshal : List UInt8 → Option Msg) (handler : Msg → σ → σ × Option GoError)
    (d : Delivery) (s s1 : σ) (msg : Msg) (err : GoError)
    (h : unmarshal d.Body = some msg) (hh : handler msg s = (s1, some err)) :
    consumeDelivery queue status unmarshal handler d s =
      (s1, requeueEffects queue d.DeliveryTag) := by
  simp [consumeDelivery, h, hh, requeueEffects]

theorem consumeDelivery_decidedOnce {Msg σ : Type} (queue : String) (status : Msg → String)
    (unmarshal : List UInt8 → Option Msg) (handler : Msg → σ → σ × Option GoError)
    (d : Delivery) (s : σ) :
    DecidedOnce d.DeliveryTag (handledCleanly unmarshal handler d s)
      (consumeDelivery queue status unmarshal handler d s).2 := by
  unfold DecidedOnce handledCleanly consumeDelivery
  cases hu : unmarshal d.Body with
  | none => simp [Effect.isReceived, Effect.isDecision]
  | some msg =>
    rcases hh : handler msg s with ⟨s1, r⟩
    cases r with
    | none => simp [hh, Effect.isReceived, Effect.isDecision]
    | some err => simp [hh, Effect.isReceived, Effect.isDecision]

/-- C7. In each of the three consume loops, a delivery whose body fails to deserialize
contributes exactly the dead-letter effects to the run, between the effects of the
deliveries before it and those of the deliveries after it, and leaves the world state
as it was: the delivery is rejected with requeue = false, a dead-letter message with
reason "unmarshal_error" is recorded for the loop's queue, and the handler is not
called. -/
theorem consume_unmarshal_error_dead_letters {σ : Type} (pre : List Delivery) (d : Delivery)
    (post : List Delivery) (s : σ) :
    (∀ (um : List UInt8 → Option PaymentMessage) (h : PaymentMessage → σ → σ × Option GoError),
      um d.Body = none →
      ConsumePayments um h (pre ++ d :: post) s =
        ((ConsumePayments um h post (ConsumePayments um h pre s).1).1,
         (ConsumePayments um h pre s).2 ++ (deadLetterEffects PaymentQueue d.DeliveryTag ++
           (ConsumePayments um h post (ConsumePayments um h pre s).1).2))) ∧
    (∀ (um : List UInt8 → Option PaymentStatusMessage)
        (h : PaymentStatusMessage → σ → σ × Option GoError),
      um d.Body = none →
      ConsumePaymentStatus um h (pre ++ d :: post) s =
        ((ConsumePaymentStatus um h post (ConsumePaymentStatus um h pre s).1).1,
         (ConsumePaymentStatus um h pre s).2 ++
           (deadLetterEffects PaymentStatusQueue d.DeliveryTag ++
           (ConsumePaymentStatus um h post (ConsumePaymentStatus um h pre s).1).2))) ∧
    (∀ (um : List UInt8 → Option NotificationMessage)
        (h : NotificationMessage → σ → σ × Option GoError),
      um d.Body = none →
      ConsumeNotifications um h (pre ++ d :: post) s =
        ((ConsumeNotifications um h post (ConsumeNotifications um h pre s).1).1,
         (ConsumeNotifications um h pre s).2 ++
           (deadLetterEffects NotificationQueue d.DeliveryTag ++
           (ConsumeNotifications um h post (ConsumeNotifications um h pre s).1).2))) ∧
    (∀ queue : String,
      Effect.reject d.DeliveryTag false ∈ deadLetterEffects queue d.DeliveryTag ∧
      Effect.recordDeadLetterMessage queue "unmarshal_error" ∈
        deadLetterEffects queue d.DeliveryTag ∧
      (deadLetterEffects queue d.DeliveryTag).countP Effect.isDecision = 1 ∧
      (deadLetterEffects queue d.DeliveryTag).countP Effect.isDeadLetter = 1 ∧
      (deadLetterEffects queue d.DeliveryTag).countP Effect.isHandlerCall = 0) := by
  refine ⟨?_, ?_, ?_, ?_⟩
  · intro um h hu
    unfold ConsumePayments
    rw [consumeLoop_split, consumeDelivery_unmarshal_error _ _ _ _ _ _ hu]
  · intro um h hu
    unfold ConsumePaymentStatus
    rw [consumeLoop_split, consumeDelivery_unmarshal_error _ _ _ _ _ _ hu]
  · intro um h hu
    unfold ConsumeNotifications
    rw [consumeLoop_split, consumeDelivery_unmarshal_error _ _ _ _ _ _ hu]
  · intro queue
    simp [deadLetterEffects, Effect.isDecision, Effect.isDeadLetter, Effect.isHandlerCall]

theorem consume_unmarshal_error_dead_letters_witness :
    ConsumePayments sampleUnmarshal succeedingHandler ([jsonDelivery] ++ emptyDelivery :: []) 0 =
      ((ConsumePayments sampleUnmarshal succeedingHandler []
          (ConsumePayments sampleUnmarshal succeedingHandler [jsonDelivery] 0).1).1,
       (ConsumePayments sampleUnmarshal succeedingHandler [jsonDelivery] 0).2 ++
         (deadLetterEffects PaymentQueue emptyDelivery.DeliveryTag ++
         (ConsumePayments sampleUnmarshal succeedingHandler []
          (ConsumePayments sampleUnmarshal succeedingHandler [jsonDelivery] 0).1).2)) :=
  (consume_unmarshal_error_dead_letters [jsonDelivery] emptyDelivery [] 0).1
    sampleUnmarshal succeedingHandler rfl

/-- C8. In each of the three consume loops, a delivery that deserializes and whose
handler returns an error contributes exactly the requeue effects to the run, whatever
the error value is (any error type, PaymentError or not, retryable or not): the
delivery is rejected with requeue = true and one retry attempt is recorded for the
loop's queue. -/
theorem consume_handler_error_requeues {σ : Type} (pre : List Delivery) (d : Delivery)
    (post : List Delivery) (s : σ) :
    (∀ (um : List UInt8 → Option PaymentMessage) (h : PaymentMessage → σ → σ × Option GoError)
        (msg : PaymentMessage) (s1 : σ) (err : GoError),
      um d.Body = some msg → h msg (ConsumePayments um h pre s).1 = (s1, some err) →
      ConsumePayments um h (pre ++ d :: post) s =
        ((ConsumePayments um h post s1).1,
         (ConsumePayments um h pre s).2 ++ (requeueEffects PaymentQueue d.DeliveryTag ++
           (ConsumePayments um h post s1).2))) ∧
    (∀ (um : List UInt8 → Option PaymentStatusMessage)
        (h : PaymentStatusMessage → σ → σ × Option GoError)
        (msg : PaymentStatusMessage) (s1 : σ) (err : GoError),
      um d.Body = some msg → h msg (ConsumePaymentStatus um h pre s).1 = (s1, some err) →
      ConsumePaymentStatus um h (pre ++ d :: post) s =
        ((ConsumePaymentStatus um h post s1).1,
         (ConsumePaymentStatus um h pre s).2 ++
           (requeueEffects PaymentStatusQueue d.DeliveryTag ++
           (ConsumePaymentStatus um h post s1).2))) ∧
    (∀ (um : List UInt8 → Option NotificationMessage)
        (h : NotificationMessage → σ → σ × Option GoError)
        (msg : NotificationMessage) (s1 : σ) (err : GoError),
      um d.Body = some msg → h msg (ConsumeNotifications um h pre s).1 = (s1, some err) →
      ConsumeNotifications um h (pre ++ d :: post) s =
        ((ConsumeNotifications um h post s1).1,
         (ConsumeNotifications um h pre s).2 ++
           (requeueEffects NotificationQueue d.DeliveryTag ++
           (ConsumeNotifications um h post s1).2))) ∧
    (∀ queue : String,
      Effect.reject d.DeliveryTag true ∈ requeueEffects queue d.DeliveryTag ∧
      Effect.incrementRetryAttempt queue ∈ requeueEffects queue d.DeliveryTag ∧
      (requeueEffects queue d.DeliveryTag).countP Effect.isDecision = 1 ∧
      (requeueEffects queue d.DeliveryTag).countP Effect.isRetryAttempt = 1 ∧
      (requeueEffects queue d.DeliveryTag).countP Effect.isDeadLetter = 0) := by
  refine ⟨?_, ?_, ?_, ?_⟩
  · intro um h msg s1 err hu hh
    unfold ConsumePayments at hh ⊢
    rw [consumeLoop_split, consumeDelivery_handler_error _ _ _ _ _ _ _ _ _ hu hh]
  · intro um h msg s1 err hu hh
    unfold ConsumePaymentStatus at hh ⊢
    rw [consumeLoop_split, consumeDelivery_handler_error _ _ _ _ _ _ _ _ _ hu hh]
  · intro um h msg s1 err hu hh
    unfold ConsumeNotifications at hh ⊢
    rw [consumeLoop_split, consumeDelivery_handler_error _ _ _ _ _ _ _ _ _ hu hh]
  · intro queue
    simp [requeueEffects, Effect.isDecision, Effect.isRetryAttempt, Effect.isDeadLetter]

theorem consume_handler_error_requeues_witness :
    ConsumePayments sampleUnmarshal failingHandler ([] ++ jsonDelivery :: [emptyDelivery]) 0 =
      ((ConsumePayments sampleUnmarshal failingHandler [emptyDelivery] 1).1,
       (ConsumePayments sampleUnmarshal failingHandler [] 0).2 ++
         (requeueEffects PaymentQueue jsonDelivery.DeliveryTag ++
         (ConsumePayments sampleUnmarshal failingHandler [emptyDelivery] 1).2)) :=
  (consume_handler_error_requeues [] jsonDelivery [emptyDelivery] 0).1
    sampleUnmarshal failingHandler samplePaymentMessage 1 sampleTerminal rfl rfl

/-- C9. In each of the three consume loops, every delivery of a run gets exactly one
acknowledgment decision, made before the next delivery is taken: the effects of the
run are those of the deliveries before it, then a block for this delivery, then those
of the deliveries after it, and the block starts by taking this delivery, takes no
other, and holds exactly one Ack or Reject call, which is Ack exactly when the body
deserializes and the handler returns nil and a Reject exactly when not. -/
theorem consume_one_decision_per_delivery {σ : Type} (pre : List Delivery) (d : Delivery)
    (post : List Delivery) (s : σ) :
    (∀ (um : List UInt8 → Option PaymentMessage) (h : PaymentMessage → σ → σ × Option GoError),
      ∃ (t : List Effect) (s1 : σ),
        ConsumePayments um h (pre ++ d :: post) s =
          ((ConsumePayments um h post s1).1,
           (ConsumePayments um h pre s).2 ++ (t ++ (ConsumePayments um h post s1).2)) ∧
        DecidedOnce d.DeliveryTag
          (handledCleanly um h d (ConsumePayments um h pre s).1) t) ∧
    (∀ (um : List UInt8 → Option PaymentStatusMessage)
        (h : PaymentStatusMessage → σ → σ × Option GoError),
      ∃ (t : List Effect) (s1 : σ),
        ConsumePaymentStatus um h (pre ++ d :: post) s =
          ((ConsumePaymentStatus um h post s1).1,
           (ConsumePaymentStatus um h pre s).2 ++ (t ++ (ConsumePaymentStatus um h post s1).2)) ∧
        DecidedOnce d.DeliveryTag
          (handledCleanly um h d (ConsumePaymentStatus um h pre s).1) t) ∧
    (∀ (um : List UInt8 → Option NotificationMessage)
        (h : NotificationMessage → σ → σ × Option GoError),
      ∃ (t : List Effect) (s1 : σ),
        ConsumeNotifications um h (pre ++ d :: post) s =
          ((ConsumeNotifications um h post s1).1,
           (ConsumeNotifications um h pre s).2 ++ (t ++ (ConsumeNotifications um h post s1).2)) ∧
        DecidedOnce d.DeliveryTag
          (handledCleanly um h d (ConsumeNotifications um h pre s).1) t) := by
  refine ⟨?_, ?_, ?_⟩
  · intro um h
    exact ⟨_, _, consumeLoop_split _ _ um h pre d post s,
      consumeDelivery_decidedOnce _ _ um h d _⟩
  · intro um h
    exact ⟨_, _, consumeLoop_split _ _ um h pre d post s,
      consumeDelivery_decidedOnce _ _ um h d _⟩
  · intro um h
    exact ⟨_, _, consumeLoop_split _ _ um h pre d post s,
      consumeDelivery_decidedOnce _ _ um h d _⟩

/-! ### The payment orchestrator -/

/-- The duplicate check finds a row as soon as the lookup itself does not fail and the
table holds a payment of that order whose status is not Pending. -/
theorem findProcessed_of_mem (env : AsyncEnv) (orderID : String) (w : World) (p : Payment)
    (hlookup : env.findErr w orderID = none)
    (hp : p ∈ w.payments) (hid : p.OrderID = orderID) (hst : p.Status ≠ PaymentStatusPending) :
    ∃ q, findProcessed env orderID w =
      ({ w with log := w.log ++ [.findProcessed orderID] }, .ok q) := by
  have hsome : (w.payments.find?
      (fun p => p.OrderID == orderID && p.Status != PaymentStatusPending)).isSome = true := by
    rw [List.find?_isSome]
    exact ⟨p, hp, by simp [hid, hst]⟩
  obtain ⟨q, hq⟩ := Option.isSome_iff_exists.mp hsome
  exact ⟨q, by simp [findProcessed, hlookup, hq]⟩

/-- A first call that returns nil ends the run: one call, no wait. -/
theorem WithRetry_first_call_nil {σ : Type} (env : RetryEnv σ) (st : RetryStrategy) (s s1 : σ)
    (hmax : 1 ≤ st.MaxAttempts) (hctx : env.ctxErr s = none) (hop : env.op s = (s1, none)) :
    (WithRetry env st s).err = none ∧ (WithRetry env st s).state = s1 ∧
    (WithRetry env st s).trace = [.invoke none] := by
  obtain ⟨n, hn⟩ : ∃ n, st.MaxAttempts.toNat = n + 1 := ⟨st.MaxAttempts.toNat - 1, by omega⟩
  have hlt : (0 : Int) < st.MaxAttempts := by omega
  simp [WithRetry, hn, retryLoop, hlt, hctx, hop]

/-- A first call that returns an error that is not retryable ends the run: one call,
no wait, that error. -/
theorem WithRetry_first_call_terminal {σ : Type} (env : RetryEnv σ) (st : RetryStrategy)
    (s s1 : σ) (e : GoError) (hmax : 1 ≤ st.MaxAttempts) (hctx : env.ctxErr s = none)
    (hop : env.op s = (s1, some e)) (hne : e.isRetryable = false) :
    (WithRetry env st s).err = some e ∧ (WithRetry env st s).state = s1 ∧
    (WithRetry env st s).trace = [.invoke (some e)] := by
  obtain ⟨n, hn⟩ : ∃ n, st.MaxAttempts.toNat = n + 1 := ⟨st.MaxAttempts.toNat - 1, by omega⟩
  have hlt : (0 : Int) < st.MaxAttempts := by omega
  have hsr : st.ShouldRetry 0 e = false := by
    rw [ShouldRetry_eq_isRetryable st 0 e hlt]; exact hne
  simp [WithRetry, hn, retryLoop, hlt, hctx, hop, hsr]

/-- A property of the world state that the operation and the waits keep is kept by the
whole run. -/
theorem retryLoop_preserves {σ : Type} (env : RetryEnv σ) (st : RetryStrategy) (P : σ → Prop)
    (hop : ∀ s, P s → P (env.op s).1) (hwait : ∀ d s, P s → P (env.wait d s).1) :
    ∀ (fuel : Nat) (attempt : Int) (lastErr : Option GoError) (s : σ),
      P s → P (retryLoop env st fuel attempt lastErr s).state := by
  intro fuel
  induction fuel with
  | zero => intro attempt lastErr s hs; simpa [retryLoop] using hs
  | succ fuel ih =>
    intro attempt lastErr s hs
    simp only [retryLoop]
    split
    · split
      · exact hs
      · have h1 := hop s hs
        split
        next s1 hops => rw [hops] at h1; exact h1
        next s1 err hops =>
          rw [hops] at h1
          split
          · exact h1
          · have h2 := hwait (st.CalculateNextInterval attempt) s1 h1
            split
            next s2 hw => rw [hw] at h2; exact h2
            next s2 hw => rw [hw] at h2; exact ih _ _ _ h2
    · exact hs

theorem WithRetry_background_preserves {σ : Type} (op : σ → σ × Option GoError)
    (st : RetryStrategy) (P : σ → Prop) (hop : ∀ s, P s → P (op s).1) (s : σ) (hs : P s) :
    P (WithRetry (backgroundEnv op) st s).state :=
  retryLoop_preserves (backgroundEnv op) st P hop (fun _ _ h => h) _ _ _ _ hs

/-! ### The operation of handlePayment, branch by branch -/

/-- The duplicate check returned a processed payment: nothing is written. -/
theorem handlePaymentOperation_hit (env : AsyncEnv) (msg : PaymentMessage) (w : World)
    (q : Payment) (hres : (findProcessed env msg.OrderID w).2 = .ok q) :
    handlePaymentOperation env msg w =
      ({ w with log := w.log ++ [.findProcessed msg.OrderID] }, none) := by
  unfold handlePaymentOperation
  unfold findProcessed at hres ⊢
  cases hfe : env.findErr w msg.OrderID with
  | some e => simp [hfe] at hres
  | none =>
    cases hf : w.payments.find?
        (fun p => p.OrderID == msg.OrderID && p.Status != PaymentStatusPending) with
    | none => simp [hfe, hf] at hres
    | some q1 => simp

/-- The duplicate check found a processed payment: nothing is written. -/
theorem handlePaymentOperation_found (env : AsyncEnv) (msg : PaymentMessage) (w : World)
    (q : Payment) (hlookup : env.findErr w msg.OrderID = none)
    (hfind : w.payments.find?
      (fun p => p.OrderID == msg.OrderID && p.Status != PaymentStatusPending) = some q) :
    handlePaymentOperation env msg w =
      ({ w with log := w.log ++ [.findProcessed msg.OrderID] }, none) := by
  simp [handlePaymentOperation, findProcessed, hlookup, hfind]

/-- A table without a processed payment of the order makes the duplicate check return
an error, whether or not the lookup itself fails. -/
theorem findProcessed_miss (env : AsyncEnv) (orderID : String) (w : World)
    (hfind : w.payments.find?
      (fun p => p.OrderID == orderID && p.Status != PaymentStatusPending) = none) :
    ∃ e, (findProcessed env orderID w).2 = .error e := by
  unfold findProcessed
  cases hfe : env.findErr w orderID with
  | some e => exact ⟨e, rfl⟩
  | none => exact ⟨.recordNotFound, by simp [hfind]⟩

/-- The duplicate check returned an error (not found, or a store error) and the store
refused the insert: the operation returns the retryable DB_ERROR, and only the log has
grown. -/
theorem handlePaymentOperation_refused_of_miss (env : AsyncEnv) (msg : PaymentMessage)
    (w : World) (e : GoError) (cause : GoError)
    (hmiss : (findProcessed env msg.OrderID w).2 = .error e)
    (hcreate : env.createErr { w with log := w.log ++ [.findProcessed msg.OrderID] }
      (paymentOfMessage msg) = some cause) :
    handlePaymentOperation env msg w =
      ({ w with log := w.log ++ [.findProcessed msg.OrderID] ++ [.create msg.OrderID false] },
       some (.payment (NewPaymentError ErrorTypeDatabase "DB_ERROR"
         "Failed to create payment record" msg.OrderID true (some cause)))) := by
  unfold paymentOfMessage at hcreate
  unfold findProcessed at hmiss
  cases hfe : env.findErr w msg.OrderID with
  | some e1 => simp [handlePaymentOperation, findProcessed, hfe, dbCreate, hcreate]
  | none =>
    cases hf : w.payments.find?
        (fun p => p.OrderID == msg.OrderID && p.Status != PaymentStatusPending) with
    | some q => simp [hfe, hf] at hmiss
    | none => simp [handlePaymentOperation, findProcessed, hfe, hf, dbCreate, hcreate]

/-- The duplicate check returned an error (not found, or a store error) and the store
accepted the insert: the operation returns nil and the row is in the table, whatever
PublishNotification does. -/
theorem handlePaymentOperation_created_of_miss (env : AsyncEnv) (msg : PaymentMessage)
    (w : World) (e : GoError)
    (hmiss : (findProcessed env msg.OrderID w).2 = .error e)
    (hcreate : env.createErr { w with log := w.log ++ [.findProcessed msg.OrderID] }
      (paymentOfMessage msg) = none) :
    (handlePaymentOperation env msg w).2 = none ∧
    (handlePaymentOperation env msg w).1.payments =
      w.payments ++ [{ paymentOfMessage msg with CreatedAt := w.now, UpdatedAt := w.now }] ∧
    (handlePaymentOperation env msg w).1.now = w.now ∧
    ((handlePaymentOperation env msg w).1.notifications = w.notifications ∨
     ∃ n, (handlePaymentOperation env msg w).1.notifications = w.notifications ++ [n]) := by
  unfold paymentOfMessage at hcreate
  unfold findProcessed at hmiss
  cases hfe : env.findErr w msg.OrderID with
  | some e1 =>
    simp only [handlePaymentOperation, findProcessed, hfe, dbCreate, hcreate,
      PublishNotification, paymentOfMessage]
    split
    · simp
    · split
      · simp
      · simp
  | none =>
    cases hf : w.payments.find?
        (fun p => p.OrderID == msg.OrderID && p.Status != PaymentStatusPending) with
    | some q => simp [hfe, hf] at hmiss
    | none =>
      simp only [handlePaymentOperation, findProcessed, hfe, hf, dbCreate, hcreate,
        PublishNotification, paymentOfMessage]
      split
      · simp
      · split
        · simp
        · simp

/-- With a broker that accepts the notification, the created branch also publishes
exactly one notification. -/
theorem handlePaymentOperation_created_published_of_miss (env : AsyncEnv)
    (msg : PaymentMessage) (w : World) (e : GoError)
    (hmiss : (findProcessed env msg.OrderID w).2 = .error e)
    (hcreate : env.createErr { w with log := w.log ++ [.findProcessed msg.OrderID] }
      (paymentOfMessage msg) = none)
    (hmarshal : ∀ n, env.marshalErr n = none) (hpublish : ∀ w1 n, env.publishErr w1 n = none) :
    ∃ n, (handlePaymentOperation env msg w).1.notifications = w.notifications ++ [n] := by
  unfold paymentOfMessage at hcreate
  unfold findProcessed at hmiss
  cases hfe : env.findErr w msg.OrderID with
  | some e1 =>
    simp [handlePaymentOperation, findProcessed, hfe, dbCreate, hcreate, PublishNotification,
      hmarshal, hpublish]
  | none =>
    cases hf : w.payments.find?
        (fun p => p.OrderID == msg.OrderID && p.Status != PaymentStatusPending) with
    | some q => simp [hfe, hf] at hmiss
    | none =>
      simp [handlePaymentOperation, findProcessed, hfe, hf, dbCreate, hcreate,
        PublishNotification, hmarshal, hpublish]

/-- The duplicate check found nothing and the store refused the insert: the operation
returns the retryable DB_ERROR, and only the log has grown. -/
theorem handlePaymentOperation_refused (env : AsyncEnv) (msg : PaymentMessage) (w : World)
    (cause : GoError)
    (hfind : w.payments.find?
      (fun p => p.OrderID == msg.OrderID && p.Status != PaymentStatusPending) = none)
    (hcreate : env.createErr { w with log := w.log ++ [.findProcessed msg.OrderID] }
      (paymentOfMessage msg) = some cause) :
    handlePaymentOperation env msg w =
      ({ w with log := w.log ++ [.findProcessed msg.OrderID] ++ [.create msg.OrderID false] },
       some (.payment (NewPaymentError ErrorTypeDatabase "DB_ERROR"
         "Failed to create payment record" msg.OrderID true (some cause)))) := by
  obtain ⟨e, he⟩ := findProcessed_miss env msg.OrderID w hfind
  exact handlePaymentOperation_refused_of_miss env msg w e cause he hcreate

/-- The duplicate check found nothing and the store accepted the insert: the operation
returns nil and the row is in the table, whatever PublishNotification does. -/
theorem handlePaymentOperation_created (env : AsyncEnv) (msg : PaymentMessage) (w : World)
    (hfind : w.payments.find?
      (fun p => p.OrderID == msg.OrderID && p.Status != PaymentStatusPending) = none)
    (hcreate : env.createErr { w with log := w.log ++ [.findProcessed msg.OrderID] }
      (paymentOfMessage msg) = none) :
    (handlePaymentOperation env msg w).2 = none ∧
    (handlePaymentOperation env msg w).1.payments =
      w.payments ++ [{ paymentOfMessage msg with CreatedAt := w.now, UpdatedAt := w.now }] ∧
    (handlePaymentOperation env msg w).1.now = w.now ∧
    ((handlePaymentOperation env msg w).1.notifications = w.notifications ∨
     ∃ n, (handlePaymentOperation env msg w).1.notifications = w.notifications ++ [n]) := by
  obtain ⟨e, he⟩ := findProcessed_miss env msg.OrderID w hfind
  exact handlePaymentOperation_created_of_miss env msg w e he hcreate

/-- With a broker that accepts the notification, the created branch also publishes
exactly one notification. -/
theorem handlePaymentOperation_created_published (env : AsyncEnv) (msg : PaymentMessage)
    (w : World)
    (hfind : w.payments.find?
      (fun p => p.OrderID == msg.OrderID && p.Status != PaymentStatusPending) = none)
    (hcreate : env.createErr { w with log := w.log ++ [.findProcessed msg.OrderID] }
      (paymentOfMessage msg) = none)
    (hmarshal : ∀ n, env.marshalErr n = none) (hpublish : ∀ w1 n, env.publishErr w1 n = none) :
    ∃ n, (handlePaymentOperation env msg w).1.notifications = w.notifications ++ [n] := by
  obtain ⟨e, he⟩ := findProcessed_miss env msg.OrderID w hfind
  exact handlePaymentOperation_created_published_of_miss env msg w e he hcreate hmarshal
    hpublish

/-! ### The operation of handlePaymentStatus, branch by branch -/

/-- No payment of that order: the terminal PAYMENT_NOT_FOUND error after the lookup. -/
theorem handlePaymentStatusOperation_not_found (env : ServiceEnv) (msg : PaymentStatusMessage)
    (w : World) (hfind : w.payments.find? (fun p => p.OrderID == msg.OrderID) = none) :
    handlePaymentStatusOperation env msg w =
      ({ w with log := w.log ++ [.findByOrderID msg.OrderID] },
       some (.payment (NewPaymentError ErrorTypeDatabase "PAYMENT_NOT_FOUND"
         "Payment not found" msg.OrderID false (some .recordNotFound)))) := by
  simp [handlePaymentStatusOperation, findByOrderID, hfind]

/-- The payment is found and the store refuses the update: the retryable
STATUS_UPDATE_ERROR, and only the log has grown. -/
theorem handlePaymentStatusOperation_refused (env : ServiceEnv) (msg : PaymentStatusMessage)
    (w : World) (p : Payment) (cause : GoError)
    (hfind : w.payments.find? (fun p => p.OrderID == msg.OrderID) = some p)
    (hupdate : env.updateErr { w with log := w.log ++ [.findByOrderID msg.OrderID] }
      p msg.NewStatus = some cause) :
    handlePaymentStatusOperation env msg w =
      ({ w with log := w.log ++ [.findByOrderID msg.OrderID] ++
          [.updateStatus p.ID msg.NewStatus false] },
       some (.payment (NewPaymentError ErrorTypeDatabase "STATUS_UPDATE_ERROR"
         "Failed to update payment status" msg.OrderID true (some cause)))) := by
  simp [handlePaymentStatusOperation, findByOrderID, hfind, dbUpdateStatus, hupdate]

/-- The payment is found and the store accepts the update: the operation returns nil
and the rows with the primary key of the found payment carry the new status, whatever
PublishNotification does. -/
theorem handlePaymentStatusOperation_updated (env : ServiceEnv) (msg : PaymentStatusMessage)
    (w : World) (p : Payment)
    (hfind : w.payments.find? (fun p => p.OrderID == msg.OrderID) = some p)
    (hupdate : env.updateErr { w with log := w.log ++ [.findByOrderID msg.OrderID] }
      p msg.NewStatus = none) :
    (handlePaymentStatusOperation env msg w).2 = none ∧
    (handlePaymentStatusOperation env msg w).1.payments =
      w.payments.map (fun q =>
        if q.ID == p.ID then { q with Status := msg.NewStatus, UpdatedAt := w.now } else q) ∧
    ((handlePaymentStatusOperation env msg w).1.notifications = w.notifications ∨
     ∃ n, (handlePaymentStatusOperation env msg w).1.notifications = w.notifications ++ [n]) := by
  simp only [handlePaymentStatusOperation, findByOrderID, hfind, dbUpdateStatus, hupdate,
    PublishNotification]
  split
  · simp
  · split
    · simp
    · simp

/-! ### Claims about handlePayment and handlePaymentStatus -/

/-- C11 (as stated, refuted). With a store that accepts every insert, handling the
Pending message of the scenario twice from an empty store leaves two payment records
for the order and two published notifications: the duplicate check only looks for
rows whose status is not Pending. -/
theorem handlePayment_pending_twice_duplicates :
    (recordsOf samplePaymentMessage.OrderID
      (NewAsyncService.handlePayment reliableEnv samplePaymentMessage
        (NewAsyncService.handlePayment reliableEnv samplePaymentMessage
          emptyWorld).state).state).length = 2 ∧
    (NewAsyncService.handlePayment reliableEnv samplePaymentMessage
        (NewAsyncService.handlePayment reliableEnv samplePaymentMessage
          emptyWorld).state).state.notifications.length = 2 := by
  decide

/-- C11 (amended). Take a store that has no record for the message's order and accepts
the insert of an order it does not hold, and a broker that accepts the notification.
If the message's status is not Pending and the duplicate lookup never fails with a
store error, or if the store enforces the unique index on the order id (it refuses the
insert of an order it already holds), then handling the message and handling the
identical message again leaves exactly one payment record for the order and exactly
one more published notification in total. -/
theorem handlePayment_twice_one_record (svc : AsyncService) (env : AsyncEnv)
    (msg : PaymentMessage) (w : World)
    (hmax : 1 ≤ svc.strategy.MaxAttempts)
    (hfresh : ∀ q ∈ w.payments, q.OrderID ≠ msg.OrderID)
    (haccept : ∀ w1 p, (∀ q ∈ w1.payments, q.OrderID ≠ p.OrderID) → env.createErr w1 p = none)
    (hdup : (msg.Status ≠ PaymentStatusPending ∧ ∀ w1, env.findErr w1 msg.OrderID = none) ∨
      ∀ w1 p, (∃ q ∈ w1.payments, q.OrderID = p.OrderID) → (env.createErr w1 p).isSome = true)
    (hmarshal : ∀ n, env.marshalErr n = none)
    (hpublish : ∀ w1 n, env.publishErr w1 n = none) :
    (recordsOf msg.OrderID
      (svc.handlePayment env msg (svc.handlePayment env msg w).state).state).length = 1 ∧
    (svc.handlePayment env msg (svc.handlePayment env msg w).state).state.notifications.length
      = w.notifications.length + 1 := by
  -- the first handling creates the row and publishes the notification
  have hfind : w.payments.find?
      (fun p => p.OrderID == msg.OrderID && p.Status != PaymentStatusPending) = none := by
    rw [List.find?_eq_none]
    intro x hx
    simp [hfresh x hx]
  have hcreate : env.createErr { w with log := w.log ++ [.findProcessed msg.OrderID] }
      (paymentOfMessage msg) = none := haccept _ _ (fun q hq => hfresh q hq)
  obtain ⟨herr, hpay, _, _⟩ := handlePaymentOperation_created env msg w hfind hcreate
  obtain ⟨n, hnot⟩ :=
    handlePaymentOperation_created_published env msg w hfind hcreate hmarshal hpublish
  have hfirst : (svc.handlePayment env msg w).state = (handlePaymentOperation env msg w).1 :=
    (WithRetry_first_call_nil (backgroundEnv (handlePaymentOperation env msg)) svc.strategy w
      (handlePaymentOperation env msg w).1 hmax rfl (Prod.ext rfl herr)).2.1
  -- the second handling keeps both tables
  have hkeep : ∀ s : World,
      (s.payments = (handlePaymentOperation env msg w).1.payments ∧
        s.notifications = (handlePaymentOperation env msg w).1.notifications) →
      ((handlePaymentOperation env msg s).1.payments =
          (handlePaymentOperation env msg w).1.payments ∧
        (handlePaymentOperation env msg s).1.notifications =
          (handlePaymentOperation env msg w).1.notifications) := by
    intro s hs
    have hrow : ({ paymentOfMessage msg with CreatedAt := w.now, UpdatedAt := w.now } : Payment)
        ∈ s.payments := by rw [hs.1, hpay]; simp
    cases hres : (findProcessed env msg.OrderID s).2 with
    | ok q =>
      rw [handlePaymentOperation_hit env msg s q hres]
      exact hs
    | error e0 =>
      cases hc : env.createErr { s with log := s.log ++ [.findProcessed msg.OrderID] }
          (paymentOfMessage msg) with
      | some cause =>
        rw [handlePaymentOperation_refused_of_miss env msg s e0 cause hres hc]
        exact hs
      | none =>
        exfalso
        rcases hdup with ⟨hstatus, hlookup⟩ | hunique
        · obtain ⟨q, hq⟩ := findProcessed_of_mem env msg.OrderID s _ (hlookup s) hrow
            (by simp [paymentOfMessage]) (by simpa [paymentOfMessage] using hstatus)
          rw [hq] at hres
          simp at hres
        · have hsome := hunique { s with log := s.log ++ [.findProcessed msg.OrderID] }
            (paymentOfMessage msg) ⟨_, hrow, by simp [paymentOfMessage]⟩
          rw [hc] at hsome
          simp at hsome
  have hsecond := WithRetry_background_preserves (handlePaymentOperation env msg) svc.strategy
    (fun s => s.payments = (handlePaymentOperation env msg w).1.payments ∧
      s.notifications = (handlePaymentOperation env msg w).1.notifications)
    hkeep (svc.handlePayment env msg w).state (by rw [hfirst]; exact ⟨rfl, rfl⟩)
  have hsecond2 : (svc.handlePayment env msg (svc.handlePayment env msg w).state).state.payments
        = (handlePaymentOperation env msg w).1.payments ∧
      (svc.handlePayment env msg (svc.handlePayment env msg w).state).state.notifications
        = (handlePaymentOperation env msg w).1.notifications := hsecond
  constructor
  · have hnone : w.payments.filter (fun p => p.OrderID == msg.OrderID) = [] := by
      rw [List.filter_eq_nil_iff]
      intro x hx
      simp [hfresh x hx]
    simp [recordsOf, hsecond2.1, hpay, List.filter_append, hnone, paymentOfMessage]
  · rw [hsecond2.2, hnot]
    simp

theorem handlePayment_twice_one_record_witness :
    ((recordsOf completedPaymentMessage.OrderID
      (NewAsyncService.handlePayment reliableEnv completedPaymentMessage
        (NewAsyncService.handlePayment reliableEnv completedPaymentMessage
          emptyWorld).state).state).length = 1 ∧
    (NewAsyncService.handlePayment reliableEnv completedPaymentMessage
        (NewAsyncService.handlePayment reliableEnv completedPaymentMessage
          emptyWorld).state).state.notifications.length
      = emptyWorld.notifications.length + 1) ∧
    (recordsOf samplePaymentMessage.OrderID
      (NewAsyncService.handlePayment uniqueIndexEnv samplePaymentMessage
        (NewAsyncService.handlePayment uniqueIndexEnv samplePaymentMessage
          emptyWorld).state).state).length = 1 ∧
    (NewAsyncService.handlePayment uniqueIndexEnv samplePaymentMessage
        (NewAsyncService.handlePayment uniqueIndexEnv samplePaymentMessage
          emptyWorld).state).state.notifications.length = emptyWorld.notifications.length + 1 :=
  ⟨handlePayment_twice_one_record NewAsyncService reliableEnv completedPaymentMessage
    emptyWorld (by decide) (fun _ hq => nomatch hq) (fun _ _ _ => rfl)
    (Or.inl ⟨by decide, fun _ => rfl⟩) (fun _ => rfl) (fun _ _ => rfl),
  handlePayment_twice_one_record NewAsyncService uniqueIndexEnv samplePaymentMessage emptyWorld
    (by decide) (fun _ hq => nomatch hq)
    (fun w1 p h => by
      have hany : w1.payments.any (fun q => q.OrderID == p.OrderID) = false := by
        rw [List.any_eq_false]
        intro x hx
        simpa using h x hx
      simp only [uniqueIndexEnv, hany]
      simp)
    (Or.inr (fun w1 p h => by
      have hany : w1.payments.any (fun q => q.OrderID == p.OrderID) = true := by
        rw [List.any_eq_true]
        obtain ⟨q, hq, he⟩ := h
        exact ⟨q, hq, by simp [he]⟩
      simp only [uniqueIndexEnv, hany]
      simp))
    (fun _ => rfl) (fun _ _ => rfl)⟩

/-- C12. For handlePayment and for handlePaymentStatus, from any world state and for
every behaviour of json.Marshal and of the broker: (1, 3) an operation whose store
write (create, respectively status update) is accepted returns nil and leaves the
written rows in the table, and with at least one attempt allowed the handler started
there returns nil after that single call, with no wait and no further attempt; (2, 4)
every error an operation returns is a store error (DB_ERROR, respectively
PAYMENT_NOT_FOUND or STATUS_UPDATE_ERROR), never one of PublishNotification; (5, 6) in
every run of either handler, a call of the operation that returned nil is the last
effect of the run and the handler returns nil. -/
theorem notification_failure_swallowed (svc : AsyncService) (env : ServiceEnv) (w : World) :
    (∀ msg : PaymentMessage,
      w.payments.find?
        (fun p => p.OrderID == msg.OrderID && p.Status != PaymentStatusPending) = none →
      env.createErr { w with log := w.log ++ [.findProcessed msg.OrderID] }
        (paymentOfMessage msg) = none →
      (handlePaymentOperation env.toAsyncEnv msg w).2 = none ∧
      (handlePaymentOperation env.toAsyncEnv msg w).1.payments =
        w.payments ++ [{ paymentOfMessage msg with CreatedAt := w.now, UpdatedAt := w.now }] ∧
      (1 ≤ svc.strategy.MaxAttempts →
        (svc.handlePayment env.toAsyncEnv msg w).err = none ∧
        (svc.handlePayment env.toAsyncEnv msg w).trace = [.invoke none] ∧
        (svc.handlePayment env.toAsyncEnv msg w).state.payments =
          w.payments ++ [{ paymentOfMessage msg with CreatedAt := w.now, UpdatedAt := w.now }])) ∧
    (∀ (msg : PaymentMessage) (e : GoError),
      (handlePaymentOperation env.toAsyncEnv msg w).2 = some e →
      ∃ cause,
        env.createErr { w with log := w.log ++ [.findProcessed msg.OrderID] }
          (paymentOfMessage msg) = some cause ∧
        e = .payment (NewPaymentError ErrorTypeDatabase "DB_ERROR"
          "Failed to create payment record" msg.OrderID true (some cause))) ∧
    (∀ (msg : PaymentStatusMessage) (p : Payment),
      w.payments.find? (fun p => p.OrderID == msg.OrderID) = some p →
      env.updateErr { w with log := w.log ++ [.findByOrderID msg.OrderID] } p msg.NewStatus
        = none →
      (handlePaymentStatusOperation env msg w).2 = none ∧
      (handlePaymentStatusOperation env msg w).1.payments =
        w.payments.map (fun q =>
          if q.ID == p.ID then { q with Status := msg.NewStatus, UpdatedAt := w.now } else q) ∧
      (1 ≤ svc.strategy.MaxAttempts →
        (svc.handlePaymentStatus env msg w).err = none ∧
        (svc.handlePaymentStatus env msg w).trace = [.invoke none] ∧
        (svc.handlePaymentStatus env msg w).state.payments =
          w.payments.map (fun q =>
            if q.ID == p.ID then { q with Status := msg.NewStatus, UpdatedAt := w.now }
            else q))) ∧
    (∀ (msg : PaymentStatusMessage) (e : GoError),
      (handlePaymentStatusOperation env msg w).2 = some e →
      e = .payment (NewPaymentError ErrorTypeDatabase "PAYMENT_NOT_FOUND"
          "Payment not found" msg.OrderID false (some .recordNotFound)) ∨
      ∃ cause, e = .payment (NewPaymentError ErrorTypeDatabase "STATUS_UPDATE_ERROR"
          "Failed to update payment status" msg.OrderID true (some cause))) ∧
    (∀ (msg : PaymentMessage) (pre post : List RetryEvent),
      (svc.handlePayment env.toAsyncEnv msg w).trace = pre ++ .invoke none :: post →
      post = [] ∧ (svc.handlePayment env.toAsyncEnv msg w).err = none) ∧
    (∀ (msg : PaymentStatusMessage) (pre post : List RetryEvent),
      (svc.handlePaymentStatus env msg w).trace = pre ++ .invoke none :: post →
      post = [] ∧ (svc.handlePaymentStatus env msg w).err = none) := by
  have hlast : ∀ (op : World → World × Option GoError) (pre post : List RetryEvent),
      (WithRetry (backgroundEnv op) svc.strategy w).trace = pre ++ .invoke none :: post →
      post = [] ∧ (WithRetry (backgroundEnv op) svc.strategy w).err = none := by
    intro op pre post h
    have hshape := retryLoop_after_invoke (backgroundEnv op) svc.strategy _ _ _ _ pre none post h
    have hpost : post = [] := by
      by_contra hp
      obtain ⟨e, he, _⟩ := hshape.2 hp
      cases he
    exact ⟨hpost, hshape.1 hpost⟩
  refine ⟨?_, ?_, ?_, ?_, fun msg pre post h => hlast _ pre post h,
    fun msg pre post h => hlast _ pre post h⟩
  · intro msg hfind hcreate
    obtain ⟨herr, hpay, _, _⟩ :=
      handlePaymentOperation_created env.toAsyncEnv msg w hfind hcreate
    refine ⟨herr, hpay, fun hmax => ?_⟩
    obtain ⟨h1, h2, h3⟩ :=
      WithRetry_first_call_nil (backgroundEnv (handlePaymentOperation env.toAsyncEnv msg))
        svc.strategy w (handlePaymentOperation env.toAsyncEnv msg w).1 hmax rfl
        (Prod.ext rfl herr)
    refine ⟨h1, h3, ?_⟩
    show (WithRetry _ svc.strategy w).state.payments = _
    rw [h2, hpay]
  · intro msg e he
    cases hres : (findProcessed env.toAsyncEnv msg.OrderID w).2 with
    | ok q =>
      rw [handlePaymentOperation_hit env.toAsyncEnv msg w q hres] at he
      simp at he
    | error e0 =>
      cases hc : env.createErr { w with log := w.log ++ [.findProcessed msg.OrderID] }
          (paymentOfMessage msg) with
      | some cause =>
        rw [handlePaymentOperation_refused_of_miss env.toAsyncEnv msg w e0 cause hres hc] at he
        exact ⟨cause, rfl, by simpa using he.symm⟩
      | none =>
        rw [(handlePaymentOperation_created_of_miss env.toAsyncEnv msg w e0 hres hc).1] at he
        simp at he
  · intro msg p hfind hupdate
    obtain ⟨herr, hpay, _⟩ := handlePaymentStatusOperation_updated env msg w p hfind hupdate
    refine ⟨herr, hpay, fun hmax => ?_⟩
    obtain ⟨h1, h2, h3⟩ :=
      WithRetry_first_call_nil (backgroundEnv (handlePaymentStatusOperation env msg))
        svc.strategy w (handlePaymentStatusOperation env msg w).1 hmax rfl
        (Prod.ext rfl herr)
    refine ⟨h1, h3, ?_⟩
    show (WithRetry _ svc.strategy w).state.payments = _
    rw [h2, hpay]
  · intro msg e he
    cases hf : w.payments.find? (fun p => p.OrderID == msg.OrderID) with
    | none =>
      rw [handlePaymentStatusOperation_not_found env msg w hf] at he
      exact Or.inl (by simpa using he.symm)
    | some p =>
      cases hu : env.updateErr { w with log := w.log ++ [.findByOrderID msg.OrderID] }
          p msg.NewStatus with
      | some cause =>
        rw [handlePaymentStatusOperation_refused env msg w p cause hf hu] at he
        exact Or.inr ⟨cause, by simpa using he.symm⟩
      | none =>
        rw [(handlePaymentStatusOperation_updated env msg w p hf hu).1] at he
        simp at he

theorem notification_failure_swallowed_witness :
    ((handlePaymentOperation brokerDownEnv.toAsyncEnv samplePaymentMessage emptyWorld).2 = none ∧
     (handlePaymentOperation brokerDownEnv.toAsyncEnv samplePaymentMessage emptyWorld).1.payments =
      emptyWorld.payments ++ [{ paymentOfMessage samplePaymentMessage with
        CreatedAt := emptyWorld.now, UpdatedAt := emptyWorld.now }] ∧
     (1 ≤ NewAsyncService.strategy.MaxAttempts →
      (NewAsyncService.handlePayment brokerDownEnv.toAsyncEnv samplePaymentMessage
        emptyWorld).err = none ∧
      (NewAsyncService.handlePayment brokerDownEnv.toAsyncEnv samplePaymentMessage
        emptyWorld).trace = [.invoke none] ∧
      (NewAsyncService.handlePayment brokerDownEnv.toAsyncEnv samplePaymentMessage
        emptyWorld).state.payments =
        emptyWorld.payments ++ [{ paymentOfMessage samplePaymentMessage with
          CreatedAt := emptyWorld.now, UpdatedAt := emptyWorld.now }])) ∧
    (NewAsyncService.handlePayment brokerDownEnv.toAsyncEnv samplePaymentMessage
        emptyWorld).state.notifications = [] :=
  ⟨(notification_failure_swallowed NewAsyncService brokerDownEnv emptyWorld).1
      samplePaymentMessage rfl rfl, rfl⟩

/-- C13. With at least one attempt allowed, handlePaymentStatus for an order that has no
stored payment returns the PaymentError PAYMENT_NOT_FOUND with Retryable = false, after
exactly one call of the operation and no wait; the only effect is the one lookup: the
payments table and the published notifications are as before, and no status update
and no publish was attempted. -/
theorem handlePaymentStatus_not_found (svc : AsyncService) (env : ServiceEnv)
    (msg : PaymentStatusMessage) (w : World)
    (hmax : 1 ≤ svc.strategy.MaxAttempts)
    (hnone : ∀ q ∈ w.payments, q.OrderID ≠ msg.OrderID) :
    (∃ e, (svc.handlePaymentStatus env msg w).err = some (.payment e) ∧
      e.Code = "PAYMENT_NOT_FOUND" ∧ e.Retryable = false ∧ e.OrderID = msg.OrderID) ∧
    invocations (svc.handlePaymentStatus env msg w).trace = 1 ∧
    sleeps (svc.handlePaymentStatus env msg w).trace = 0 ∧
    (svc.handlePaymentStatus env msg w).state.log = w.log ++ [.findByOrderID msg.OrderID] ∧
    (svc.handlePaymentStatus env msg w).state.payments = w.payments ∧
    (svc.handlePaymentStatus env msg w).state.notifications = w.notifications := by
  have hfind : w.payments.find? (fun p => p.OrderID == msg.OrderID) = none := by
    rw [List.find?_eq_none]
    intro x hx
    simp [hnone x hx]
  have hop := handlePaymentStatusOperation_not_found env msg w hfind
  obtain ⟨h1, h2, h3⟩ :=
    WithRetry_first_call_terminal (backgroundEnv (handlePaymentStatusOperation env msg))
      svc.strategy w _ _ hmax rfl hop rfl
  have h1' : (svc.handlePaymentStatus env msg w).err = _ := h1
  have h2' : (svc.handlePaymentStatus env msg w).state = _ := h2
  have h3' : (svc.handlePaymentStatus env msg w).trace = _ := h3
  refine ⟨⟨_, h1', rfl, rfl, rfl⟩, ?_, ?_, ?_, ?_, ?_⟩
  · rw [h3']; rfl
  · rw [h3']; rfl
  · rw [h2']
  · rw [h2']
  · rw [h2']

theorem handlePaymentStatus_not_found_witness :
    (∃ e, (NewAsyncService.handlePaymentStatus reliableServiceEnv sampleStatusMessage
        emptyWorld).err = some (.payment e) ∧
      e.Code = "PAYMENT_NOT_FOUND" ∧ e.Retryable = false ∧
      e.OrderID = sampleStatusMessage.OrderID) ∧
    invocations (NewAsyncService.handlePaymentStatus reliableServiceEnv sampleStatusMessage
      emptyWorld).trace = 1 ∧
    sleeps (NewAsyncService.handlePaymentStatus reliableServiceEnv sampleStatusMessage
      emptyWorld).trace = 0 ∧
    (NewAsyncService.handlePaymentStatus reliableServiceEnv sampleStatusMessage
      emptyWorld).state.log = emptyWorld.log ++ [.findByOrderID sampleStatusMessage.OrderID] ∧
    (NewAsyncService.handlePaymentStatus reliableServiceEnv sampleStatusMessage
      emptyWorld).state.payments = emptyWorld.payments ∧
    (NewAsyncService.handlePaymentStatus reliableServiceEnv sampleStatusMessage
      emptyWorld).state.notifications = emptyWorld.notifications :=
  handlePaymentStatus_not_found NewAsyncService reliableServiceEnv sampleStatusMessage
    emptyWorld (by decide) (fun _ hq => nomatch hq)

/-! ### The providers -/

/-- The status of an event that the Stripe provider returns is decided by the event
type: Completed, Failed and Refunded for the three charge events, and the empty string
for every other type. -/
theorem StripeProvider_ValidateWebhook_status (p : StripeProvider) (payload : List UInt8)
    (signature : String) (ev : WebhookEvent)
    (h : p.ValidateWebhook payload signature = .ok ev) :
    (ev.Type_ = "charge.succeeded" ∧ ev.Status = PaymentStatusCompleted) ∨
    (ev.Type_ = "charge.failed" ∧ ev.Status = PaymentStatusFailed) ∨
    (ev.Type_ = "charge.refunded" ∧ ev.Status = PaymentStatusRefunded) ∨
    (ev.Type_ ≠ "charge.succeeded" ∧ ev.Type_ ≠ "charge.failed" ∧
      ev.Type_ ≠ "charge.refunded" ∧ ev.Status = "") := by
  unfold StripeProvider.ValidateWebhook at h
  split at h
  · cases h
  · next event _ =>
    split at h
    next h1 =>
      split at h
      · cases h
      · cases h; exact Or.inl ⟨h1, rfl⟩
    next h1 =>
      split at h
      next h2 =>
        split at h
        · cases h
        · cases h; exact Or.inr (Or.inl ⟨h2, rfl⟩)
      next h2 =>
        split at h
        next h3 =>
          split at h
          · cases h
          · cases h; exact Or.inr (Or.inr (Or.inl ⟨h3, rfl⟩))
        next h3 =>
          cases h
          exact Or.inr (Or.inr (Or.inr ⟨h1, h2, h3, rfl⟩))

/-- The status of an event that the PayPal provider returns: Completed, Failed and
Refunded for the three capture events, and the empty string otherwise. -/
theorem PayPalProvider_ValidateWebhook_status (p : PayPalProvider) (payload : List UInt8)
    (signature : String) (ev : WebhookEvent)
    (h : p.ValidateWebhook payload signature = .ok ev) :
    (ev.Type_ = "PAYMENT.CAPTURE.COMPLETED" ∧ ev.Status = PaymentStatusCompleted) ∨
    (ev.Type_ = "PAYMENT.CAPTURE.DENIED" ∧ ev.Status = PaymentStatusFailed) ∨
    (ev.Type_ = "PAYMENT.CAPTURE.REFUNDED" ∧ ev.Status = PaymentStatusRefunded) ∨
    ev.Status = "" := by
  unfold PayPalProvider.ValidateWebhook at h
  split at h
  · cases h
  · cases h
  · split at h
    · cases h
    · next event _ =>
      split at h
      · split at h
        · cases h
        · cases h
          by_cases h1 : event.EventType = "PAYMENT.CAPTURE.COMPLETED"
          · exact Or.inl ⟨h1, by simp [h1]⟩
          · by_cases h2 : event.EventType = "PAYMENT.CAPTURE.DENIED"
            · exact Or.inr (Or.inl ⟨h2, by simp [h1, h2]⟩)
            · by_cases h3 : event.EventType = "PAYMENT.CAPTURE.REFUNDED"
              · exact Or.inr (Or.inr (Or.inl ⟨h3, by simp [h1, h2, h3]⟩))
              · exact Or.inr (Or.inr (Or.inr (by simp [h1, h2, h3])))
      · cases h
        exact Or.inr (Or.inr (Or.inr rfl))

/-- C18 (the code at the failing input). A webhook whose signature verifies and whose
event type is not one of the three handled ones is returned without error and with
the empty string as its Status, which is none of Pending, Completed, Failed, Cancelled,
Refunded: Stripe on an event of type payment_intent.created, PayPal on a
PAYMENT.CAPTURE.PENDING event of a capture. -/
theorem ValidateWebhook_unhandled_event_status_empty :
    (∃ ev, sampleStripe.ValidateWebhook [] "t=1,v1=good" = .ok ev ∧
      ev.Type_ = "payment_intent.created" ∧ ev.Status = "" ∧
      isFiveValued ev.Status = false) ∧
    (∃ ev, samplePayPal.ValidateWebhook [] "good" = .ok ev ∧
      ev.Type_ = "PAYMENT.CAPTURE.PENDING" ∧ ev.Status = "" ∧
      isFiveValued ev.Status = false) :=
  ⟨⟨_, rfl, rfl, rfl, by decide⟩, ⟨_, rfl, rfl, rfl, by decide⟩⟩

/-- C19 (the code at the failing input). When charge.New returns an unpaid charge with
status "failed" that carries no outcome (a nil Outcome pointer), the Stripe
ProcessPayment panics on charge.Outcome.RiskLevel instead of returning a Failed
response; so it does on every charge without outcome. On a declined charge that has an
outcome it returns Status = Failed, Success = false and a nil error, and the PayPal
provider does so on every DECLINED capture; neither provider returns a non-nil error
unless a backend call (charge.New; CreateOrder or CaptureOrder) returned one. -/
theorem ProcessPayment_panics_without_outcome :
    noOutcomeStripe.ProcessPayment { OrderID := "O2", Amount := 50, Currency := "USD" } =
      .panicked nilDereference ∧
    (∀ (p : StripeProvider) (req : PaymentRequest) (charge : StripeCharge),
      p.backend.chargeNew (stripeChargeParams req) = .ok charge →
      (charge.Outcome = none ↔ p.ProcessPayment req = .panicked nilDereference)) ∧
    (∀ (p : StripeProvider) (req : PaymentRequest) (charge : StripeCharge)
      (outcome : StripeChargeOutcome),
      p.backend.chargeNew (stripeChargeParams req) = .ok charge →
      charge.Outcome = some outcome →
      charge.Paid = false → charge.Status = "failed" →
      ∃ resp, p.ProcessPayment req = .returned resp none ∧
        resp.Status = PaymentStatusFailed ∧ resp.Success = false) ∧
    (∀ (p : StripeProvider) (req : PaymentRequest) (resp : PaymentResponse) (e : GoError),
      p.ProcessPayment req = .returned resp (some e) →
      ∃ err, p.backend.chargeNew (stripeChargeParams req) = .error err) ∧
    (∀ (p : PayPalProvider) (req : PaymentRequest) (order : PayPalOrder)
      (capture : PayPalCapture),
      p.client.createOrder req.OrderID req.Currency (p.client.formatAmount req.Amount)
        req.Description = .ok order →
      p.client.captureOrder order.ID = .ok capture →
      capture.Status = "DECLINED" →
      ∃ resp, p.ProcessPayment req = .returned resp none ∧
        resp.Status = PaymentStatusFailed ∧ resp.Success = false) ∧
    (∀ (p : PayPalProvider) (req : PaymentRequest),
      (∀ msg, p.ProcessPayment req ≠ .panicked msg) ∧
      ∀ (resp : PaymentResponse) (e : GoError),
        p.ProcessPayment req = .returned resp (some e) →
        (∃ err, p.client.createOrder req.OrderID req.Currency
            (p.client.formatAmount req.Amount) req.Description = .error err) ∨
        (∃ order err, p.client.createOrder req.OrderID req.Currency
            (p.client.formatAmount req.Amount) req.Description = .ok order ∧
          p.client.captureOrder order.ID = .error err)) ∧
    (∃ resp, sampleStripe.ProcessPayment { OrderID := "O2", Amount := 50, Currency := "USD" } =
        .returned resp none ∧ resp.Status = PaymentStatusFailed ∧ resp.Success = false) ∧
    (∃ resp, samplePayPal.ProcessPayment { OrderID := "O2", Amount := 50, Currency := "USD" } =
        .returned resp none ∧ resp.Status = PaymentStatusFailed ∧ resp.Success = false) := by
  refine ⟨rfl, ?_, ?_, ?_, ?_, ?_, ⟨_, rfl, rfl, rfl⟩, ⟨_, rfl, rfl, rfl⟩⟩
  · intro p req charge hnew
    cases hout : charge.Outcome with
    | none => simp [StripeProvider.ProcessPayment, hnew, hout]
    | some outcome => simp [StripeProvider.ProcessPayment, hnew, hout]
  · intro p req charge outcome hnew hout hpaid hstatus
    simp [StripeProvider.ProcessPayment, hnew, hout, hpaid, hstatus]
  · intro p req resp e he
    cases hnew : p.backend.chargeNew (stripeChargeParams req) with
    | error err => exact ⟨err, rfl⟩
    | ok charge =>
      cases hout : charge.Outcome with
      | none => simp [StripeProvider.ProcessPayment, hnew, hout] at he
      | some outcome => simp [StripeProvider.ProcessPayment, hnew, hout] at he
  · intro p req order capture horder hcap hstatus
    simp [PayPalProvider.ProcessPayment, horder, hcap, hstatus, PaymentStatusFailed,
      PaymentStatusCompleted]
  · intro p req
    constructor
    · intro msg
      unfold PayPalProvider.ProcessPayment
      split
      · simp
      · split
        · simp
        · simp
    · intro resp e he
      unfold PayPalProvider.ProcessPayment at he
      split at he
      · next err horder => exact Or.inl ⟨err, horder⟩
      · next order horder =>
        split at he
        · next err hcap => exact Or.inr ⟨order, err, horder, hcap⟩
        · simp at he

/-! ### Store writes and the stored status -/

/-- Rewriting the rows with a given primary key, to rows of that key that carry a given
status, stores that status under the key. -/
theorem storedStatus_map (l : List Payment) (id : String) (st : PaymentStatus)
    (f : Payment → Payment) (hid : ∀ q, q.ID = id → (f q).ID = id)
    (hst : ∀ q, (f q).Status = st) (hex : ∃ q ∈ l, q.ID = id) :
    (∃ q ∈ l.map (fun q => if q.ID == id then f q else q), q.ID = id) ∧
    ∀ q ∈ l.map (fun q => if q.ID == id then f q else q), q.ID = id → q.Status = st := by
  constructor
  · obtain ⟨q, hq, hqid⟩ := hex
    refine ⟨f q, ?_, hid q hqid⟩
    rw [List.mem_map]
    exact ⟨q, hq, by simp [hqid]⟩
  · intro q' hq' hid'
    rw [List.mem_map] at hq'
    obtain ⟨q, _, hqq⟩ := hq'
    by_cases hc : q.ID = id
    · simp [hc] at hqq
      rw [← hqq]
      exact hst q
    · simp [hc] at hqq
      rw [← hqq] at hid'
      exact absurd hid' hc

/-- The stored status only depends on the payments table. -/
theorem StoredStatusIs_of_payments_eq (id : String) (st : PaymentStatus) (w w1 : World)
    (h : w1.payments = w.payments) (hs : StoredStatusIs id st w) : StoredStatusIs id st w1 := by
  unfold StoredStatusIs at hs ⊢
  rw [h]
  exact hs

/-- The error of db.Save is the store's answer. -/
theorem dbSave_snd (env : ServiceEnv) (payment : Payment) (w : World) :
    (dbSave env payment w).2 = env.saveErr w payment := by
  unfold dbSave
  split <;> simp [*]

/-- An accepted db.Save of a payment that is in the table stores the payment's status
under its primary key. -/
theorem dbSave_stores (env : ServiceEnv) (payment : Payment) (w : World)
    (hsave : env.saveErr w payment = none) (hex : ∃ q ∈ w.payments, q.ID = payment.ID) :
    StoredStatusIs payment.ID payment.Status (dbSave env payment w).1 := by
  have hany : w.payments.any (fun q => q.ID == payment.ID) = true := by
    rw [List.any_eq_true]
    obtain ⟨q, hq, he⟩ := hex
    exact ⟨q, hq, by simp [he]⟩
  have hpay : (dbSave env payment w).1.payments =
      w.payments.map (fun q =>
        if q.ID == payment.ID then { payment with UpdatedAt := w.now } else q) := by
    simp only [dbSave, hsave, hany, if_true]
  unfold StoredStatusIs
  rw [hpay]
  exact storedStatus_map w.payments payment.ID payment.Status
    (fun _ => { payment with UpdatedAt := w.now }) (fun _ _ => rfl) (fun _ => rfl) hex

/-- A db.Save, accepted or not, leaves the refunds table alone; a refused one leaves
the payments table alone. -/
theorem dbSave_keeps (env : ServiceEnv) (payment : Payment) (w : World) :
    (dbSave env payment w).1.refunds = w.refunds ∧
    ((dbSave env payment w).2 ≠ none → (dbSave env payment w).1.payments = w.payments) := by
  unfold dbSave
  split <;> simp

/-- Publishing a status message touches neither the payments nor the refunds table. -/
theorem PublishPaymentStatus_keeps_tables (svc : AsyncService) (env : ServiceEnv)
    (msg : PaymentStatusMessage) (w : World) :
    (svc.PublishPaymentStatus env msg w).1.payments = w.payments ∧
    (svc.PublishPaymentStatus env msg w).1.refunds = w.refunds := by
  unfold AsyncService.PublishPaymentStatus
  split <;> simp

/-- C17. For every payload and signature: (1) when Stripe's ConstructEvent returns an
error, and (2) when PayPal's verification returns an error or reports the signature as
not valid, ValidateWebhook returns an error and no event; (3) whenever the provider's
ValidateWebhook returns an error, HandleWebhook returns an error and the world is
exactly as before: no payment record was read or written and no status message was
published; (4, 5) so it is for a service whose provider is the Stripe or the PayPal
provider. -/
theorem webhook_signature_failure_rejected (svc : PaymentService) (env : ServiceEnv)
    (payload : List UInt8) (signature : String) (w : World) :
    (∀ (p : StripeProvider) (err : GoError),
      p.backend.constructEvent payload signature p.webhookKey = .error err →
      p.ValidateWebhook payload signature =
        .error (.wrapped "failed to verify webhook signature" err)) ∧
    (∀ (p : PayPalProvider) (valid : Bool) (verr : Option GoError),
      p.client.validateWebhookSignature payload signature p.webhookID = (valid, verr) →
      (verr ≠ none ∨ valid = false) →
      p.ValidateWebhook payload signature = .error (.other "invalid webhook signature")) ∧
    (∀ (providerType : String) (provider : Provider) (err : GoError),
      svc.providers providerType = some provider →
      provider.ValidateWebhook payload signature = .error err →
      svc.HandleWebhook env providerType payload signature w =
        (w, some (.wrapped "failed to validate webhook" err))) ∧
    (∀ (providerType : String) (p : StripeProvider) (err : GoError),
      svc.providers providerType = some p.toProvider →
      p.backend.constructEvent payload signature p.webhookKey = .error err →
      (svc.HandleWebhook env providerType payload signature w).1 = w ∧
      (svc.HandleWebhook env providerType payload signature w).2.isSome = true) ∧
    (∀ (providerType : String) (p : PayPalProvider) (valid : Bool) (verr : Option GoError),
      svc.providers providerType = some p.toProvider →
      p.client.validateWebhookSignature payload signature p.webhookID = (valid, verr) →
      (verr ≠ none ∨ valid = false) →
      (svc.HandleWebhook env providerType payload signature w).1 = w ∧
      (svc.HandleWebhook env providerType payload signature w).2.isSome = true) := by
  have hstripe : ∀ (p : StripeProvider) (err : GoError),
      p.backend.constructEvent payload signature p.webhookKey = .error err →
      p.ValidateWebhook payload signature =
        .error (.wrapped "failed to verify webhook signature" err) := by
    intro p err h
    simp [StripeProvider.ValidateWebhook, h]
  have hpaypal : ∀ (p : PayPalProvider) (valid : Bool) (verr : Option GoError),
      p.client.validateWebhookSignature payload signature p.webhookID = (valid, verr) →
      (verr ≠ none ∨ valid = false) →
      p.ValidateWebhook payload signature = .error (.other "invalid webhook signature") := by
    intro p valid verr h hbad
    cases verr with
    | some e => simp [PayPalProvider.ValidateWebhook, h]
    | none =>
      rcases hbad with hb | hb
      · exact absurd rfl hb
      · subst hb
        simp [PayPalProvider.ValidateWebhook, h]
  have hservice : ∀ (providerType : String) (provider : Provider) (err : GoError),
      svc.providers providerType = some provider →
      provider.ValidateWebhook payload signature = .error err →
      svc.HandleWebhook env providerType payload signature w =
        (w, some (.wrapped "failed to validate webhook" err)) := by
    intro providerType provider err hprov hval
    simp [PaymentService.HandleWebhook, hprov, hval]
  refine ⟨hstripe, hpaypal, hservice, ?_, ?_⟩
  · intro providerType p err hprov h
    rw [hservice providerType p.toProvider _ hprov (hstripe p err h)]
    exact ⟨rfl, rfl⟩
  · intro providerType p valid verr hprov h hbad
    rw [hservice providerType p.toProvider _ hprov (hpaypal p valid verr h hbad)]
    exact ⟨rfl, rfl⟩

theorem webhook_signature_failure_rejected_witness :
    (samplePaymentService.HandleWebhook reliableServiceEnv "stripe" [] "t=1,v1=forged"
      failedWorld).1 = failedWorld ∧
    (samplePaymentService.HandleWebhook reliableServiceEnv "stripe" [] "t=1,v1=forged"
      failedWorld).2.isSome = true :=
  (webhook_signature_failure_rejected samplePaymentService reliableServiceEnv []
    "t=1,v1=forged" failedWorld).2.2.2.1
    "stripe" sampleStripe (.other "webhook had no valid signature") rfl rfl

/-- C20. For every payment: (1) if the provider's refund primitive returns an error,
RefundPayment returns an error and leaves the world and the payment object exactly as
they were, so no Refund record is created and the payment's status is unchanged;
(2) in every run in which the status of the payment object, the payments table or the
refunds table has changed, the provider is registered and its refund call returned
without error. -/
theorem RefundPayment_waits_for_provider (svc : PaymentService) (env : ServiceEnv)
    (payment : Payment) (amount : Float64) (w : World) :
    (∀ (provider : Provider) (err : GoError),
      svc.providers payment.ProviderType = some provider →
      provider.RefundPayment payment.TransactionID amount = some err →
      (svc.RefundPayment env payment amount w).err =
        some (.wrapped "failed to refund payment" err) ∧
      (svc.RefundPayment env payment amount w).world = w ∧
      (svc.RefundPayment env payment amount w).payment = payment) ∧
    (((svc.RefundPayment env payment amount w).payment.Status ≠ payment.Status ∨
      (svc.RefundPayment env payment amount w).world.payments ≠ w.payments ∨
      (svc.RefundPayment env payment amount w).world.refunds ≠ w.refunds) →
      ∃ provider, svc.providers payment.ProviderType = some provider ∧
        provider.RefundPayment payment.TransactionID amount = none) := by
  constructor
  · intro provider err hprov href
    simp [PaymentService.RefundPayment, hprov, href]
  · intro hchanged
    cases hprov : svc.providers payment.ProviderType with
    | none =>
      simp [PaymentService.RefundPayment, hprov] at hchanged
    | some provider =>
      cases href : provider.RefundPayment payment.TransactionID amount with
      | some err =>
        simp [PaymentService.RefundPayment, hprov, href] at hchanged
      | none => exact ⟨provider, rfl, href⟩

theorem RefundPayment_waits_for_provider_witness :
    (samplePaymentService.RefundPayment reliableServiceEnv failedPayPalPayment 50
      failedPayPalWorld).err =
        some (.wrapped "failed to refund payment"
          (.wrapped "failed to refund PayPal payment" (.other "CAPTURE_FULLY_REFUNDED"))) ∧
    (samplePaymentService.RefundPayment reliableServiceEnv failedPayPalPayment 50
      failedPayPalWorld).world = failedPayPalWorld ∧
    (samplePaymentService.RefundPayment reliableServiceEnv failedPayPalPayment 50
      failedPayPalWorld).payment = failedPayPalPayment :=
  (RefundPayment_waits_for_provider samplePaymentService reliableServiceEnv failedPayPalPayment
    50 failedPayPalWorld).1 samplePayPal.toProvider _ rfl rfl

/-! ### Runs in which every call fails with a retryable error -/

/-- One iteration of the loop when the context is not cancelled, the call fails with a
retryable PaymentError and the wait ends with the timer: the call, the wait for the
interval of this attempt, then the rest of the loop. -/
theorem retryLoop_step_retryable {σ : Type} (env : RetryEnv σ) (st : RetryStrategy)
    (hctx : ∀ s, env.ctxErr s = none)
    (hwait : ∀ d s, (env.wait d s).2 = false)
    (hop : ∀ s, ∃ e, (env.op s).2 = some e ∧ e.isRetryable = true)
    (fuel : Nat) (attempt : Int) (lastErr : Option GoError) (s : σ)
    (hlt : attempt < st.MaxAttempts) :
    ∃ e s2, e.isRetryable = true ∧
      (retryLoop env st (fuel + 1) attempt lastErr s).trace =
        .invoke (some e) :: .sleep (st.CalculateNextInterval attempt) false ::
          (retryLoop env st fuel (attempt + 1) (some e) s2).trace ∧
      (retryLoop env st (fuel + 1) attempt lastErr s).err =
        (retryLoop env st fuel (attempt + 1) (some e) s2).err ∧
      (retryLoop env st (fuel + 1) attempt lastErr s).state =
        (retryLoop env st fuel (attempt + 1) (some e) s2).state := by
  obtain ⟨e, he, hr⟩ := hop s
  have hsr : st.ShouldRetry attempt e = true := by
    rw [ShouldRetry_eq_isRetryable st attempt e hlt]; exact hr
  rcases hops : env.op s with ⟨s1, r⟩
  rw [hops] at he
  simp only at he
  subst he
  rcases hw : env.wait (st.CalculateNextInterval attempt) s1 with ⟨s2, b⟩
  have hb := hwait (st.CalculateNextInterval attempt) s1
  rw [hw] at hb
  simp only at hb
  subst hb
  refine ⟨e, s2, hr, ?_, ?_, ?_⟩ <;>
    simp [retryLoop, hlt, hctx s, hops, hsr, hw]

/-- In such a run every call is followed by a wait: the waits are as many as the calls,
and their intervals are those of the consecutive attempts. -/
theorem retryLoop_sleeps_always_retryable {σ : Type} (env : RetryEnv σ) (st : RetryStrategy)
    (hctx : ∀ s, env.ctxErr s = none)
    (hwait : ∀ d s, (env.wait d s).2 = false)
    (hop : ∀ s, ∃ e, (env.op s).2 = some e ∧ e.isRetryable = true) :
    ∀ (fuel : Nat) (attempt : Int) (lastErr : Option GoError) (s : σ),
      attempt + fuel = st.MaxAttempts →
      sleeps (retryLoop env st fuel attempt lastErr s).trace = fuel ∧
      invocations (retryLoop env st fuel attempt lastErr s).trace = fuel ∧
      sleepIntervals (retryLoop env st fuel attempt lastErr s).trace =
        intervalsFrom st attempt fuel ∧
      (∀ pre x post, (retryLoop env st fuel attempt lastErr s).trace = pre ++ .invoke x :: post →
        ∃ d rest, post = .sleep d false :: rest) := by
  intro fuel
  induction fuel with
  | zero =>
    intro attempt lastErr s _
    simp [retryLoop, sleeps, invocations, sleepIntervals, intervalsFrom]
  | succ fuel ih =>
    intro attempt lastErr s hinv
    have hlt : attempt < st.MaxAttempts := by push_cast at hinv; omega
    have hnext : attempt + 1 + (fuel : Int) = st.MaxAttempts := by push_cast at hinv; omega
    obtain ⟨e, s2, _, htr, _, _⟩ :=
      retryLoop_step_retryable env st hctx hwait hop fuel attempt lastErr s hlt
    obtain ⟨ih1, ih2, ih3, ih4⟩ := ih (attempt + 1) (some e) s2 hnext
    rw [htr]
    refine ⟨?_, ?_, ?_, ?_⟩
    · simp only [sleeps] at ih1 ⊢
      simp [RetryEvent.isSleep, ih1]
    · simp only [invocations] at ih2 ⊢
      simp [RetryEvent.isInvoke, ih2]
    · simp [sleepIntervals, intervalsFrom, ih3]
    · intro pre x post h
      cases pre with
      | nil =>
        simp at h
        exact ⟨_, _, h.2.symm⟩
      | cons a pre =>
        cases pre with
        | nil => simp at h
        | cons b pre =>
          simp at h
          exact ih4 pre x post h.2.2

theorem intervalsFrom_default :
    intervalsFrom DefaultRetryStrategy 0 3 = [1 * Second, 2 * Second, 2 * Second] := by
  decide!

/-! ### Further claims about the retry engine -/

/-- C26 (as stated, refuted). The value for attempt 1 is not always
min(InitialInterval × Multiplier, MaxInterval). With InitialInterval = 2^52 + 2 ns,
Multiplier 2 and MaxInterval = 2^53 + 3 ns the product 2^53 + 4 is above MaxInterval,
but float64(MaxInterval) rounds up to 2^53 + 4, the comparison finds nothing greater and
the result is 2^53 + 4 ns, one above the maximum. With InitialInterval = 3 ns and the
float64 nearest to 1/3 as Multiplier the product is below 1 and the float64 product
rounds to 1: the result is 1 ns where the integer part of the exact product is 0. With
InitialInterval = 2^62 ns, Multiplier 2 and the largest int64 as MaxInterval the
product 2^63 is not greater than float64(MaxInterval) = 2^63 and its conversion
overflows: the result is the smallest int64 (as compiled for amd64). -/
theorem CalculateNextInterval_rounds_past_max :
    roundedMaxStrategy.CalculateNextInterval 1 = 9007199254740996 ∧
    min (roundedMaxStrategy.InitialInterval * 2) roundedMaxStrategy.MaxInterval
      = 9007199254740995 ∧
    ¬ (roundedMaxStrategy.CalculateNextInterval 1 ≤ roundedMaxStrategy.MaxInterval) ∧
    Float64.ofInt roundedMaxStrategy.MaxInterval = .finite 9007199254740996 ∧
    oneThirdStrategy.CalculateNextInterval 1 = 1 ∧
    Float64.round (1 / 3) = oneThirdStrategy.Multiplier ∧
    truncate ((oneThirdStrategy.InitialInterval : ℚ) *
      (6004799503160661 / 18014398509481984)) = 0 ∧
    overflowStrategy.CalculateNextInterval 1 = MinInt64 ∧
    Float64.ofInt overflowStrategy.MaxInterval = .finite 9223372036854775808 := by
  decide!

/-- C26 (amended). For every strategy and all attempts a, b at least 1:
CalculateNextInterval(a) = CalculateNextInterval(b), so the value is recomputed from
InitialInterval and does not grow with the attempt number. The value is MaxInterval when
the float64 product float64(InitialInterval) * Multiplier is greater than
float64(MaxInterval), and the product converted to int64 otherwise. When the two
conversions to float64 and the product are exact and the result is within int64, this
is min(InitialInterval × Multiplier, MaxInterval) with the product truncated toward
zero. For every attempt at most 0 the result is InitialInterval. -/
theorem CalculateNextInterval_does_not_compound (s : RetryStrategy) (a b : Int)
    (ha : 1 ≤ a) (hb : 1 ≤ b) :
    s.CalculateNextInterval a = s.CalculateNextInterval b ∧
    s.CalculateNextInterval a =
      (if (Float64.ofInt s.InitialInterval * s.Multiplier).gt (Float64.ofInt s.MaxInterval)
       then s.MaxInterval
       else (Float64.ofInt s.InitialInterval * s.Multiplier).toInt64) ∧
    (∀ m : ℚ, s.Multiplier = .finite m →
      Float64.ofInt s.InitialInterval = .finite s.InitialInterval →
      Float64.ofInt s.MaxInterval = .finite s.MaxInterval →
      Float64.round (s.InitialInterval * m) = .finite (s.InitialInterval * m) →
      MinInt64 ≤ truncate (s.InitialInterval * m) → s.MaxInterval ≤ MaxInt64 →
      s.CalculateNextInterval a = min (truncate (s.InitialInterval * m)) s.MaxInterval) ∧
    (∀ c : Int, c ≤ 0 → s.CalculateNextInterval c = s.InitialInterval) := by
  have ha0 : ¬ a ≤ 0 := by omega
  have hb0 : ¬ b ≤ 0 := by omega
  have hval : ∀ c : Int, ¬ c ≤ 0 → s.CalculateNextInterval c =
      (if (Float64.ofInt s.InitialInterval * s.Multiplier).gt (Float64.ofInt s.MaxInterval)
       then s.MaxInterval
       else (Float64.ofInt s.InitialInterval * s.Multiplier).toInt64) := by
    intro c hc
    simp only [RetryStrategy.CalculateNextInterval, hc, if_false, durationOfFloat]
  refine ⟨by rw [hval a ha0, hval b hb0], hval a ha0, ?_, ?_⟩
  · intro m hm hinit hmax hprod hlow hhigh
    rw [hval a ha0, hm, hinit, hmax]
    have hmul : Float64.finite (s.InitialInterval : ℚ) * Float64.finite m =
        Float64.finite (s.InitialInterval * m) := hprod
    rw [hmul]
    by_cases hgt : (s.InitialInterval : ℚ) * m > (s.MaxInterval : ℚ)
    · have h1 : s.MaxInterval ≤ truncate (s.InitialInterval * m) :=
        le_truncate _ _ (le_of_lt hgt)
      simp only [Float64.gt, hgt, decide_True, if_true]
      exact (min_eq_right h1).symm
    · have h1 : truncate (s.InitialInterval * m) ≤ s.MaxInterval :=
        truncate_le _ _ (not_lt.mp hgt)
      have h2 : truncate (s.InitialInterval * m) ≤ MaxInt64 := le_trans h1 hhigh
      simp only [Float64.gt, hgt, decide_False, Float64.toInt64, hlow, h2, and_self, if_true]
      simp [min_eq_left h1]
  · intro c hc
    simp [RetryStrategy.CalculateNextInterval, hc]

theorem CalculateNextInterval_does_not_compound_witness :
    DefaultRetryStrategy.CalculateNextInterval 1 = DefaultRetryStrategy.CalculateNextInterval 7 ∧
    DefaultRetryStrategy.CalculateNextInterval 1 =
      min (truncate (DefaultRetryStrategy.InitialInterval * 2))
        DefaultRetryStrategy.MaxInterval ∧
    DefaultRetryStrategy.CalculateNextInterval 1 = 2 * Second :=
  ⟨(CalculateNextInterval_does_not_compound DefaultRetryStrategy 1 7 (by decide)
      (by decide)).1,
   (CalculateNextInterval_does_not_compound DefaultRetryStrategy 1 7 (by decide)
      (by decide)).2.2.1 2 (by decide!) (by decide!) (by decide!) (by decide!) (by decide!)
      (by decide!),
   by decide!⟩

/-- C28. For every strategy with MaxAttempts at most 0, every operation and every
context, cancelled or not, WithRetry returns nil without any effect: the operation is
not called and the world state is untouched. -/
theorem WithRetry_no_budget_returns_nil {σ : Type} (env : RetryEnv σ) (st : RetryStrategy)
    (s : σ) (h : st.MaxAttempts ≤ 0) :
    (WithRetry env st s).err = none ∧
    invocations (WithRetry env st s).trace = 0 ∧
    (WithRetry env st s).trace = [] ∧
    (WithRetry env st s).state = s := by
  have hz : st.MaxAttempts.toNat = 0 := by omega
  simp [WithRetry, hz, retryLoop, invocations]

theorem WithRetry_no_budget_returns_nil_witness :
    (WithRetry cancelledEnv negativeStrategy 0).err = none ∧
    invocations (WithRetry cancelledEnv negativeStrategy 0).trace = 0 ∧
    (WithRetry cancelledEnv negativeStrategy 0).trace = [] ∧
    (WithRetry cancelledEnv negativeStrategy 0).state = 0 :=
  WithRetry_no_budget_returns_nil cancelledEnv negativeStrategy 0 (by decide)

/-- C29. In a run of WithRetry with a context that is never cancelled and an operation
that fails with a retryable PaymentError on every call: every call, the last one
included, is directly followed by a backoff wait; the waits are as many as the calls,
namely max(MaxAttempts, 0), so MaxAttempts of them for a non-negative budget; the wait
after the k-th call (k from 0) lasts CalculateNextInterval(k), so the first one lasts
InitialInterval; and for DefaultRetryStrategy the waits last 1 s, 2 s, 2 s. -/
theorem WithRetry_sleeps_after_every_call {σ : Type} (env : RetryEnv σ) (st : RetryStrategy)
    (s : σ)
    (hctx : ∀ s, env.ctxErr s = none)
    (hwait : ∀ d s, (env.wait d s).2 = false)
    (hop : ∀ s, ∃ e, (env.op s).2 = some e ∧ e.isRetryable = true) :
    sleeps (WithRetry env st s).trace = invocations (WithRetry env st s).trace ∧
    sleeps (WithRetry env st s).trace = st.MaxAttempts.toNat ∧
    (0 ≤ st.MaxAttempts → (sleeps (WithRetry env st s).trace : Int) = st.MaxAttempts) ∧
    sleepIntervals (WithRetry env st s).trace = intervalsFrom st 0 st.MaxAttempts.toNat ∧
    (∀ pre x post, (WithRetry env st s).trace = pre ++ .invoke x :: post →
      ∃ d rest, post = .sleep d false :: rest) ∧
    (1 ≤ st.MaxAttempts →
      (sleepIntervals (WithRetry env st s).trace).head? = some st.InitialInterval) ∧
    (st = DefaultRetryStrategy →
      sleepIntervals (WithRetry env st s).trace = [1 * Second, 2 * Second, 2 * Second]) := by
  rcases le_or_lt 0 st.MaxAttempts with h0 | h0
  · have hinv : (0 : Int) + (st.MaxAttempts.toNat : Int) = st.MaxAttempts := by
      rw [Int.toNat_of_nonneg h0]; omega
    obtain ⟨h1, h2, h3, h4⟩ :=
      retryLoop_sleeps_always_retryable env st hctx hwait hop _ 0 none s hinv
    have h3' : sleepIntervals (WithRetry env st s).trace =
        intervalsFrom st 0 st.MaxAttempts.toNat := h3
    refine ⟨h1.trans h2.symm, h1, fun _ => ?_, h3', h4, fun hmax => ?_, fun hdef => ?_⟩
    · have h1' : sleeps (WithRetry env st s).trace = st.MaxAttempts.toNat := h1
      rw [h1', Int.toNat_of_nonneg h0]
    · obtain ⟨n, hn⟩ : ∃ n, st.MaxAttempts.toNat = n + 1 :=
        ⟨st.MaxAttempts.toNat - 1, by omega⟩
      rw [h3', hn]
      simp [intervalsFrom, RetryStrategy.CalculateNextInterval]
    · rw [h3', hdef]
      exact intervalsFrom_default
  · have hz : st.MaxAttempts.toNat = 0 := by omega
    have htrace : (WithRetry env st s).trace = [] := by
      simp [WithRetry, hz, retryLoop]
    refine ⟨by rw [htrace]; rfl, by rw [htrace, hz]; rfl, fun h => by omega,
      by rw [htrace, hz]; rfl, ?_, fun h => by omega, fun hdef => ?_⟩
    · intro pre x post h
      rw [htrace] at h
      simp at h
    · rw [hdef] at h0
      exact absurd h0 (by decide)

theorem WithRetry_sleeps_after_every_call_witness :
    sleeps (WithRetry alwaysRetryableEnv DefaultRetryStrategy 0).trace =
      invocations (WithRetry alwaysRetryableEnv DefaultRetryStrategy 0).trace ∧
    sleeps (WithRetry alwaysRetryableEnv DefaultRetryStrategy 0).trace = 3 ∧
    sleepIntervals (WithRetry alwaysRetryableEnv DefaultRetryStrategy 0).trace =
      [1 * Second, 2 * Second, 2 * Second] :=
  ⟨(WithRetry_sleeps_after_every_call alwaysRetryableEnv DefaultRetryStrategy 0
      (fun _ => rfl) (fun _ _ => rfl) (fun _ => ⟨sampleRetryable, rfl, rfl⟩)).1,
   (WithRetry_sleeps_after_every_call alwaysRetryableEnv DefaultRetryStrategy 0
      (fun _ => rfl) (fun _ _ => rfl) (fun _ => ⟨sampleRetryable, rfl, rfl⟩)).2.1,
   (WithRetry_sleeps_after_every_call alwaysRetryableEnv DefaultRetryStrategy 0
      (fun _ => rfl) (fun _ _ => rfl) (fun _ => ⟨sampleRetryable, rfl, rfl⟩)).2.2.2.2.2.2 rfl⟩

/-! ### The reconciliation poll, branch by branch -/

/-- The poll reports the status the payment already has: nothing happens. -/
theorem GetPaymentStatus_same (svc : PaymentService) (env : ServiceEnv) (p : Payment)
    (w : World) (provider : Provider) (status : PaymentStatus)
    (hprov : svc.providers p.ProviderType = some provider)
    (hpoll : provider.GetPaymentStatus p.TransactionID = (status, none))
    (hsame : status = p.Status) :
    svc.GetPaymentStatus env p w = ⟨w, p, status, none⟩ := by
  simp [PaymentService.GetPaymentStatus, hprov, hpoll, hsame]

/-- The poll reports another status and the store refuses the save: the error, no
publish, and only the log has grown. -/
theorem GetPaymentStatus_changed_refused (svc : PaymentService) (env : ServiceEnv)
    (p : Payment) (w : World) (provider : Provider) (status : PaymentStatus) (err : GoError)
    (hprov : svc.providers p.ProviderType = some provider)
    (hpoll : provider.GetPaymentStatus p.TransactionID = (status, none))
    (hdiff : status ≠ p.Status)
    (hsave : env.saveErr w { p with Status := status, UpdatedAt := w.now } = some err) :
    svc.GetPaymentStatus env p w =
      ⟨{ w with log := w.log ++ [.save p.ID false] },
       { p with Status := status, UpdatedAt := w.now }, status,
       some (.wrapped "failed to update payment status" err)⟩ := by
  simp [PaymentService.GetPaymentStatus, hprov, hpoll, hdiff, dbSave, hsave]

/-- The poll reports another status and the store accepts the save: the save, then one
call of PublishPaymentStatus with the new status, whose error (if any) is returned. -/
theorem GetPaymentStatus_changed_saved (svc : PaymentService) (env : ServiceEnv)
    (p : Payment) (w : World) (provider : Provider) (status : PaymentStatus)
    (hprov : svc.providers p.ProviderType = some provider)
    (hpoll : provider.GetPaymentStatus p.TransactionID = (status, none))
    (hdiff : status ≠ p.Status)
    (hsave : env.saveErr w { p with Status := status, UpdatedAt := w.now } = none) :
    (svc.GetPaymentStatus env p w).world =
      (svc.asyncService.PublishPaymentStatus env
        { OrderID := p.OrderID, Status := status, UpdatedAt := w.now }
        (dbSave env { p with Status := status, UpdatedAt := w.now } w).1).1 ∧
    ((svc.GetPaymentStatus env p w).err = none ↔
      (svc.asyncService.PublishPaymentStatus env
        { OrderID := p.OrderID, Status := status, UpdatedAt := w.now }
        (dbSave env { p with Status := status, UpdatedAt := w.now } w).1).2 = none) ∧
    (svc.GetPaymentStatus env p w).status = status := by
  have hd : dbSave env { p with Status := status, UpdatedAt := w.now } w =
      ((dbSave env { p with Status := status, UpdatedAt := w.now } w).1, none) := by
    exact Prod.ext rfl (by rw [dbSave_snd, hsave])
  simp only [PaymentService.GetPaymentStatus, hprov, hpoll, bne_iff_ne, ne_eq, hdiff,
    not_false_eq_true, if_true]
  rw [hd]
  simp only
  split
  · next w2 err hpub => simp [hpub]
  · next w2 hpub => simp [hpub]

/-- The log of an accepted status publish. -/
theorem PublishPaymentStatus_log (svc : AsyncService) (env : ServiceEnv)
    (msg : PaymentStatusMessage) (w : World) :
    ∃ accepted, (svc.PublishPaymentStatus env msg w).1.log =
      w.log ++ [.publishStatus msg.OrderID accepted] ∧
      (accepted = true ↔ (svc.PublishPaymentStatus env msg w).2 = none) ∧
      (accepted = true →
        (svc.PublishPaymentStatus env msg w).1.statusMessages = w.statusMessages ++ [msg]) := by
  unfold AsyncService.PublishPaymentStatus
  split
  · exact ⟨false, by simp⟩
  · exact ⟨true, by simp⟩

/-- The log and the status messages after a db.Save. -/
theorem dbSave_log (env : ServiceEnv) (payment : Payment) (w : World) :
    (dbSave env payment w).1.log =
      w.log ++ [.save payment.ID (env.saveErr w payment).isNone] ∧
    (dbSave env payment w).1.statusMessages = w.statusMessages := by
  unfold dbSave
  split <;> simp [*]

/-- Every row of the payments table after a db.Save was there before or carries the
status of the saved payment. -/
theorem dbSave_rows (env : ServiceEnv) (payment : Payment) (w : World) :
    ∀ q ∈ (dbSave env payment w).1.payments, q ∈ w.payments ∨ q.Status = payment.Status := by
  intro q hq
  unfold dbSave at hq
  split at hq
  · exact Or.inl hq
  · simp only at hq
    split at hq
    · rw [List.mem_map] at hq
      obtain ⟨q0, hq0, hqq⟩ := hq
      by_cases hc : q0.ID = payment.ID
      · simp [hc] at hqq
        exact Or.inr (by rw [← hqq])
      · simp [hc] at hqq
        exact Or.inl (by rw [← hqq]; exact hq0)
    · rw [List.mem_append] at hq
      rcases hq with hq | hq
      · exact Or.inl hq
      · simp at hq
        exact Or.inr (by rw [hq])

/-- Every row of the payments table after GetPaymentStatus was there before, or carries
the status of a poll that returned without error. -/
theorem GetPaymentStatus_rows (svc : PaymentService) (env : ServiceEnv) (p : Payment)
    (w : World) (provider : Provider)
    (hprov : svc.providers p.ProviderType = some provider) :
    ∀ q ∈ (svc.GetPaymentStatus env p w).world.payments,
      q ∈ w.payments ∨
      (q.Status = (provider.GetPaymentStatus p.TransactionID).1 ∧
        (provider.GetPaymentStatus p.TransactionID).2 = none) := by
  intro q hq
  rcases hpoll : provider.GetPaymentStatus p.TransactionID with ⟨status, perr⟩
  cases perr with
  | some err =>
    simp [PaymentService.GetPaymentStatus, hprov, hpoll] at hq
    exact Or.inl hq
  | none =>
    by_cases hsame : status = p.Status
    · rw [GetPaymentStatus_same svc env p w provider status hprov hpoll hsame] at hq
      exact Or.inl hq
    · cases hsave : env.saveErr w { p with Status := status, UpdatedAt := w.now } with
      | some err =>
        rw [GetPaymentStatus_changed_refused svc env p w provider status err hprov hpoll hsame
          hsave] at hq
        exact Or.inl hq
      | none =>
        rw [(GetPaymentStatus_changed_saved svc env p w provider status hprov hpoll hsame
          hsave).1, (PublishPaymentStatus_keeps_tables _ _ _ _).1] at hq
        rcases dbSave_rows env _ w q hq with h | h
        · exact Or.inl h
        · exact Or.inr ⟨h, rfl⟩

/-- The Stripe provider reports Unknown exactly when charge.Get fails, and then with an
error. -/
theorem StripeProvider_unknown_iff (sp : StripeProvider) (t : String) :
    ((sp.GetPaymentStatus t).1 = PaymentStatusUnknown ↔
      ∃ err, sp.backend.chargeGet t = .error err) ∧
    ((sp.GetPaymentStatus t).2 = none → (sp.GetPaymentStatus t).1 ≠ PaymentStatusUnknown) ∧
    (∀ err, sp.backend.chargeGet t = .error err →
      sp.GetPaymentStatus t = (PaymentStatusUnknown, some (.wrapped "failed to get charge" err))) := by
  unfold StripeProvider.GetPaymentStatus
  cases hget : sp.backend.chargeGet t with
  | error err => simp
  | ok ch =>
    have h1 : PaymentStatusRefunded ≠ PaymentStatusUnknown := by decide
    have h2 : PaymentStatusCompleted ≠ PaymentStatusUnknown := by decide
    have h3 : PaymentStatusFailed ≠ PaymentStatusUnknown := by decide
    have h4 : PaymentStatusPending ≠ PaymentStatusUnknown := by decide
    simp only
    split
    · simp [h1]
    · split
      · simp [h2]
      · split
        · simp [h3]
        · simp [h4]

/-- The PayPal provider reports Unknown exactly when GetCapture fails, and then with an
error. -/
theorem PayPalProvider_unknown_iff (pp : PayPalProvider) (t : String) :
    ((pp.GetPaymentStatus t).1 = PaymentStatusUnknown ↔
      ∃ err, pp.client.getCapture t = .error err) ∧
    ((pp.GetPaymentStatus t).2 = none → (pp.GetPaymentStatus t).1 ≠ PaymentStatusUnknown) ∧
    (∀ err, pp.client.getCapture t = .error err →
      pp.GetPaymentStatus t =
        (PaymentStatusUnknown, some (.wrapped "failed to get PayPal capture" err))) := by
  unfold PayPalProvider.GetPaymentStatus
  cases hget : pp.client.getCapture t with
  | error err => simp
  | ok capture =>
    have h1 : PaymentStatusRefunded ≠ PaymentStatusUnknown := by decide
    have h2 : PaymentStatusCompleted ≠ PaymentStatusUnknown := by decide
    have h3 : PaymentStatusFailed ≠ PaymentStatusUnknown := by decide
    have h4 : PaymentStatusPending ≠ PaymentStatusUnknown := by decide
    simp only
    split
    · simp [h2]
    · split
      · simp [h3]
      · split
        · simp [h1]
        · simp [h4]

/-- A poll that returned an error: GetPaymentStatus returns Unknown with the wrapped
error and touches nothing. -/
theorem GetPaymentStatus_poll_failed (svc : PaymentService) (env : ServiceEnv) (p : Payment)
    (w : World) (provider : Provider) (st : PaymentStatus) (err : GoError)
    (hprov : svc.providers p.ProviderType = some provider)
    (hpoll : provider.GetPaymentStatus p.TransactionID = (st, some err)) :
    svc.GetPaymentStatus env p w =
      ⟨w, p, PaymentStatusUnknown, some (.wrapped "failed to get payment status" err)⟩ := by
  simp [PaymentService.GetPaymentStatus, hprov, hpoll]

/-! ### Claims about the reconciliation poll -/

/-- C21 (as stated, refuted). (1) The provider reports Pending for the stored completed
payment of order O3 and the store refuses the save: the returned status differs from
the stored one, yet the row is still Completed, nothing is published and the call
returns the wrapped store error. (2) The caller holds a stale copy (Completed) of a
row that is Pending in the store and the provider reports Pending: the returned
status equals the stored one, yet the row is saved and a status message is
published. -/
theorem GetPaymentStatus_refused_save_and_stale_copy :
    ((samplePaymentService.GetPaymentStatus saveRefusedEnv completedPayment
        completedWorld).status = PaymentStatusPending ∧
      storedStatuses completedWorld = [PaymentStatusCompleted] ∧
      storedStatuses (samplePaymentService.GetPaymentStatus saveRefusedEnv completedPayment
        completedWorld).world = [PaymentStatusCompleted] ∧
      (samplePaymentService.GetPaymentStatus saveRefusedEnv completedPayment
        completedWorld).world.log = [.save "p-3" false] ∧
      (samplePaymentService.GetPaymentStatus saveRefusedEnv completedPayment
        completedWorld).world.statusMessages.length = 0 ∧
      (samplePaymentService.GetPaymentStatus saveRefusedEnv completedPayment
        completedWorld).err =
        some (.wrapped "failed to update payment status" (.other "connection refused"))) ∧
    ((samplePaymentService.GetPaymentStatus reliableServiceEnv completedPayment
        pendingRowWorld).status = PaymentStatusPending ∧
      storedStatuses pendingRowWorld = [PaymentStatusPending] ∧
      (samplePaymentService.GetPaymentStatus reliableServiceEnv completedPayment
        pendingRowWorld).world.log = [.save "p-3" true, .publishStatus "O3" true] ∧
      (samplePaymentService.GetPaymentStatus reliableServiceEnv completedPayment
        pendingRowWorld).world.statusMessages.length = 1) :=
  ⟨⟨rfl, by decide, by decide, rfl, by decide, rfl⟩, ⟨rfl, by decide, rfl, by decide⟩⟩

/-- C21 (amended). For every payment object and every status that the provider poll
returns without error, GetPaymentStatus returns that status and compares it with the
status of the payment object it was given: (1) when they are equal, the world is exactly
as before (no store write, no publish) and the error is nil; (2) when they differ,
db.Save is called with the payment carrying the returned status, as the first new
effect; (3) when they differ and the store accepts that save of a stored payment, the
payment is stored with the returned status and PublishPaymentStatus is called exactly
once, after the save, with the order id and the returned status; the call returns nil
exactly when the broker accepts the message, which is then the one new status message;
(4) when they differ and the store refuses the save, the call returns the wrapped store
error, the refused save is the only new effect and nothing is published. -/
theorem GetPaymentStatus_writes_exactly_on_change (svc : PaymentService) (env : ServiceEnv)
    (p : Payment) (w : World) (provider : Provider) (status : PaymentStatus)
    (hprov : svc.providers p.ProviderType = some provider)
    (hpoll : provider.GetPaymentStatus p.TransactionID = (status, none)) :
    (svc.GetPaymentStatus env p w).status = status ∧
    (status = p.Status →
      (svc.GetPaymentStatus env p w).world = w ∧ (svc.GetPaymentStatus env p w).err = none) ∧
    (status ≠ p.Status →
      ∃ accepted rest,
        (svc.GetPaymentStatus env p w).world.log = w.log ++ .save p.ID accepted :: rest) ∧
    (status ≠ p.Status →
      env.saveErr w { p with Status := status, UpdatedAt := w.now } = none →
      (∃ q ∈ w.payments, q.ID = p.ID) →
      StoredStatusIs p.ID status (svc.GetPaymentStatus env p w).world ∧
      ∃ accepted,
        (svc.GetPaymentStatus env p w).world.log =
          w.log ++ [.save p.ID true, .publishStatus p.OrderID accepted] ∧
        (accepted = true ↔ (svc.GetPaymentStatus env p w).err = none) ∧
        (accepted = true →
          (svc.GetPaymentStatus env p w).world.statusMessages =
            w.statusMessages ++
              [{ OrderID := p.OrderID, Status := status, UpdatedAt := w.now }])) ∧
    (status ≠ p.Status →
      ∀ err, env.saveErr w { p with Status := status, UpdatedAt := w.now } = some err →
      (svc.GetPaymentStatus env p w).err =
        some (.wrapped "failed to update payment status" err) ∧
      (svc.GetPaymentStatus env p w).world = { w with log := w.log ++ [.save p.ID false] }) := by
  refine ⟨?_, ?_, ?_, ?_, fun hdiff err hsave => by
    rw [GetPaymentStatus_changed_refused svc env p w provider status err hprov hpoll hdiff
      hsave]
    exact ⟨rfl, rfl⟩⟩
  · by_cases hsame : status = p.Status
    · rw [GetPaymentStatus_same svc env p w provider status hprov hpoll hsame]
    · cases hsave : env.saveErr w { p with Status := status, UpdatedAt := w.now } with
      | some err =>
        rw [GetPaymentStatus_changed_refused svc env p w provider status err hprov hpoll hsame
          hsave]
      | none =>
        exact (GetPaymentStatus_changed_saved svc env p w provider status hprov hpoll hsame
          hsave).2.2
  · intro hsame
    rw [GetPaymentStatus_same svc env p w provider status hprov hpoll hsame]
    exact ⟨rfl, rfl⟩
  · intro hdiff
    cases hsave : env.saveErr w { p with Status := status, UpdatedAt := w.now } with
    | some err =>
      rw [GetPaymentStatus_changed_refused svc env p w provider status err hprov hpoll hdiff
        hsave]
      exact ⟨false, [], rfl⟩
    | none =>
      obtain ⟨hw, _, _⟩ :=
        GetPaymentStatus_changed_saved svc env p w provider status hprov hpoll hdiff hsave
      obtain ⟨accepted, hlog, _, _⟩ := PublishPaymentStatus_log svc.asyncService env
        { OrderID := p.OrderID, Status := status, UpdatedAt := w.now }
        (dbSave env { p with Status := status, UpdatedAt := w.now } w).1
      refine ⟨true, [.publishStatus p.OrderID accepted], ?_⟩
      rw [hw, hlog, (dbSave_log env _ w).1, hsave]
      simp
  · intro hdiff hsave hex
    obtain ⟨hw, herr, _⟩ :=
      GetPaymentStatus_changed_saved svc env p w provider status hprov hpoll hdiff hsave
    obtain ⟨accepted, hlog, hacc, hmsg⟩ := PublishPaymentStatus_log svc.asyncService env
      { OrderID := p.OrderID, Status := status, UpdatedAt := w.now }
      (dbSave env { p with Status := status, UpdatedAt := w.now } w).1
    constructor
    · rw [hw]
      exact StoredStatusIs_of_payments_eq _ _ _ _ (PublishPaymentStatus_keeps_tables _ _ _ _).1
        (dbSave_stores env { p with Status := status, UpdatedAt := w.now } w hsave hex)
    · refine ⟨accepted, ?_, ?_, ?_⟩
      · rw [hw, hlog, (dbSave_log env _ w).1, hsave]
        simp
      · rw [herr]; exact hacc
      · intro ha
        rw [hw, hmsg ha, (dbSave_log env _ w).2]

theorem GetPaymentStatus_writes_exactly_on_change_witness :
    (samplePaymentService.GetPaymentStatus reliableServiceEnv completedPayment
      completedWorld).status = PaymentStatusPending ∧
    (∃ accepted rest,
      (samplePaymentService.GetPaymentStatus reliableServiceEnv completedPayment
        completedWorld).world.log = completedWorld.log ++ .save completedPayment.ID accepted
          :: rest) ∧
    (StoredStatusIs completedPayment.ID PaymentStatusPending
        (samplePaymentService.GetPaymentStatus reliableServiceEnv completedPayment
          completedWorld).world ∧
      ∃ accepted,
        (samplePaymentService.GetPaymentStatus reliableServiceEnv completedPayment
          completedWorld).world.log =
          completedWorld.log ++
            [.save completedPayment.ID true,
             .publishStatus completedPayment.OrderID accepted] ∧
        (accepted = true ↔
          (samplePaymentService.GetPaymentStatus reliableServiceEnv completedPayment
            completedWorld).err = none) ∧
        (accepted = true →
          (samplePaymentService.GetPaymentStatus reliableServiceEnv completedPayment
            completedWorld).world.statusMessages =
            completedWorld.statusMessages ++
              [{ OrderID := completedPayment.OrderID, Status := PaymentStatusPending,
                 UpdatedAt := completedWorld.now }])) :=
  ⟨(GetPaymentStatus_writes_exactly_on_change samplePaymentService reliableServiceEnv
      completedPayment completedWorld sampleStripe.toProvider PaymentStatusPending rfl rfl).1,
   (GetPaymentStatus_writes_exactly_on_change samplePaymentService reliableServiceEnv
      completedPayment completedWorld sampleStripe.toProvider PaymentStatusPending rfl
      rfl).2.2.1 (by decide),
   (GetPaymentStatus_writes_exactly_on_change samplePaymentService reliableServiceEnv
      completedPayment completedWorld sampleStripe.toProvider PaymentStatusPending rfl
      rfl).2.2.2.1 (by decide) rfl ⟨completedPayment, by simp [completedWorld], rfl⟩⟩

/-- C22. (1, 2) The Stripe and the PayPal provider return the status Unknown from
GetPaymentStatus if and only if the backend call (charge.Get, GetCapture) fails. (3)
Whenever the provider's poll returns an error, PaymentService.GetPaymentStatus returns
Unknown with an error and leaves the world and the payment object exactly as they
were. (4, 5) With either provider, a backend failure therefore gives Unknown, an error
and an untouched store, and in every run each row of the payments table was there
before or has a status other than Unknown: Unknown is never written. -/
theorem unknown_is_never_stored (svc : PaymentService) (env : ServiceEnv) (p : Payment)
    (w : World) :
    (∀ (sp : StripeProvider) (t : String),
      (sp.GetPaymentStatus t).1 = PaymentStatusUnknown ↔
        ∃ err, sp.backend.chargeGet t = .error err) ∧
    (∀ (pp : PayPalProvider) (t : String),
      (pp.GetPaymentStatus t).1 = PaymentStatusUnknown ↔
        ∃ err, pp.client.getCapture t = .error err) ∧
    (∀ (provider : Provider) (st : PaymentStatus) (err : GoError),
      svc.providers p.ProviderType = some provider →
      provider.GetPaymentStatus p.TransactionID = (st, some err) →
      (svc.GetPaymentStatus env p w).status = PaymentStatusUnknown ∧
      (svc.GetPaymentStatus env p w).err =
        some (.wrapped "failed to get payment status" err) ∧
      (svc.GetPaymentStatus env p w).world = w ∧
      (svc.GetPaymentStatus env p w).payment = p) ∧
    (∀ sp : StripeProvider, svc.providers p.ProviderType = some sp.toProvider →
      (∀ err, sp.backend.chargeGet p.TransactionID = .error err →
        (svc.GetPaymentStatus env p w).status = PaymentStatusUnknown ∧
        (svc.GetPaymentStatus env p w).err.isSome = true ∧
        (svc.GetPaymentStatus env p w).world = w) ∧
      (∀ q ∈ (svc.GetPaymentStatus env p w).world.payments,
        q ∈ w.payments ∨ q.Status ≠ PaymentStatusUnknown)) ∧
    (∀ pp : PayPalProvider, svc.providers p.ProviderType = some pp.toProvider →
      (∀ err, pp.client.getCapture p.TransactionID = .error err →
        (svc.GetPaymentStatus env p w).status = PaymentStatusUnknown ∧
        (svc.GetPaymentStatus env p w).err.isSome = true ∧
        (svc.GetPaymentStatus env p w).world = w) ∧
      (∀ q ∈ (svc.GetPaymentStatus env p w).world.payments,
        q ∈ w.payments ∨ q.Status ≠ PaymentStatusUnknown)) := by
  refine ⟨fun sp t => (StripeProvider_unknown_iff sp t).1,
    fun pp t => (PayPalProvider_unknown_iff pp t).1, ?_, ?_, ?_⟩
  · intro provider st err hprov hpoll
    rw [GetPaymentStatus_poll_failed svc env p w provider st err hprov hpoll]
    exact ⟨rfl, rfl, rfl, rfl⟩
  · intro sp hprov
    constructor
    · intro err hget
      rw [GetPaymentStatus_poll_failed svc env p w sp.toProvider _ _ hprov
        ((StripeProvider_unknown_iff sp p.TransactionID).2.2 err hget)]
      exact ⟨rfl, rfl, rfl⟩
    · intro q hq
      rcases GetPaymentStatus_rows svc env p w sp.toProvider hprov q hq with h | ⟨h1, h2⟩
      · exact Or.inl h
      · right
        rw [h1]
        exact (StripeProvider_unknown_iff sp p.TransactionID).2.1 h2
  · intro pp hprov
    constructor
    · intro err hget
      rw [GetPaymentStatus_poll_failed svc env p w pp.toProvider _ _ hprov
        ((PayPalProvider_unknown_iff pp p.TransactionID).2.2 err hget)]
      exact ⟨rfl, rfl, rfl⟩
    · intro q hq
      rcases GetPaymentStatus_rows svc env p w pp.toProvider hprov q hq with h | ⟨h1, h2⟩
      · exact Or.inl h
      · right
        rw [h1]
        exact (PayPalProvider_unknown_iff pp p.TransactionID).2.1 h2

theorem unknown_is_never_stored_witness :
    ∀ q ∈ (samplePaymentService.GetPaymentStatus reliableServiceEnv completedPayment
        completedWorld).world.payments,
      q ∈ completedWorld.payments ∨ q.Status ≠ PaymentStatusUnknown :=
  ((unknown_is_never_stored samplePaymentService reliableServiceEnv completedPayment
    completedWorld).2.2.2.1 sampleStripe rfl).2

/-! ### The producer side under the retry engine -/

theorem processPaymentOperation_ok (env : ProducerEnv) (payment : Payment)
    (msg : PaymentMessage) (w : World) (h : (PublishPayment env msg w).2 = none) :
    (processPaymentOperation env payment msg w).2 = none := by
  unfold processPaymentOperation
  split
  next w1 err heq => rw [heq] at h; simp at h
  next w1 heq => rfl

/-- C24 (as stated, refuted). The record that handlePayment creates in an empty store
from the message that ProcessPaymentAsync builds from the completed payment of order O9
has an empty transaction id and no payment details, while the payment has the
transaction id ch_9 and card details: PaymentMessage has no field for either. -/
theorem handlePayment_record_drops_transaction_id :
    ((NewAsyncService.handlePayment reliableEnv
        (paymentMessageOf detailedPayment emptyWorld.now) emptyWorld).state.payments.map
      (fun r => (r.OrderID, r.TransactionID, r.PaymentDetails))) = [("O9", "", [])] ∧
    detailedPayment.TransactionID = "ch_9" ∧
    detailedPayment.PaymentDetails = [("card", "visa")] := by
  decide

/-- C24 (amended). For every payment p, when the store holds no processed record of the
order and accepts the insert, handlePayment on the message that ProcessPaymentAsync
builds from p appends exactly one record, and that record agrees with p on the order
id, amount, currency, status, provider, customer id, customer email and metadata; its
payment date is the time the message was built, and its transaction id and payment
details are empty whatever p holds. -/
theorem handlePayment_record_agrees_on_carried_fields (svc : AsyncService) (env : AsyncEnv)
    (p : Payment) (now : Time) (w : World)
    (hmax : 1 ≤ svc.strategy.MaxAttempts)
    (hfind : w.payments.find?
      (fun q => q.OrderID == p.OrderID && q.Status != PaymentStatusPending) = none)
    (hcreate : env.createErr { w with log := w.log ++ [.findProcessed p.OrderID] }
      (paymentOfMessage (paymentMessageOf p now)) = none) :
    ∃ r, (svc.handlePayment env (paymentMessageOf p now) w).state.payments =
        w.payments ++ [r] ∧
      r.OrderID = p.OrderID ∧ r.Amount = p.Amount ∧ r.Currency = p.Currency ∧
      r.Status = p.Status ∧ r.Provider = p.Provider ∧ r.CustomerID = p.CustomerID ∧
      r.CustomerEmail = p.CustomerEmail ∧ r.MetaData = p.MetaData ∧
      r.PaymentDate = now ∧ r.TransactionID = "" ∧ r.PaymentDetails = [] := by
  obtain ⟨herr, hpay, _, _⟩ :=
    handlePaymentOperation_created env (paymentMessageOf p now) w hfind hcreate
  have hstate : (svc.handlePayment env (paymentMessageOf p now) w).state =
      (handlePaymentOperation env (paymentMessageOf p now) w).1 :=
    (WithRetry_first_call_nil (backgroundEnv (handlePaymentOperation env (paymentMessageOf p now)))
      svc.strategy w (handlePaymentOperation env (paymentMessageOf p now) w).1 hmax rfl
      (Prod.ext rfl herr)).2.1
  refine ⟨{ paymentOfMessage (paymentMessageOf p now) with
      CreatedAt := w.now, UpdatedAt := w.now }, ?_, rfl, rfl, rfl, rfl, rfl, rfl, rfl, rfl, rfl,
    rfl, rfl⟩
  rw [hstate, hpay]

theorem handlePayment_record_agrees_on_carried_fields_witness :
    ∃ r, (NewAsyncService.handlePayment reliableEnv
          (paymentMessageOf detailedPayment 1700000000) emptyWorld).state.payments =
        emptyWorld.payments ++ [r] ∧
      r.OrderID = detailedPayment.OrderID ∧ r.Amount = detailedPayment.Amount ∧
      r.Currency = detailedPayment.Currency ∧ r.Status = detailedPayment.Status ∧
      r.Provider = detailedPayment.Provider ∧ r.CustomerID = detailedPayment.CustomerID ∧
      r.CustomerEmail = detailedPayment.CustomerEmail ∧
      r.MetaData = detailedPayment.MetaData ∧ r.PaymentDate = 1700000000 ∧
      r.TransactionID = "" ∧ r.PaymentDetails = [] :=
  handlePayment_record_agrees_on_carried_fields NewAsyncService reliableEnv detailedPayment
    1700000000 emptyWorld (by decide) rfl rfl

/-! ### Closing the broker handle, stopping the collector, scanning a JSON column -/

/-- C25 (the code at the failing input). When channel.Close() returns an error,
RabbitMQ.Close returns that error wrapped, after the collector stop and the channel
close and without calling conn.Close(); over all handles, conn.Close() is called
exactly when channel.Close() returned nil. -/
theorem Close_skips_connection_after_channel_error :
    closedChannel.Close =
      ([.collectorStop, .channelClose],
       some (.wrapped "failed to close channel" (.other "channel/connection is not open"))) ∧
    CloseEffect.connClose ∉ closedChannel.Close.1 ∧
    (∀ r : RabbitMQ, CloseEffect.connClose ∈ r.Close.1 ↔ r.channelCloseErr = none) := by
  refine ⟨rfl, by decide, ?_⟩
  intro r
  unfold RabbitMQ.Close
  cases h1 : r.channelCloseErr with
  | some err => simp
  | none => cases h2 : r.connCloseErr <;> simp

/-- Every call of collectMetrics is one entry collectMetrics in the log. -/
theorem collectCalls_collectMetrics (env : CollectorEnv) (queues : List String) :
    collectCalls (collectMetrics env queues).1 = 1 := by
  unfold collectMetrics collectCalls
  cases env.channelErr with
  | some err => simp
  | none =>
    have h : ∀ qs : List String,
        List.count CollectorEffect.collectMetrics (qs.flatMap (fun queueName =>
          match env.inspect queueName with
          | none => []
          | some queue =>
            [CollectorEffect.setQueueSize queueName queue.Messages,
             CollectorEffect.setQueueConsumers queueName queue.Consumers])) = 0 := by
      intro qs
      induction qs with
      | nil => simp
      | cons q t ih =>
        rw [List.flatMap_cons, List.count_append, ih]
        cases env.inspect q <;> simp
    simp [h]

/-- Ticks at a collector whose goroutine is in its loop: each one calls collectMetrics,
whether or not done has been closed. -/
theorem collector_ticks_collect (env : CollectorEnv) (queues : List String) :
    ∀ (n : Nat) (s : CollectorState), s.running = true → s.panicked = false →
      ((List.replicate n CollectorEvent.tick).foldl (collectorStep env queues) s).running
        = true ∧
      collectCalls
        ((List.replicate n CollectorEvent.tick).foldl (collectorStep env queues) s).log =
        collectCalls s.log + n := by
  intro n
  induction n with
  | zero => intro s hr _; exact ⟨hr, rfl⟩
  | succ n ih =>
    intro s hr hp
    rw [List.replicate_succ, List.foldl_cons]
    have hstep : collectorStep env queues s .tick =
        { s with log := s.log ++ (collectMetrics env queues).1 } := by
      simp [collectorStep, hr, hp]
    rw [hstep]
    obtain ⟨h1, h2⟩ := ih { s with log := s.log ++ (collectMetrics env queues).1 } hr hp
    refine ⟨h1, ?_⟩
    rw [h2]
    have h3 := collectCalls_collectMetrics env queues
    unfold collectCalls at *
    rw [List.count_append, h3]
    omega

/-- C27 (the code at the failing input). A collector is started, ticks once, is stopped
and ticks twice more: the two later ticks call collectMetrics again, after the
close(c.done) of Stop, and the goroutine is still in its loop. For any broker and any
number n of ticks after a Stop that directly follows Start, collectMetrics is called n
times: the select of the goroutine never reads done. -/
theorem Stop_does_not_stop_collection :
    collectCalls
      (afterStop (runCollector sampleCollectorEnv [PaymentQueue] [.tick, .stop, .tick, .tick]).log)
      = 2 ∧
    (runCollector sampleCollectorEnv [PaymentQueue] [.tick, .stop, .tick, .tick]).running
      = true ∧
    (runCollector sampleCollectorEnv [PaymentQueue] [.tick, .stop, .tick, .tick]).doneClosed
      = true ∧
    (∀ (env : CollectorEnv) (queues : List String) (n : Nat),
      collectCalls (runCollector env queues (.stop :: List.replicate n .tick)).log = n ∧
      (runCollector env queues (.stop :: List.replicate n .tick)).running = true) := by
  refine ⟨by decide, rfl, rfl, ?_⟩
  intro env queues n
  obtain ⟨h1, h2⟩ := collector_ticks_collect env queues n
    (collectorStep env queues QueueCollector.Start .stop) rfl rfl
  refine ⟨?_, h1⟩
  have h3 : collectCalls (collectorStep env queues QueueCollector.Start .stop).log = 0 := by
    simp [collectorStep, QueueCollector.Start, collectCalls]
  unfold runCollector
  rw [List.foldl_cons, h2, h3]
  omega

/-- C30 (the code at the failing input). JSON.Scan on a value of dynamic type string
panics in the type assertion, whatever the decoder; so it does on every value that is
neither nil nor a byte slice. On nil it sets the receiver to nil and returns nil, and
on a byte slice it returns what json.Unmarshal returns. -/
theorem Scan_panics_on_string :
    (∀ unmarshal j s, JSON.Scan unmarshal j (.text s) =
      .panicked "interface conversion: interface {} is string, not []uint8") ∧
    (∀ unmarshal j v, (JSON.Scan unmarshal j v).isPanic = true ↔
      (v.typeName ≠ "nil" ∧ v.typeName ≠ "[]uint8")) ∧
    (∀ unmarshal j, JSON.Scan unmarshal j .null = .returned none none) ∧
    (∀ unmarshal j b, JSON.Scan unmarshal j (.bytes b) =
      .returned (unmarshal b j).1 (unmarshal b j).2) ∧
    JSON.Scan sampleJSONUnmarshal none (.bytes [123]) =
      .returned none (some (.other "invalid character")) := by
  refine ⟨fun _ _ _ => rfl, ?_, fun _ _ => rfl, fun _ _ _ => rfl, rfl⟩
  intro unmarshal j v
  cases v <;> simp [JSON.Scan, ScanOutcome.isPanic, DriverValue.typeName]

end GoPayment
